import Mathlib

/-!
# Stencil functions of the NS-EOF flow solver

A shallow embedding of `Source/Stencils/StencilFunctions.hpp`: the index mapper `mapd`, the
second-derivative operators, the nine blended advection operators and the five momentum
assemblers, followed by theorems about them.

Conventions of the embedding.

* `RealType` is an arbitrary linearly ordered field `K` (exact arithmetic); every definition is
  computable and can be evaluated at `K = ℚ`.  This gives the value of every formula up to
  rounding.  Where the rounding itself decides what the program does (the consistency check of
  the advection operators) the operators are embedded a second time with an explicit rounding
  function, see the section on rounded arithmetic.
* A `RealType*` buffer is a total function from the slot index to the stored value.
* The preprocessor switch `NDEBUG` is the Boolean argument `ndebug` (`true`: production build,
  the consistency check is compiled out; `false`: the check is compiled in).  A function that can
  `throw std::runtime_error` returns `Except String K`.
* `fabs` is the absolute value of `K`.
-/

namespace Stencils

variable {K : Type} [LinearOrderedField K]

/-! ## Data model -/

/-- A local cube (`RealType*` with 81 slots), addressed by the slot index. -/
abbrev Cube (K : Type) := Int → K

/-- Modelled from the spec: `Parameters.hpp` is not part of the sources at hand; this is the
`solver` group of the parameter struct, of which the stencils read the blending coefficient
`gamma`. -/
structure SolverParameters (K : Type) where
  gamma : K

/-- Modelled from the spec: `Parameters.hpp` is not part of the sources at hand; this is the
`flow` group of the parameter struct, holding the Reynolds number `Re`. -/
structure FlowParameters (K : Type) where
  Re : K

/-- Modelled from the spec: `Parameters.hpp` is not part of the sources at hand; this is the
`environment` group of the parameter struct, holding the body force `gx`, `gy`, `gz`. -/
structure EnvironmentParameters (K : Type) where
  gx : K
  gy : K
  gz : K

/-- Modelled from the spec: `Parameters.hpp` is not part of the sources at hand; the read-only
solver parameters, accessed in the source as `parameters.solver.gamma`, `parameters.flow.Re`
and `parameters.environment.gx` (`gy`, `gz`). -/
structure Parameters (K : Type) where
  solver : SolverParameters K
  flow : FlowParameters K
  environment : EnvironmentParameters K

/-- The local variables of the body of one blended advection operator, in the order of the
source: the reference value `tmp1` of the consistency check, the transporting face velocities
`kr` and `kl`, the two estimates and the blended value `tmp2`. -/
structure AdvectionLocals (K : Type) where
  tmp1 : K
  kr : K
  kl : K
  secondOrder : K
  firstOrder : K
  tmp2 : K

/-! ## Index mapper -/

/-- Source `mapd` (line 63): maps an index and a component to the slot in the cube. -/
def mapd (i j k component : Int) : Int := 39 + 27 * k + 9 * j + 3 * i + component

/-! ## Second derivatives (source lines 89-203)

The source also declares `index_x1` in each of them and never reads it. -/

/-- Source `d2udx2`. -/
def d2udx2 (lv lm : Cube K) : K :=
  let index_u0 := mapd 0 0 0 0
  let index_u1 := mapd (-1) 0 0 0
  let index_u2 := mapd 1 0 0 0
  let index_x0 := mapd 0 0 0 0
  let index_x2 := mapd 1 0 0 0
  2 * ((lv index_u2) / (lm index_x2 * (lm index_x2 + lm index_x0))
    - (lv index_u0) / (lm index_x0 * lm index_x2)
    + (lv index_u1) / (lm index_x0 * (lm index_x0 + lm index_x2)))

/-- Source `d2vdx2`. -/
def d2vdx2 (lv lm : Cube K) : K :=
  let index_u0 := mapd 0 0 0 1
  let index_u1 := mapd (-1) 0 0 1
  let index_u2 := mapd 1 0 0 1
  let index_x0 := mapd 0 0 0 0
  let index_x2 := mapd 1 0 0 0
  2 * ((lv index_u2) / (lm index_x2 * (lm index_x2 + lm index_x0))
    - (lv index_u0) / (lm index_x0 * lm index_x2)
    + (lv index_u1) / (lm index_x0 * (lm index_x0 + lm index_x2)))

/-- Source `d2wdx2`. -/
def d2wdx2 (lv lm : Cube K) : K :=
  let index_u0 := mapd 0 0 0 2
  let index_u1 := mapd (-1) 0 0 2
  let index_u2 := mapd 1 0 0 2
  let index_x0 := mapd 0 0 0 0
  let index_x2 := mapd 1 0 0 0
  2 * ((lv index_u2) / (lm index_x2 * (lm index_x2 + lm index_x0))
    - (lv index_u0) / (lm index_x0 * lm index_x2)
    + (lv index_u1) / (lm index_x0 * (lm index_x0 + lm index_x2)))

/-- Source `d2udy2`. -/
def d2udy2 (lv lm : Cube K) : K :=
  let index_u0 := mapd 0 0 0 0
  let index_u1 := mapd 0 (-1) 0 0
  let index_u2 := mapd 0 1 0 0
  let index_x0 := mapd 0 0 0 1
  let index_x2 := mapd 0 1 0 1
  2 * ((lv index_u2) / (lm index_x2 * (lm index_x2 + lm index_x0))
    - (lv index_u0) / (lm index_x0 * lm index_x2)
    + (lv index_u1) / (lm index_x0 * (lm index_x0 + lm index_x2)))

/-- Source `d2vdy2`. -/
def d2vdy2 (lv lm : Cube K) : K :=
  let index_u0 := mapd 0 0 0 1
  let index_u1 := mapd 0 (-1) 0 1
  let index_u2 := mapd 0 1 0 1
  let index_x0 := mapd 0 0 0 1
  let index_x2 := mapd 0 1 0 1
  2 * ((lv index_u2) / (lm index_x2 * (lm index_x2 + lm index_x0))
    - (lv index_u0) / (lm index_x0 * lm index_x2)
    + (lv index_u1) / (lm index_x0 * (lm index_x0 + lm index_x2)))

/-- Source `d2wdy2`. -/
def d2wdy2 (lv lm : Cube K) : K :=
  let index_u0 := mapd 0 0 0 2
  let index_u1 := mapd 0 (-1) 0 2
  let index_u2 := mapd 0 1 0 2
  let index_x0 := mapd 0 0 0 1
  let index_x2 := mapd 0 1 0 1
  2 * ((lv index_u2) / (lm index_x2 * (lm index_x2 + lm index_x0))
    - (lv index_u0) / (lm index_x0 * lm index_x2)
    + (lv index_u1) / (lm index_x0 * (lm index_x0 + lm index_x2)))

/-- Source `d2udz2`; the spacings are read at component 0, as in the source. -/
def d2udz2 (lv lm : Cube K) : K :=
  let index_u0 := mapd 0 0 0 0
  let index_u1 := mapd 0 0 (-1) 0
  let index_u2 := mapd 0 0 1 0
  let index_x0 := mapd 0 0 0 0
  let index_x2 := mapd 0 0 1 0
  2 * ((lv index_u2) / (lm index_x2 * (lm index_x2 + lm index_x0))
    - (lv index_u0) / (lm index_x0 * lm index_x2)
    + (lv index_u1) / (lm index_x0 * (lm index_x0 + lm index_x2)))

/-- Source `d2vdz2`; the spacings are read at component 0, as in the source. -/
def d2vdz2 (lv lm : Cube K) : K :=
  let index_u0 := mapd 0 0 0 1
  let index_u1 := mapd 0 0 (-1) 1
  let index_u2 := mapd 0 0 1 1
  let index_x0 := mapd 0 0 0 0
  let index_x2 := mapd 0 0 1 0
  2 * ((lv index_u2) / (lm index_x2 * (lm index_x2 + lm index_x0))
    - (lv index_u0) / (lm index_x0 * lm index_x2)
    + (lv index_u1) / (lm index_x0 * (lm index_x0 + lm index_x2)))

/-- Source `d2wdz2`; the spacings are read at component 0, as in the source. -/
def d2wdz2 (lv lm : Cube K) : K :=
  let index_u0 := mapd 0 0 0 2
  let index_u1 := mapd 0 0 (-1) 2
  let index_u2 := mapd 0 0 1 2
  let index_x0 := mapd 0 0 0 0
  let index_x2 := mapd 0 0 1 0
  2 * ((lv index_u2) / (lm index_x2 * (lm index_x2 + lm index_x0))
    - (lv index_u0) / (lm index_x0 * lm index_x2)
    + (lv index_u1) / (lm index_x0 * (lm index_x0 + lm index_x2)))

/-! ## Blended advection operators (source lines 207-694)

Each operator is embedded twice over: the value-level body (`...Locals`, one `let` per local
variable of the source, in source order) and the function itself, which adds the consistency
check that is compiled in when `NDEBUG` is not defined. -/

/-- The body of source `duvdx` up to the consistency check: its local variables. -/
def duvdxLocals (lv : Cube K) (parameters : Parameters K) (lm : Cube K) : AdvectionLocals K :=
  let tmp1 := 1.0 / 4.0 * ((((lv (mapd 0 0 0 0) + lv (mapd 0 1 0 0)) * (lv (mapd 0 0 0 1) + lv
      (mapd 1 0 0 1))) - ((lv (mapd (-1) 0 0 0) + lv (mapd (-1) 1 0 0)) * (lv (mapd (-1) 0 0 1) +
      lv (mapd 0 0 0 1)))) + parameters.solver.gamma * ((abs (lv (mapd 0 0 0 0) + lv (mapd 0 1 0
      0)) * (lv (mapd 0 0 0 1) - lv (mapd 1 0 0 1))) - (abs (lv (mapd (-1) 0 0 0) + lv (mapd (-1) 1
      0 0)) * (lv (mapd (-1) 0 0 1) - lv (mapd 0 0 0 1))))) / lm (mapd 0 0 0 0)
  let hxShort := 0.5 * lm (mapd 0 0 0 0)
  let hxLong0 := 0.5 * (lm (mapd 0 0 0 0) + lm (mapd (-1) 0 0 0))
  let hxLong1 := 0.5 * (lm (mapd 0 0 0 0) + lm (mapd 1 0 0 0))
  let hyShort := 0.5 * lm (mapd 0 0 0 1)
  let hyLong := 0.5 * (lm (mapd 0 0 0 1) + lm (mapd 0 1 0 1))
  let u00 := lv (mapd 0 0 0 0)
  let u01 := lv (mapd 0 1 0 0)
  let v00 := lv (mapd 0 0 0 1)
  let v10 := lv (mapd 1 0 0 1)
  let uM10 := lv (mapd (-1) 0 0 0)
  let uM11 := lv (mapd (-1) 1 0 0)
  let vM10 := lv (mapd (-1) 0 0 1)
  let secondOrder := (((hyLong - hyShort) / hyLong * u00 + hyShort / hyLong * u01) * ((hxLong1 -
      hxShort) / hxLong1 * v00 + hxShort / hxLong1 * v10) - ((hyLong - hyShort) / hyLong * uM10 +
      hyShort / hyLong * uM11) * ((hxLong0 - hxShort) / hxLong0 * v00 + hxShort / hxLong0 * vM10))
      / (2.0 * hxShort)
  let kr := (hyLong - hyShort) / hyLong * u00 + hyShort / hyLong * u01
  let kl := (hyLong - hyShort) / hyLong * uM10 + hyShort / hyLong * uM11
  let firstOrder := 1.0 / (4.0 * hxShort) * (kr * (v00 + v10) - kl * (vM10 + v00) + abs (kr) * (v00
      - v10) - abs (kl) * (vM10 - v00))
  let tmp2 := (1.0 - parameters.solver.gamma) * secondOrder + parameters.solver.gamma * firstOrder
  AdvectionLocals.mk tmp1 kr kl secondOrder firstOrder tmp2

/-- Source `duvdx`: without `NDEBUG` it throws when `tmp1` and `tmp2` differ by more than
`1.0e-12`; otherwise it returns `tmp2`. -/
def duvdx (ndebug : Bool) (lv : Cube K) (parameters : Parameters K) (lm : Cube K) :
    Except String K :=
  let l := duvdxLocals lv parameters lm
  if ndebug = false ∧ abs (l.tmp1 - l.tmp2) > 1.0e-12 then Except.error "Error in duvdx"
  else Except.ok l.tmp2

/-- The body of source `duvdy` up to the consistency check: its local variables. -/
def duvdyLocals (lv : Cube K) (parameters : Parameters K) (lm : Cube K) : AdvectionLocals K :=
  let tmp1 := 1.0 / 4.0 * ((((lv (mapd 0 0 0 1) + lv (mapd 1 0 0 1)) * (lv (mapd 0 0 0 0) + lv
      (mapd 0 1 0 0))) - ((lv (mapd 0 (-1) 0 1) + lv (mapd 1 (-1) 0 1)) * (lv (mapd 0 (-1) 0 0) +
      lv (mapd 0 0 0 0)))) + parameters.solver.gamma * ((abs (lv (mapd 0 0 0 1) + lv (mapd 1 0 0
      1)) * (lv (mapd 0 0 0 0) - lv (mapd 0 1 0 0))) - (abs (lv (mapd 0 (-1) 0 1) + lv (mapd 1 (-1)
      0 1)) * (lv (mapd 0 (-1) 0 0) - lv (mapd 0 0 0 0))))) / lm (mapd 0 0 0 1)
  let hyShort := 0.5 * lm (mapd 0 0 0 1)
  let hyLong0 := 0.5 * (lm (mapd 0 0 0 1) + lm (mapd 0 (-1) 0 1))
  let hyLong1 := 0.5 * (lm (mapd 0 0 0 1) + lm (mapd 0 1 0 1))
  let hxShort := 0.5 * lm (mapd 0 0 0 0)
  let hxLong := 0.5 * (lm (mapd 0 0 0 0) + lm (mapd 1 0 0 0))
  let v00 := lv (mapd 0 0 0 1)
  let v10 := lv (mapd 1 0 0 1)
  let u00 := lv (mapd 0 0 0 0)
  let u01 := lv (mapd 0 1 0 0)
  let v0M1 := lv (mapd 0 (-1) 0 1)
  let v1M1 := lv (mapd 1 (-1) 0 1)
  let u0M1 := lv (mapd 0 (-1) 0 0)
  let secondOrder := (((hxLong - hxShort) / hxLong * v00 + hxShort / hxLong * v10) * ((hyLong1 -
      hyShort) / hyLong1 * u00 + hyShort / hyLong1 * u01) - ((hxLong - hxShort) / hxLong * v0M1 +
      hxShort / hxLong * v1M1) * ((hyLong0 - hyShort) / hyLong0 * u00 + hyShort / hyLong0 * u0M1))
      / (2.0 * hyShort)
  let kr := (hxLong - hxShort) / hxLong * v00 + hxShort / hxLong * v10
  let kl := (hxLong - hxShort) / hxLong * v0M1 + hxShort / hxLong * v1M1
  let firstOrder := 1.0 / (4.0 * hyShort) * (kr * (u00 + u01) - kl * (u0M1 + u00) + abs (kr) * (u00
      - u01) - abs (kl) * (u0M1 - u00))
  let tmp2 := (1.0 - parameters.solver.gamma) * secondOrder + parameters.solver.gamma * firstOrder
  AdvectionLocals.mk tmp1 kr kl secondOrder firstOrder tmp2

/-- Source `duvdy`: without `NDEBUG` it throws when `tmp1` and `tmp2` differ by more than
`1.0e-12`; otherwise it returns `tmp2`. -/
def duvdy (ndebug : Bool) (lv : Cube K) (parameters : Parameters K) (lm : Cube K) :
    Except String K :=
  let l := duvdyLocals lv parameters lm
  if ndebug = false ∧ abs (l.tmp1 - l.tmp2) > 1.0e-12 then Except.error "Error in duvdy"
  else Except.ok l.tmp2

/-- The body of source `duwdx` up to the consistency check: its local variables. -/
def duwdxLocals (lv : Cube K) (parameters : Parameters K) (lm : Cube K) : AdvectionLocals K :=
  let tmp1 := 1.0 / 4.0 * ((((lv (mapd 0 0 0 0) + lv (mapd 0 0 1 0)) * (lv (mapd 0 0 0 2) + lv
      (mapd 1 0 0 2))) - ((lv (mapd (-1) 0 0 0) + lv (mapd (-1) 0 1 0)) * (lv (mapd (-1) 0 0 2) +
      lv (mapd 0 0 0 2)))) + parameters.solver.gamma * ((abs (lv (mapd 0 0 0 0) + lv (mapd 0 0 1
      0)) * (lv (mapd 0 0 0 2) - lv (mapd 1 0 0 2))) - (abs (lv (mapd (-1) 0 0 0) + lv (mapd (-1) 0
      1 0)) * (lv (mapd (-1) 0 0 2) - lv (mapd 0 0 0 2))))) / lm (mapd 0 0 0 0)
  let hxShort := 0.5 * lm (mapd 0 0 0 0)
  let hxLong0 := 0.5 * (lm (mapd 0 0 0 0) + lm (mapd (-1) 0 0 0))
  let hxLong1 := 0.5 * (lm (mapd 0 0 0 0) + lm (mapd 1 0 0 0))
  let hzShort := 0.5 * lm (mapd 0 0 0 2)
  let hzLong := 0.5 * (lm (mapd 0 0 0 2) + lm (mapd 0 0 1 2))
  let u00 := lv (mapd 0 0 0 0)
  let u01 := lv (mapd 0 0 1 0)
  let w00 := lv (mapd 0 0 0 2)
  let w10 := lv (mapd 1 0 0 2)
  let uM10 := lv (mapd (-1) 0 0 0)
  let uM11 := lv (mapd (-1) 0 1 0)
  let wM10 := lv (mapd (-1) 0 0 2)
  let secondOrder := (((hzLong - hzShort) / hzLong * u00 + hzShort / hzLong * u01) * ((hxLong1 -
      hxShort) / hxLong1 * w00 + hxShort / hxLong1 * w10) - ((hzLong - hzShort) / hzLong * uM10 +
      hzShort / hzLong * uM11) * ((hxLong0 - hxShort) / hxLong0 * w00 + hxShort / hxLong0 * wM10))
      / (2.0 * hxShort)
  let kr := (hzLong - hzShort) / hzLong * u00 + hzShort / hzLong * u01
  let kl := (hzLong - hzShort) / hzLong * uM10 + hzShort / hzLong * uM11
  let firstOrder := 1.0 / (4.0 * hxShort) * (kr * (w00 + w10) - kl * (wM10 + w00) + abs (kr) * (w00
      - w10) - abs (kl) * (wM10 - w00))
  let tmp2 := (1.0 - parameters.solver.gamma) * secondOrder + parameters.solver.gamma * firstOrder
  AdvectionLocals.mk tmp1 kr kl secondOrder firstOrder tmp2

/-- Source `duwdx`: without `NDEBUG` it throws when `tmp1` and `tmp2` differ by more than
`1.0e-12`; otherwise it returns `tmp2`. -/
def duwdx (ndebug : Bool) (lv : Cube K) (parameters : Parameters K) (lm : Cube K) :
    Except String K :=
  let l := duwdxLocals lv parameters lm
  if ndebug = false ∧ abs (l.tmp1 - l.tmp2) > 1.0e-12 then Except.error "Error in duwdx"
  else Except.ok l.tmp2

/-- The body of source `duwdz` up to the consistency check: its local variables. -/
def duwdzLocals (lv : Cube K) (parameters : Parameters K) (lm : Cube K) : AdvectionLocals K :=
  let tmp1 := 1.0 / 4.0 * ((((lv (mapd 0 0 0 2) + lv (mapd 1 0 0 2)) * (lv (mapd 0 0 0 0) + lv
      (mapd 0 0 1 0))) - ((lv (mapd 0 0 (-1) 2) + lv (mapd 1 0 (-1) 2)) * (lv (mapd 0 0 (-1) 0) +
      lv (mapd 0 0 0 0)))) + parameters.solver.gamma * ((abs (lv (mapd 0 0 0 2) + lv (mapd 1 0 0
      2)) * (lv (mapd 0 0 0 0) - lv (mapd 0 0 1 0))) - (abs (lv (mapd 0 0 (-1) 2) + lv (mapd 1 0
      (-1) 2)) * (lv (mapd 0 0 (-1) 0) - lv (mapd 0 0 0 0))))) / lm (mapd 0 0 0 2)
  let hzShort := 0.5 * lm (mapd 0 0 0 2)
  let hzLong0 := 0.5 * (lm (mapd 0 0 0 2) + lm (mapd 0 0 (-1) 2))
  let hzLong1 := 0.5 * (lm (mapd 0 0 0 2) + lm (mapd 0 0 1 2))
  let hxShort := 0.5 * lm (mapd 0 0 0 0)
  let hxLong := 0.5 * (lm (mapd 0 0 0 0) + lm (mapd 1 0 0 0))
  let w00 := lv (mapd 0 0 0 2)
  let w10 := lv (mapd 1 0 0 2)
  let u00 := lv (mapd 0 0 0 0)
  let u01 := lv (mapd 0 0 1 0)
  let w0M1 := lv (mapd 0 0 (-1) 2)
  let w1M1 := lv (mapd 1 0 (-1) 2)
  let u0M1 := lv (mapd 0 0 (-1) 0)
  let secondOrder := (((hxLong - hxShort) / hxLong * w00 + hxShort / hxLong * w10) * ((hzLong1 -
      hzShort) / hzLong1 * u00 + hzShort / hzLong1 * u01) - ((hxLong - hxShort) / hxLong * w0M1 +
      hxShort / hxLong * w1M1) * ((hzLong0 - hzShort) / hzLong0 * u00 + hzShort / hzLong0 * u0M1))
      / (2.0 * hzShort)
  let kr := (hxLong - hxShort) / hxLong * w00 + hxShort / hxLong * w10
  let kl := (hxLong - hxShort) / hxLong * w0M1 + hxShort / hxLong * w1M1
  let firstOrder := 1.0 / (4.0 * hzShort) * (kr * (u00 + u01) - kl * (u0M1 + u00) + abs (kr) * (u00
      - u01) - abs (kl) * (u0M1 - u00))
  let tmp2 := (1.0 - parameters.solver.gamma) * secondOrder + parameters.solver.gamma * firstOrder
  AdvectionLocals.mk tmp1 kr kl secondOrder firstOrder tmp2

/-- Source `duwdz`: without `NDEBUG` it throws when `tmp1` and `tmp2` differ by more than
`1.0e-12`; otherwise it returns `tmp2`. -/
def duwdz (ndebug : Bool) (lv : Cube K) (parameters : Parameters K) (lm : Cube K) :
    Except String K :=
  let l := duwdzLocals lv parameters lm
  if ndebug = false ∧ abs (l.tmp1 - l.tmp2) > 1.0e-12 then Except.error "Error in duwdz"
  else Except.ok l.tmp2

/-- The body of source `dvwdy` up to the consistency check: its local variables. -/
def dvwdyLocals (lv : Cube K) (parameters : Parameters K) (lm : Cube K) : AdvectionLocals K :=
  let tmp1 := 1.0 / 4.0 * ((((lv (mapd 0 0 0 1) + lv (mapd 0 0 1 1)) * (lv (mapd 0 0 0 2) + lv
      (mapd 0 1 0 2))) - ((lv (mapd 0 (-1) 0 1) + lv (mapd 0 (-1) 1 1)) * (lv (mapd 0 (-1) 0 2) +
      lv (mapd 0 0 0 2)))) + parameters.solver.gamma * ((abs (lv (mapd 0 0 0 1) + lv (mapd 0 0 1
      1)) * (lv (mapd 0 0 0 2) - lv (mapd 0 1 0 2))) - (abs (lv (mapd 0 (-1) 0 1) + lv (mapd 0 (-1)
      1 1)) * (lv (mapd 0 (-1) 0 2) - lv (mapd 0 0 0 2))))) / lm (mapd 0 0 0 1)
  let hyShort := 0.5 * lm (mapd 0 0 0 1)
  let hyLong0 := 0.5 * (lm (mapd 0 0 0 1) + lm (mapd 0 (-1) 0 1))
  let hyLong1 := 0.5 * (lm (mapd 0 0 0 1) + lm (mapd 0 1 0 1))
  let hzShort := 0.5 * lm (mapd 0 0 0 2)
  let hzLong := 0.5 * (lm (mapd 0 0 0 2) + lm (mapd 0 0 1 2))
  let v00 := lv (mapd 0 0 0 1)
  let v01 := lv (mapd 0 0 1 1)
  let w00 := lv (mapd 0 0 0 2)
  let w10 := lv (mapd 0 1 0 2)
  let vM10 := lv (mapd 0 (-1) 0 1)
  let vM11 := lv (mapd 0 (-1) 1 1)
  let wM10 := lv (mapd 0 (-1) 0 2)
  let secondOrder := (((hzLong - hzShort) / hzLong * v00 + hzShort / hzLong * v01) * ((hyLong1 -
      hyShort) / hyLong1 * w00 + hyShort / hyLong1 * w10) - ((hzLong - hzShort) / hzLong * vM10 +
      hzShort / hzLong * vM11) * ((hyLong0 - hyShort) / hyLong0 * w00 + hyShort / hyLong0 * wM10))
      / (2.0 * hyShort)
  let kr := (hzLong - hzShort) / hzLong * v00 + hzShort / hzLong * v01
  let kl := (hzLong - hzShort) / hzLong * vM10 + hzShort / hzLong * vM11
  let firstOrder := 1.0 / (4.0 * hyShort) * (kr * (w00 + w10) - kl * (wM10 + w00) + abs (kr) * (w00
      - w10) - abs (kl) * (wM10 - w00))
  let tmp2 := (1.0 - parameters.solver.gamma) * secondOrder + parameters.solver.gamma * firstOrder
  AdvectionLocals.mk tmp1 kr kl secondOrder firstOrder tmp2

/-- Source `dvwdy`: without `NDEBUG` it throws when `tmp1` and `tmp2` differ by more than
`1.0e-12`; otherwise it returns `tmp2`. -/
def dvwdy (ndebug : Bool) (lv : Cube K) (parameters : Parameters K) (lm : Cube K) :
    Except String K :=
  let l := dvwdyLocals lv parameters lm
  if ndebug = false ∧ abs (l.tmp1 - l.tmp2) > 1.0e-12 then Except.error "Error in dvwdy"
  else Except.ok l.tmp2

/-- The body of source `dvwdz` up to the consistency check: its local variables. -/
def dvwdzLocals (lv : Cube K) (parameters : Parameters K) (lm : Cube K) : AdvectionLocals K :=
  let tmp1 := 1.0 / 4.0 * ((((lv (mapd 0 0 0 2) + lv (mapd 0 1 0 2)) * (lv (mapd 0 0 0 1) + lv
      (mapd 0 0 1 1))) - ((lv (mapd 0 0 (-1) 2) + lv (mapd 0 1 (-1) 2)) * (lv (mapd 0 0 (-1) 1) +
      lv (mapd 0 0 0 1)))) + parameters.solver.gamma * ((abs (lv (mapd 0 0 0 2) + lv (mapd 0 1 0
      2)) * (lv (mapd 0 0 0 1) - lv (mapd 0 0 1 1))) - (abs (lv (mapd 0 0 (-1) 2) + lv (mapd 0 1
      (-1) 2)) * (lv (mapd 0 0 (-1) 1) - lv (mapd 0 0 0 1))))) / lm (mapd 0 0 0 2)
  let hzShort := 0.5 * lm (mapd 0 0 0 2)
  let hzLong0 := 0.5 * (lm (mapd 0 0 0 2) + lm (mapd 0 0 (-1) 2))
  let hzLong1 := 0.5 * (lm (mapd 0 0 0 2) + lm (mapd 0 0 1 2))
  let hyShort := 0.5 * lm (mapd 0 0 0 1)
  let hyLong := 0.5 * (lm (mapd 0 0 0 1) + lm (mapd 0 1 0 1))
  let w00 := lv (mapd 0 0 0 2)
  let w10 := lv (mapd 0 1 0 2)
  let v00 := lv (mapd 0 0 0 1)
  let v01 := lv (mapd 0 0 1 1)
  let w0M1 := lv (mapd 0 0 (-1) 2)
  let w1M1 := lv (mapd 0 1 (-1) 2)
  let v0M1 := lv (mapd 0 0 (-1) 1)
  let secondOrder := (((hyLong - hyShort) / hyLong * w00 + hyShort / hyLong * w10) * ((hzLong1 -
      hzShort) / hzLong1 * v00 + hzShort / hzLong1 * v01) - ((hyLong - hyShort) / hyLong * w0M1 +
      hyShort / hyLong * w1M1) * ((hzLong0 - hzShort) / hzLong0 * v00 + hzShort / hzLong0 * v0M1))
      / (2.0 * hzShort)
  let kr := (hyLong - hyShort) / hyLong * w00 + hyShort / hyLong * w10
  let kl := (hyLong - hyShort) / hyLong * w0M1 + hyShort / hyLong * w1M1
  let firstOrder := 1.0 / (4.0 * hzShort) * (kr * (v00 + v01) - kl * (v0M1 + v00) + abs (kr) * (v00
      - v01) - abs (kl) * (v0M1 - v00))
  let tmp2 := (1.0 - parameters.solver.gamma) * secondOrder + parameters.solver.gamma * firstOrder
  AdvectionLocals.mk tmp1 kr kl secondOrder firstOrder tmp2

/-- Source `dvwdz`: without `NDEBUG` it throws when `tmp1` and `tmp2` differ by more than
`1.0e-12`; otherwise it returns `tmp2`. -/
def dvwdz (ndebug : Bool) (lv : Cube K) (parameters : Parameters K) (lm : Cube K) :
    Except String K :=
  let l := dvwdzLocals lv parameters lm
  if ndebug = false ∧ abs (l.tmp1 - l.tmp2) > 1.0e-12 then Except.error "Error in dvwdz"
  else Except.ok l.tmp2

/-- The body of source `du2dx` up to the consistency check: its local variables. -/
def du2dxLocals (lv : Cube K) (parameters : Parameters K) (lm : Cube K) : AdvectionLocals K :=
  let tmp1 := 1.0 / 4.0 * ((((lv (mapd 0 0 0 0) + lv (mapd 1 0 0 0)) * (lv (mapd 0 0 0 0) + lv
      (mapd 1 0 0 0))) - ((lv (mapd (-1) 0 0 0) + lv (mapd 0 0 0 0)) * (lv (mapd (-1) 0 0 0) + lv
      (mapd 0 0 0 0)))) + parameters.solver.gamma * ((abs (lv (mapd 0 0 0 0) + lv (mapd 1 0 0 0)) *
      (lv (mapd 0 0 0 0) - lv (mapd 1 0 0 0))) - (abs (lv (mapd (-1) 0 0 0) + lv (mapd 0 0 0 0)) *
      (lv (mapd (-1) 0 0 0) - lv (mapd 0 0 0 0))))) / lm (mapd 0 0 0 0)
  let dxShort := 0.5 * lm (mapd 0 0 0 0)
  let dxLong1 := 0.5 * (lm (mapd 0 0 0 0) + lm (mapd 1 0 0 0))
  let u0 := lv (mapd 0 0 0 0)
  let uM1 := lv (mapd (-1) 0 0 0)
  let u1 := lv (mapd 1 0 0 0)
  let kr := (u0 + u1) / 2
  let kl := (u0 + uM1) / 2
  let secondOrder := ((u0 + u1) * (u0 + u1) - (u0 + uM1) * (u0 + uM1)) / (4 * dxLong1)
  let firstOrder := 1.0 / (4.0 * dxShort) * (kr * (u0 + u1) - kl * (uM1 + u0) + abs (kr) * (u0 -
      u1) - abs (kl) * (uM1 - u0))
  let tmp2 := (1.0 - parameters.solver.gamma) * secondOrder + parameters.solver.gamma * firstOrder
  AdvectionLocals.mk tmp1 kr kl secondOrder firstOrder tmp2

/-- Source `du2dx`: without `NDEBUG` it throws when `tmp1` and `tmp2` differ by more than
`1.0e-12`; otherwise it returns `tmp2`. -/
def du2dx (ndebug : Bool) (lv : Cube K) (parameters : Parameters K) (lm : Cube K) :
    Except String K :=
  let l := du2dxLocals lv parameters lm
  if ndebug = false ∧ abs (l.tmp1 - l.tmp2) > 1.0e-12 then Except.error "Error in du2dx"
  else Except.ok l.tmp2

/-- The body of source `dv2dy` up to the consistency check: its local variables. -/
def dv2dyLocals (lv : Cube K) (parameters : Parameters K) (lm : Cube K) : AdvectionLocals K :=
  let tmp1 := 1.0 / 4.0 * ((((lv (mapd 0 0 0 1) + lv (mapd 0 1 0 1)) * (lv (mapd 0 0 0 1) + lv
      (mapd 0 1 0 1))) - ((lv (mapd 0 (-1) 0 1) + lv (mapd 0 0 0 1)) * (lv (mapd 0 (-1) 0 1) + lv
      (mapd 0 0 0 1)))) + parameters.solver.gamma * ((abs (lv (mapd 0 0 0 1) + lv (mapd 0 1 0 1)) *
      (lv (mapd 0 0 0 1) - lv (mapd 0 1 0 1))) - (abs (lv (mapd 0 (-1) 0 1) + lv (mapd 0 0 0 1)) *
      (lv (mapd 0 (-1) 0 1) - lv (mapd 0 0 0 1))))) / lm (mapd 0 0 0 1)
  let dyShort := 0.5 * lm (mapd 0 0 0 1)
  let dyLong1 := 0.5 * (lm (mapd 0 0 0 1) + lm (mapd 0 1 0 1))
  let v0 := lv (mapd 0 0 0 1)
  let vM1 := lv (mapd 0 (-1) 0 1)
  let v1 := lv (mapd 0 1 0 1)
  let kr := (v0 + v1) / 2
  let kl := (v0 + vM1) / 2
  let secondOrder := ((v0 + v1) * (v0 + v1) - (v0 + vM1) * (v0 + vM1)) / (4 * dyLong1)
  let firstOrder := 1.0 / (4.0 * dyShort) * (kr * (v0 + v1) - kl * (vM1 + v0) + abs (kr) * (v0 -
      v1) - abs (kl) * (vM1 - v0))
  let tmp2 := (1.0 - parameters.solver.gamma) * secondOrder + parameters.solver.gamma * firstOrder
  AdvectionLocals.mk tmp1 kr kl secondOrder firstOrder tmp2

/-- Source `dv2dy`: without `NDEBUG` it throws when `tmp1` and `tmp2` differ by more than
`1.0e-12`; otherwise it returns `tmp2`. -/
def dv2dy (ndebug : Bool) (lv : Cube K) (parameters : Parameters K) (lm : Cube K) :
    Except String K :=
  let l := dv2dyLocals lv parameters lm
  if ndebug = false ∧ abs (l.tmp1 - l.tmp2) > 1.0e-12 then Except.error "Error in dv2dy"
  else Except.ok l.tmp2

/-- The body of source `dw2dz` up to the consistency check: its local variables. -/
def dw2dzLocals (lv : Cube K) (parameters : Parameters K) (lm : Cube K) : AdvectionLocals K :=
  let tmp1 := 1.0 / 4.0 * ((((lv (mapd 0 0 0 2) + lv (mapd 0 0 1 2)) * (lv (mapd 0 0 0 2) + lv
      (mapd 0 0 1 2))) - ((lv (mapd 0 0 (-1) 2) + lv (mapd 0 0 0 2)) * (lv (mapd 0 0 (-1) 2) + lv
      (mapd 0 0 0 2)))) + parameters.solver.gamma * ((abs (lv (mapd 0 0 0 2) + lv (mapd 0 0 1 2)) *
      (lv (mapd 0 0 0 2) - lv (mapd 0 0 1 2))) - (abs (lv (mapd 0 0 (-1) 2) + lv (mapd 0 0 0 2)) *
      (lv (mapd 0 0 (-1) 2) - lv (mapd 0 0 0 2))))) / lm (mapd 0 0 0 2)
  let dzShort := 0.5 * lm (mapd 0 0 0 2)
  let dzLong1 := 0.5 * (lm (mapd 0 0 0 2) + lm (mapd 0 0 1 2))
  let w0 := lv (mapd 0 0 0 2)
  let wM1 := lv (mapd 0 0 (-1) 2)
  let w1 := lv (mapd 0 0 1 2)
  let kr := (w0 + w1) / 2
  let kl := (w0 + wM1) / 2
  let secondOrder := ((w0 + w1) * (w0 + w1) - (w0 + wM1) * (w0 + wM1)) / (4 * dzLong1)
  let firstOrder := 1.0 / (4.0 * dzShort) * (kr * (w0 + w1) - kl * (wM1 + w0) + abs (kr) * (w0 -
      w1) - abs (kl) * (wM1 - w0))
  let tmp2 := (1.0 - parameters.solver.gamma) * secondOrder + parameters.solver.gamma * firstOrder
  AdvectionLocals.mk tmp1 kr kl secondOrder firstOrder tmp2

/-- Source `dw2dz`: without `NDEBUG` it throws when `tmp1` and `tmp2` differ by more than
`1.0e-12`; otherwise it returns `tmp2`. -/
def dw2dz (ndebug : Bool) (lv : Cube K) (parameters : Parameters K) (lm : Cube K) :
    Except String K :=
  let l := dw2dzLocals lv parameters lm
  if ndebug = false ∧ abs (l.tmp1 - l.tmp2) > 1.0e-12 then Except.error "Error in dw2dz"
  else Except.ok l.tmp2

/-- The nine blended advection operators of the source, by name. -/
inductive AdvectionOp where
  | duvdx | duvdy | duwdx | duwdz | dvwdy | dvwdz | du2dx | dv2dy | dw2dz
  deriving DecidableEq, Repr

/-- The local variables of the named operator. -/
def AdvectionOp.locals : AdvectionOp → Cube K → Parameters K → Cube K → AdvectionLocals K
  | .duvdx => duvdxLocals
  | .duvdy => duvdyLocals
  | .duwdx => duwdxLocals
  | .duwdz => duwdzLocals
  | .dvwdy => dvwdyLocals
  | .dvwdz => dvwdzLocals
  | .du2dx => du2dxLocals
  | .dv2dy => dv2dyLocals
  | .dw2dz => dw2dzLocals

/-- The named operator as a function of the build and of its three arguments. -/
def AdvectionOp.run : AdvectionOp → Bool → Cube K → Parameters K → Cube K → Except String K
  | .duvdx => Stencils.duvdx
  | .duvdy => Stencils.duvdy
  | .duwdx => Stencils.duwdx
  | .duwdz => Stencils.duwdz
  | .dvwdy => Stencils.dvwdy
  | .dvwdz => Stencils.dvwdz
  | .du2dx => Stencils.du2dx
  | .dv2dy => Stencils.dv2dy
  | .dw2dz => Stencils.dw2dz

/-! ## Momentum assemblers (source lines 696-765)

The advection operators are called left to right; a `throw` of one of them leaves the assembler. -/

/-- Source `computeF2D`. -/
def computeF2D (ndebug : Bool) (localVelocity localMeshsize : Cube K) (parameters : Parameters K)
    (dt : K) : Except String K := do
  let viscousTermU := d2udx2 localVelocity localMeshsize
  let viscousTermV := d2udy2 localVelocity localMeshsize
  let a ← du2dx ndebug localVelocity parameters localMeshsize
  let b ← duvdy ndebug localVelocity parameters localMeshsize
  pure (localVelocity (mapd 0 0 0 0)
    + dt * (-a
            - b
            + 1 / parameters.flow.Re * (viscousTermU + viscousTermV)
            + parameters.environment.gx))

/-- Source `computeG2D`. -/
def computeG2D (ndebug : Bool) (localVelocity localMeshsize : Cube K) (parameters : Parameters K)
    (dt : K) : Except String K := do
  let viscousTermU := d2vdx2 localVelocity localMeshsize
  let viscousTermV := d2vdy2 localVelocity localMeshsize
  let a ← duvdx ndebug localVelocity parameters localMeshsize
  let b ← dv2dy ndebug localVelocity parameters localMeshsize
  pure (localVelocity (mapd 0 0 0 1)
    + dt * (-a
            - b
            + 1 / parameters.flow.Re * (viscousTermU + viscousTermV)
            + parameters.environment.gy))

/-- Source `computeF3D`. -/
def computeF3D (ndebug : Bool) (localVelocity localMeshsize : Cube K) (parameters : Parameters K)
    (dt : K) : Except String K := do
  let viscousTermU := d2udx2 localVelocity localMeshsize
  let viscousTermV := d2udy2 localVelocity localMeshsize
  let viscousTermW := d2udz2 localVelocity localMeshsize
  let a ← du2dx ndebug localVelocity parameters localMeshsize
  let b ← duvdy ndebug localVelocity parameters localMeshsize
  let c ← duwdz ndebug localVelocity parameters localMeshsize
  pure (localVelocity (mapd 0 0 0 0)
    + dt * (-a
            - b
            - c
            + 1 / parameters.flow.Re * (viscousTermU + viscousTermV + viscousTermW)
            + parameters.environment.gx))

/-- Source `computeG3D`.  Its first advection term is a call of `dSv2dy`, a name that the
sources at hand do not define; the callee is therefore an argument of the embedding. -/
def computeG3D (dSv2dy : Cube K → Parameters K → Cube K → Except String K) (ndebug : Bool)
    (localVelocity localMeshsize : Cube K) (parameters : Parameters K) (dt : K) :
    Except String K := do
  let viscousTermU := d2vdx2 localVelocity localMeshsize
  let viscousTermV := d2vdy2 localVelocity localMeshsize
  let viscousTermW := d2vdz2 localVelocity localMeshsize
  let a ← dSv2dy localVelocity parameters localMeshsize
  let b ← duvdx ndebug localVelocity parameters localMeshsize
  let c ← dvwdz ndebug localVelocity parameters localMeshsize
  pure (localVelocity (mapd 0 0 0 1)
    + dt * (-a
            - b
            - c
            + 1 / parameters.flow.Re * (viscousTermU + viscousTermV + viscousTermW)
            + parameters.environment.gy))

/-- Source `computeH3D`. -/
def computeH3D (ndebug : Bool) (localVelocity localMeshsize : Cube K) (parameters : Parameters K)
    (dt : K) : Except String K := do
  let viscousTermU := d2wdx2 localVelocity localMeshsize
  let viscousTermV := d2wdy2 localVelocity localMeshsize
  let viscousTermW := d2wdz2 localVelocity localMeshsize
  let a ← dw2dz ndebug localVelocity parameters localMeshsize
  let b ← duwdx ndebug localVelocity parameters localMeshsize
  let c ← dvwdy ndebug localVelocity parameters localMeshsize
  pure (localVelocity (mapd 0 0 0 2)
    + dt * (-a
            - b
            - c
            + 1 / parameters.flow.Re * (viscousTermU + viscousTermV + viscousTermW)
            + parameters.environment.gz))

/-! ## First derivatives (source lines 67-84) -/

/-- Source `dudx`. -/
def dudx (lv lm : Cube K) : K :=
  let index0 := mapd 0 0 0 0
  let index1 := mapd (-1) 0 0 0
  (lv index0 - lv index1) / lm index0

/-- Source `dvdy`. -/
def dvdy (lv lm : Cube K) : K :=
  let index0 := mapd 0 0 0 1
  let index1 := mapd 0 (-1) 0 1
  (lv index0 - lv index1) / lm index0

/-- Source `dwdz`. -/
def dwdz (lv lm : Cube K) : K :=
  let index0 := mapd 0 0 0 2
  let index1 := mapd 0 0 (-1) 2
  (lv index0 - lv index1) / lm index0

/-! ## Cube extractors (source lines 9-60)

A loader is a sequence of assignments `buffer[slot] = value`.  Each loader is embedded as the list
of its assignments in program order (the loops run over `-1, 0, 1`, outermost first) and as the
buffer that results from carrying them out one after the other.  The velocity field and the mesh
are external: `getVector` stands for `flowField.getVelocity().getVector`, whose result is read at
components 0, 1 (and 2), and `getDx`, `getDy`, `getDz` for the accessors of
`parameters.meshsize`. -/

/-- One assignment `buf[w.1] = w.2`. -/
def store (buf : Cube K) (w : Int × K) : Cube K := Function.update buf w.1 w.2

/-- The assignments of source `loadLocalVelocity2D`. -/
def loadLocalVelocity2DWrites (getVector : Int → Int → Int → K) (i j : Int) : List (Int × K) :=
  ([-1, 0, 1] : List Int).flatMap fun row =>
  ([-1, 0, 1] : List Int).flatMap fun column =>
    let point := getVector (i + column) (j + row)
    [(39 + 9 * row + 3 * column, point 0),
     (39 + 9 * row + 3 * column + 1, point 1)]

/-- Source `loadLocalVelocity2D`: the buffer after the call. -/
def loadLocalVelocity2D (getVector : Int → Int → Int → K) (localVelocity : Cube K) (i j : Int) :
    Cube K :=
  (loadLocalVelocity2DWrites getVector i j).foldl store localVelocity

/-- The assignments of source `loadLocalVelocity3D`. -/
def loadLocalVelocity3DWrites (getVector : Int → Int → Int → Int → K) (i j k : Int) :
    List (Int × K) :=
  ([-1, 0, 1] : List Int).flatMap fun layer =>
  ([-1, 0, 1] : List Int).flatMap fun row =>
  ([-1, 0, 1] : List Int).flatMap fun column =>
    let point := getVector (i + column) (j + row) (k + layer)
    [(39 + 27 * layer + 9 * row + 3 * column, point 0),
     (39 + 27 * layer + 9 * row + 3 * column + 1, point 1),
     (39 + 27 * layer + 9 * row + 3 * column + 2, point 2)]

/-- Source `loadLocalVelocity3D`: the buffer after the call. -/
def loadLocalVelocity3D (getVector : Int → Int → Int → Int → K) (localVelocity : Cube K)
    (i j k : Int) : Cube K :=
  (loadLocalVelocity3DWrites getVector i j k).foldl store localVelocity

/-- The assignments of source `loadLocalMeshsize2D`. -/
def loadLocalMeshsize2DWrites (getDx getDy : Int → Int → K) (i j : Int) : List (Int × K) :=
  ([-1, 0, 1] : List Int).flatMap fun row =>
  ([-1, 0, 1] : List Int).flatMap fun column =>
    [(39 + 9 * row + 3 * column, getDx (i + column) (j + row)),
     (39 + 9 * row + 3 * column + 1, getDy (i + column) (j + row))]

/-- Source `loadLocalMeshsize2D`: the buffer after the call. -/
def loadLocalMeshsize2D (getDx getDy : Int → Int → K) (localMeshsize : Cube K) (i j : Int) :
    Cube K :=
  (loadLocalMeshsize2DWrites getDx getDy i j).foldl store localMeshsize

/-- The assignments of source `loadLocalMeshsize3D`. -/
def loadLocalMeshsize3DWrites (getDx getDy getDz : Int → Int → Int → K) (i j k : Int) :
    List (Int × K) :=
  ([-1, 0, 1] : List Int).flatMap fun layer =>
  ([-1, 0, 1] : List Int).flatMap fun row =>
  ([-1, 0, 1] : List Int).flatMap fun column =>
    [(39 + 27 * layer + 9 * row + 3 * column, getDx (i + column) (j + row) (k + layer)),
     (39 + 27 * layer + 9 * row + 3 * column + 1, getDy (i + column) (j + row) (k + layer)),
     (39 + 27 * layer + 9 * row + 3 * column + 2, getDz (i + column) (j + row) (k + layer))]

/-- Source `loadLocalMeshsize3D`: the buffer after the call. -/
def loadLocalMeshsize3D (getDx getDy getDz : Int → Int → Int → K) (localMeshsize : Cube K)
    (i j k : Int) : Cube K :=
  (loadLocalMeshsize3DWrites getDx getDy getDz i j k).foldl store localMeshsize

/-! ## Relabelling of axes and components

The cube transforms that the symmetry statements are about.  A slot `n` of the window is
`mapd i j k c` for the digits `c = n % 3`, `i = n / 3 % 3 - 1`, `j = n / 9 % 3 - 1` and
`k = n / 27 - 1`. -/

/-- The component of slot `n`. -/
def slotC (n : Int) : Int := n % 3

/-- The x-offset of slot `n`. -/
def slotI (n : Int) : Int := n / 3 % 3 - 1

/-- The y-offset of slot `n`. -/
def slotJ (n : Int) : Int := n / 9 % 3 - 1

/-- The z-offset of slot `n`. -/
def slotK (n : Int) : Int := n / 27 - 1

/-- The exchange of the components `a` and `b`. -/
def swapComponent (a b c : Int) : Int := if c = a then b else if c = b then a else c

/-- The x/y swap `T` of a cube: `(T a)[mapd(i,j,k,c)] = a[mapd(j,i,k,s(c))]`, where `s` exchanges
the components 0 and 1. -/
def transposeXY (a : Cube K) : Cube K :=
  fun n => a (mapd (slotJ n) (slotI n) (slotK n) (swapComponent 0 1 (slotC n)))

/-- The x/z swap `X` of a cube: `(X a)[mapd(i,j,k,c)] = a[mapd(k,j,i,t(c))]`, where `t` exchanges
the components 0 and 2. -/
def swapXZ (a : Cube K) : Cube K :=
  fun n => a (mapd (slotK n) (slotJ n) (slotI n) (swapComponent 0 2 (slotC n)))

/-- The y/z swap `Y` of a cube: `(Y a)[mapd(i,j,k,c)] = a[mapd(i,k,j,r(c))]`, where `r` exchanges
the components 1 and 2. -/
def swapYZ (a : Cube K) : Cube K :=
  fun n => a (mapd (slotI n) (slotK n) (slotJ n) (swapComponent 1 2 (slotC n)))

/-- The parameters `p` with the blending coefficient replaced by `g`. -/
def withGamma (p : Parameters K) (g : K) : Parameters K :=
  Parameters.mk (SolverParameters.mk g) p.flow p.environment

/-! ## Common shape of the advection operators

The six operators for a product of two different components have one body up to the choice of
the buffer slots, and so have the three operators for the square of a component.  The two shapes
below are these bodies with the values read from the buffers as arguments; they serve the proofs
only. -/

/-- The body of `duvdx` as a function of the values it reads: the transporting component at the
centre and the transverse neighbour (`a00`, `a01`) and at the previous cell (`aM10`, `aM11`), the
transported component at the centre, next and previous cell (`b00`, `b10`, `bM10`), the spacings
along the axis of differentiation at the centre, previous and next cell (`dC`, `dW`, `dE`) and
the transverse spacings at the centre and the transverse neighbour (`eC`, `eN`). -/
def crossLocals (gamma a00 a01 b00 b10 aM10 aM11 bM10 dC dW dE eC eN : K) : AdvectionLocals K :=
  let tmp1 := 1.0 / 4.0 * ((((a00 + a01) * (b00 + b10)) - ((aM10 + aM11) * (bM10 + b00)))
      + gamma * ((abs (a00 + a01) * (b00 - b10)) - (abs (aM10 + aM11) * (bM10 - b00)))) / dC
  let dShort := 0.5 * dC
  let dLong0 := 0.5 * (dC + dW)
  let dLong1 := 0.5 * (dC + dE)
  let eShort := 0.5 * eC
  let eLong := 0.5 * (eC + eN)
  let secondOrder := (((eLong - eShort) / eLong * a00 + eShort / eLong * a01)
        * ((dLong1 - dShort) / dLong1 * b00 + dShort / dLong1 * b10)
      - ((eLong - eShort) / eLong * aM10 + eShort / eLong * aM11)
        * ((dLong0 - dShort) / dLong0 * b00 + dShort / dLong0 * bM10)) / (2.0 * dShort)
  let kr := (eLong - eShort) / eLong * a00 + eShort / eLong * a01
  let kl := (eLong - eShort) / eLong * aM10 + eShort / eLong * aM11
  let firstOrder := 1.0 / (4.0 * dShort)
      * (kr * (b00 + b10) - kl * (bM10 + b00) + abs (kr) * (b00 - b10) - abs (kl) * (bM10 - b00))
  let tmp2 := (1.0 - gamma) * secondOrder + gamma * firstOrder
  AdvectionLocals.mk tmp1 kr kl secondOrder firstOrder tmp2

/-- The body of `du2dx` as a function of the values it reads: the component at the centre, the
previous and the next cell (`u0`, `uM1`, `u1`) and the spacings along the axis at the centre and
the next cell (`dC`, `dE`). -/
def squareLocals (gamma u0 uM1 u1 dC dE : K) : AdvectionLocals K :=
  let tmp1 := 1.0 / 4.0 * ((((u0 + u1) * (u0 + u1)) - ((uM1 + u0) * (uM1 + u0)))
      + gamma * ((abs (u0 + u1) * (u0 - u1)) - (abs (uM1 + u0) * (uM1 - u0)))) / dC
  let dxShort := 0.5 * dC
  let dxLong1 := 0.5 * (dC + dE)
  let kr := (u0 + u1) / 2
  let kl := (u0 + uM1) / 2
  let secondOrder := ((u0 + u1) * (u0 + u1) - (u0 + uM1) * (u0 + uM1)) / (4 * dxLong1)
  let firstOrder := 1.0 / (4.0 * dxShort)
      * (kr * (u0 + u1) - kl * (uM1 + u0) + abs (kr) * (u0 - u1) - abs (kl) * (uM1 - u0))
  let tmp2 := (1.0 - gamma) * secondOrder + gamma * firstOrder
  AdvectionLocals.mk tmp1 kr kl secondOrder firstOrder tmp2

/-! ## Divisions and buffer reads

For each function of the source, the denominators of the divisions in its body and the window
positions at which it reads the velocity or the spacing buffer, both in source order; the reads
and divisions of the reference value `tmp1`, compiled in without `NDEBUG`, are included.  The
call of the undefined `dSv2dy` in `computeG3D` contributes nothing. -/

/-- The denominators of the divisions in the body of source `dudx`, in source order. -/
def dudxDenominators (lm : Cube K) : List K :=
  let index0 := mapd 0 0 0 0
  [lm index0]

/-- The window positions `(i, j, k, component)` at which source `dudx` reads a buffer, in
source order. -/
def dudxReads : List (Int × Int × Int × Int) :=
  [(0, 0, 0, 0), (-1, 0, 0, 0), (0, 0, 0, 0)]

/-- The denominators of the divisions in the body of source `dvdy`, in source order. -/
def dvdyDenominators (lm : Cube K) : List K :=
  let index0 := mapd 0 0 0 1
  [lm index0]

/-- The window positions `(i, j, k, component)` at which source `dvdy` reads a buffer, in
source order. -/
def dvdyReads : List (Int × Int × Int × Int) :=
  [(0, 0, 0, 1), (0, -1, 0, 1), (0, 0, 0, 1)]

/-- The denominators of the divisions in the body of source `dwdz`, in source order. -/
def dwdzDenominators (lm : Cube K) : List K :=
  let index0 := mapd 0 0 0 2
  [lm index0]

/-- The window positions `(i, j, k, component)` at which source `dwdz` reads a buffer, in
source order. -/
def dwdzReads : List (Int × Int × Int × Int) :=
  [(0, 0, 0, 2), (0, 0, -1, 2), (0, 0, 0, 2)]

/-- The denominators of the divisions in the body of source `d2udx2`, in source order. -/
def d2udx2Denominators (lm : Cube K) : List K :=
  let index_x0 := mapd 0 0 0 0
  let index_x2 := mapd 1 0 0 0
  [lm index_x2 * (lm index_x2 + lm index_x0), lm index_x0 * lm index_x2,
     lm index_x0*(lm index_x0+lm index_x2)]

/-- The window positions `(i, j, k, component)` at which source `d2udx2` reads a buffer, in
source order. -/
def d2udx2Reads : List (Int × Int × Int × Int) :=
  [(1, 0, 0, 0), (1, 0, 0, 0), (1, 0, 0, 0), (0, 0, 0, 0), (0, 0, 0, 0), (0, 0, 0, 0),
     (1, 0, 0, 0), (-1, 0, 0, 0), (0, 0, 0, 0), (0, 0, 0, 0), (1, 0, 0, 0)]

/-- The denominators of the divisions in the body of source `d2vdx2`, in source order. -/
def d2vdx2Denominators (lm : Cube K) : List K :=
  let index_x0 := mapd 0 0 0 0
  let index_x2 := mapd 1 0 0 0
  [lm index_x2 * (lm index_x2 + lm index_x0), lm index_x0 * lm index_x2,
     lm index_x0*(lm index_x0+lm index_x2)]

/-- The window positions `(i, j, k, component)` at which source `d2vdx2` reads a buffer, in
source order. -/
def d2vdx2Reads : List (Int × Int × Int × Int) :=
  [(1, 0, 0, 1), (1, 0, 0, 0), (1, 0, 0, 0), (0, 0, 0, 0), (0, 0, 0, 1), (0, 0, 0, 0),
     (1, 0, 0, 0), (-1, 0, 0, 1), (0, 0, 0, 0), (0, 0, 0, 0), (1, 0, 0, 0)]

/-- The denominators of the divisions in the body of source `d2wdx2`, in source order. -/
def d2wdx2Denominators (lm : Cube K) : List K :=
  let index_x0 := mapd 0 0 0 0
  let index_x2 := mapd 1 0 0 0
  [lm index_x2 * (lm index_x2 + lm index_x0), lm index_x0 * lm index_x2,
     lm index_x0*(lm index_x0+lm index_x2)]

/-- The window positions `(i, j, k, component)` at which source `d2wdx2` reads a buffer, in
source order. -/
def d2wdx2Reads : List (Int × Int × Int × Int) :=
  [(1, 0, 0, 2), (1, 0, 0, 0), (1, 0, 0, 0), (0, 0, 0, 0), (0, 0, 0, 2), (0, 0, 0, 0),
     (1, 0, 0, 0), (-1, 0, 0, 2), (0, 0, 0, 0), (0, 0, 0, 0), (1, 0, 0, 0)]

/-- The denominators of the divisions in the body of source `d2udy2`, in source order. -/
def d2udy2Denominators (lm : Cube K) : List K :=
  let index_x0 := mapd 0 0 0 1
  let index_x2 := mapd 0 1 0 1
  [lm index_x2 * (lm index_x2 + lm index_x0), lm index_x0 * lm index_x2,
     lm index_x0*(lm index_x0+lm index_x2)]

/-- The window positions `(i, j, k, component)` at which source `d2udy2` reads a buffer, in
source order. -/
def d2udy2Reads : List (Int × Int × Int × Int) :=
  [(0, 1, 0, 0), (0, 1, 0, 1), (0, 1, 0, 1), (0, 0, 0, 1), (0, 0, 0, 0), (0, 0, 0, 1),
     (0, 1, 0, 1), (0, -1, 0, 0), (0, 0, 0, 1), (0, 0, 0, 1), (0, 1, 0, 1)]

/-- The denominators of the divisions in the body of source `d2vdy2`, in source order. -/
def d2vdy2Denominators (lm : Cube K) : List K :=
  let index_x0 := mapd 0 0 0 1
  let index_x2 := mapd 0 1 0 1
  [lm index_x2 * (lm index_x2 + lm index_x0), lm index_x0 * lm index_x2,
     lm index_x0*(lm index_x0+lm index_x2)]

/-- The window positions `(i, j, k, component)` at which source `d2vdy2` reads a buffer, in
source order. -/
def d2vdy2Reads : List (Int × Int × Int × Int) :=
  [(0, 1, 0, 1), (0, 1, 0, 1), (0, 1, 0, 1), (0, 0, 0, 1), (0, 0, 0, 1), (0, 0, 0, 1),
     (0, 1, 0, 1), (0, -1, 0, 1), (0, 0, 0, 1), (0, 0, 0, 1), (0, 1, 0, 1)]

/-- The denominators of the divisions in the body of source `d2wdy2`, in source order. -/
def d2wdy2Denominators (lm : Cube K) : List K :=
  let index_x0 := mapd 0 0 0 1
  let index_x2 := mapd 0 1 0 1
  [lm index_x2 * (lm index_x2 + lm index_x0), lm index_x0 * lm index_x2,
     lm index_x0*(lm index_x0+lm index_x2)]

/-- The window positions `(i, j, k, component)` at which source `d2wdy2` reads a buffer, in
source order. -/
def d2wdy2Reads : List (Int × Int × Int × Int) :=
  [(0, 1, 0, 2), (0, 1, 0, 1), (0, 1, 0, 1), (0, 0, 0, 1), (0, 0, 0, 2), (0, 0, 0, 1),
     (0, 1, 0, 1), (0, -1, 0, 2), (0, 0, 0, 1), (0, 0, 0, 1), (0, 1, 0, 1)]

/-- The denominators of the divisions in the body of source `d2udz2`, in source order. -/
def d2udz2Denominators (lm : Cube K) : List K :=
  let index_x0 := mapd 0 0 0 0
  let index_x2 := mapd 0 0 1 0
  [lm index_x2 * (lm index_x2 + lm index_x0), lm index_x0 * lm index_x2,
     lm index_x0*(lm index_x0+lm index_x2)]

/-- The window positions `(i, j, k, component)` at which source `d2udz2` reads a buffer, in
source order. -/
def d2udz2Reads : List (Int × Int × Int × Int) :=
  [(0, 0, 1, 0), (0, 0, 1, 0), (0, 0, 1, 0), (0, 0, 0, 0), (0, 0, 0, 0), (0, 0, 0, 0),
     (0, 0, 1, 0), (0, 0, -1, 0), (0, 0, 0, 0), (0, 0, 0, 0), (0, 0, 1, 0)]

/-- The denominators of the divisions in the body of source `d2vdz2`, in source order. -/
def d2vdz2Denominators (lm : Cube K) : List K :=
  let index_x0 := mapd 0 0 0 0
  let index_x2 := mapd 0 0 1 0
  [lm index_x2 * (lm index_x2 + lm index_x0), lm index_x0 * lm index_x2,
     lm index_x0*(lm index_x0+lm index_x2)]

/-- The window positions `(i, j, k, component)` at which source `d2vdz2` reads a buffer, in
source order. -/
def d2vdz2Reads : List (Int × Int × Int × Int) :=
  [(0, 0, 1, 1), (0, 0, 1, 0), (0, 0, 1, 0), (0, 0, 0, 0), (0, 0, 0, 1), (0, 0, 0, 0),
     (0, 0, 1, 0), (0, 0, -1, 1), (0, 0, 0, 0), (0, 0, 0, 0), (0, 0, 1, 0)]

/-- The denominators of the divisions in the body of source `d2wdz2`, in source order. -/
def d2wdz2Denominators (lm : Cube K) : List K :=
  let index_x0 := mapd 0 0 0 0
  let index_x2 := mapd 0 0 1 0
  [lm index_x2 * (lm index_x2 + lm index_x0), lm index_x0 * lm index_x2,
     lm index_x0*(lm index_x0+lm index_x2)]

/-- The window positions `(i, j, k, component)` at which source `d2wdz2` reads a buffer, in
source order. -/
def d2wdz2Reads : List (Int × Int × Int × Int) :=
  [(0, 0, 1, 2), (0, 0, 1, 0), (0, 0, 1, 0), (0, 0, 0, 0), (0, 0, 0, 2), (0, 0, 0, 0),
     (0, 0, 1, 0), (0, 0, -1, 2), (0, 0, 0, 0), (0, 0, 0, 0), (0, 0, 1, 0)]

/-- The denominators of the divisions in the body of source `duvdx`, in source order. -/
def duvdxDenominators (lm : Cube K) : List K :=
  let hxShort := 0.5 * lm (mapd 0 0 0 0)
  let hxLong0 := 0.5 * (lm (mapd 0 0 0 0) + lm (mapd (-1) 0 0 0))
  let hxLong1 := 0.5 * (lm (mapd 0 0 0 0) + lm (mapd 1 0 0 0))
  let hyLong := 0.5 * (lm (mapd 0 0 0 1) + lm (mapd 0 1 0 1))
  [4.0, lm (mapd 0 0 0 0), hyLong, hyLong, hxLong1, hxLong1, hyLong, hyLong, hxLong0, hxLong0,
     2.0 * hxShort, hyLong, hyLong, hyLong, hyLong, 4.0 * hxShort]

/-- The window positions `(i, j, k, component)` at which source `duvdx` reads a buffer, in
source order. -/
def duvdxReads : List (Int × Int × Int × Int) :=
  [(0, 0, 0, 0), (0, 1, 0, 0), (0, 0, 0, 1), (1, 0, 0, 1), (-1, 0, 0, 0), (-1, 1, 0, 0),
     (-1, 0, 0, 1), (0, 0, 0, 1), (0, 0, 0, 0), (0, 1, 0, 0), (0, 0, 0, 1), (1, 0, 0, 1),
     (-1, 0, 0, 0), (-1, 1, 0, 0), (-1, 0, 0, 1), (0, 0, 0, 1), (0, 0, 0, 0), (0, 0, 0, 0),
     (0, 0, 0, 0), (-1, 0, 0, 0), (0, 0, 0, 0), (1, 0, 0, 0), (0, 0, 0, 1), (0, 0, 0, 1),
     (0, 1, 0, 1), (0, 0, 0, 0), (0, 1, 0, 0), (0, 0, 0, 1), (1, 0, 0, 1), (-1, 0, 0, 0),
     (-1, 1, 0, 0), (-1, 0, 0, 1)]

/-- The denominators of the divisions in the body of source `duvdy`, in source order. -/
def duvdyDenominators (lm : Cube K) : List K :=
  let hyShort := 0.5 * lm (mapd 0 0 0 1)
  let hyLong0 := 0.5 * (lm (mapd 0 0 0 1) + lm (mapd 0 (-1) 0 1))
  let hyLong1 := 0.5 * (lm (mapd 0 0 0 1) + lm (mapd 0 1 0 1))
  let hxLong := 0.5 * (lm (mapd 0 0 0 0) + lm (mapd 1 0 0 0))
  [4.0, lm (mapd 0 0 0 1), hxLong, hxLong, hyLong1, hyLong1, hxLong, hxLong, hyLong0, hyLong0,
     2.0 * hyShort, hxLong, hxLong, hxLong, hxLong, 4.0 * hyShort]

/-- The window positions `(i, j, k, component)` at which source `duvdy` reads a buffer, in
source order. -/
def duvdyReads : List (Int × Int × Int × Int) :=
  [(0, 0, 0, 1), (1, 0, 0, 1), (0, 0, 0, 0), (0, 1, 0, 0), (0, -1, 0, 1), (1, -1, 0, 1),
     (0, -1, 0, 0), (0, 0, 0, 0), (0, 0, 0, 1), (1, 0, 0, 1), (0, 0, 0, 0), (0, 1, 0, 0),
     (0, -1, 0, 1), (1, -1, 0, 1), (0, -1, 0, 0), (0, 0, 0, 0), (0, 0, 0, 1), (0, 0, 0, 1),
     (0, 0, 0, 1), (0, -1, 0, 1), (0, 0, 0, 1), (0, 1, 0, 1), (0, 0, 0, 0), (0, 0, 0, 0),
     (1, 0, 0, 0), (0, 0, 0, 1), (1, 0, 0, 1), (0, 0, 0, 0), (0, 1, 0, 0), (0, -1, 0, 1),
     (1, -1, 0, 1), (0, -1, 0, 0)]

/-- The denominators of the divisions in the body of source `duwdx`, in source order. -/
def duwdxDenominators (lm : Cube K) : List K :=
  let hxShort := 0.5 * lm (mapd 0 0 0 0)
  let hxLong0 := 0.5 * (lm (mapd 0 0 0 0) + lm (mapd (-1) 0 0 0))
  let hxLong1 := 0.5 * (lm (mapd 0 0 0 0) + lm (mapd 1 0 0 0))
  let hzLong := 0.5 * (lm (mapd 0 0 0 2) + lm (mapd 0 0 1 2))
  [4.0, lm (mapd 0 0 0 0), hzLong, hzLong, hxLong1, hxLong1, hzLong, hzLong, hxLong0, hxLong0,
     2.0 * hxShort, hzLong, hzLong, hzLong, hzLong, 4.0 * hxShort]

/-- The window positions `(i, j, k, component)` at which source `duwdx` reads a buffer, in
source order. -/
def duwdxReads : List (Int × Int × Int × Int) :=
  [(0, 0, 0, 0), (0, 0, 1, 0), (0, 0, 0, 2), (1, 0, 0, 2), (-1, 0, 0, 0), (-1, 0, 1, 0),
     (-1, 0, 0, 2), (0, 0, 0, 2), (0, 0, 0, 0), (0, 0, 1, 0), (0, 0, 0, 2), (1, 0, 0, 2),
     (-1, 0, 0, 0), (-1, 0, 1, 0), (-1, 0, 0, 2), (0, 0, 0, 2), (0, 0, 0, 0), (0, 0, 0, 0),
     (0, 0, 0, 0), (-1, 0, 0, 0), (0, 0, 0, 0), (1, 0, 0, 0), (0, 0, 0, 2), (0, 0, 0, 2),
     (0, 0, 1, 2), (0, 0, 0, 0), (0, 0, 1, 0), (0, 0, 0, 2), (1, 0, 0, 2), (-1, 0, 0, 0),
     (-1, 0, 1, 0), (-1, 0, 0, 2)]

/-- The denominators of the divisions in the body of source `duwdz`, in source order. -/
def duwdzDenominators (lm : Cube K) : List K :=
  let hzShort := 0.5 * lm (mapd 0 0 0 2)
  let hzLong0 := 0.5 * (lm (mapd 0 0 0 2) + lm (mapd 0 0 (-1) 2))
  let hzLong1 := 0.5 * (lm (mapd 0 0 0 2) + lm (mapd 0 0 1 2))
  let hxLong := 0.5 * (lm (mapd 0 0 0 0) + lm (mapd 1 0 0 0))
  [4.0, lm (mapd 0 0 0 2), hxLong, hxLong, hzLong1, hzLong1, hxLong, hxLong, hzLong0, hzLong0,
     2.0 * hzShort, hxLong, hxLong, hxLong, hxLong, 4.0 * hzShort]

/-- The window positions `(i, j, k, component)` at which source `duwdz` reads a buffer, in
source order. -/
def duwdzReads : List (Int × Int × Int × Int) :=
  [(0, 0, 0, 2), (1, 0, 0, 2), (0, 0, 0, 0), (0, 0, 1, 0), (0, 0, -1, 2), (1, 0, -1, 2),
     (0, 0, -1, 0), (0, 0, 0, 0), (0, 0, 0, 2), (1, 0, 0, 2), (0, 0, 0, 0), (0, 0, 1, 0),
     (0, 0, -1, 2), (1, 0, -1, 2), (0, 0, -1, 0), (0, 0, 0, 0), (0, 0, 0, 2), (0, 0, 0, 2),
     (0, 0, 0, 2), (0, 0, -1, 2), (0, 0, 0, 2), (0, 0, 1, 2), (0, 0, 0, 0), (0, 0, 0, 0),
     (1, 0, 0, 0), (0, 0, 0, 2), (1, 0, 0, 2), (0, 0, 0, 0), (0, 0, 1, 0), (0, 0, -1, 2),
     (1, 0, -1, 2), (0, 0, -1, 0)]

/-- The denominators of the divisions in the body of source `dvwdy`, in source order. -/
def dvwdyDenominators (lm : Cube K) : List K :=
  let hyShort := 0.5 * lm (mapd 0 0 0 1)
  let hyLong0 := 0.5 * (lm (mapd 0 0 0 1) + lm (mapd 0 (-1) 0 1))
  let hyLong1 := 0.5 * (lm (mapd 0 0 0 1) + lm (mapd 0 1 0 1))
  let hzLong := 0.5 * (lm (mapd 0 0 0 2) + lm (mapd 0 0 1 2))
  [4.0, lm (mapd 0 0 0 1), hzLong, hzLong, hyLong1, hyLong1, hzLong, hzLong, hyLong0, hyLong0,
     2.0 * hyShort, hzLong, hzLong, hzLong, hzLong, 4.0 * hyShort]

/-- The window positions `(i, j, k, component)` at which source `dvwdy` reads a buffer, in
source order. -/
def dvwdyReads : List (Int × Int × Int × Int) :=
  [(0, 0, 0, 1), (0, 0, 1, 1), (0, 0, 0, 2), (0, 1, 0, 2), (0, -1, 0, 1), (0, -1, 1, 1),
     (0, -1, 0, 2), (0, 0, 0, 2), (0, 0, 0, 1), (0, 0, 1, 1), (0, 0, 0, 2), (0, 1, 0, 2),
     (0, -1, 0, 1), (0, -1, 1, 1), (0, -1, 0, 2), (0, 0, 0, 2), (0, 0, 0, 1), (0, 0, 0, 1),
     (0, 0, 0, 1), (0, -1, 0, 1), (0, 0, 0, 1), (0, 1, 0, 1), (0, 0, 0, 2), (0, 0, 0, 2),
     (0, 0, 1, 2), (0, 0, 0, 1), (0, 0, 1, 1), (0, 0, 0, 2), (0, 1, 0, 2), (0, -1, 0, 1),
     (0, -1, 1, 1), (0, -1, 0, 2)]

/-- The denominators of the divisions in the body of source `dvwdz`, in source order. -/
def dvwdzDenominators (lm : Cube K) : List K :=
  let hzShort := 0.5 * lm (mapd 0 0 0 2)
  let hzLong0 := 0.5 * (lm (mapd 0 0 0 2) + lm (mapd 0 0 (-1) 2))
  let hzLong1 := 0.5 * (lm (mapd 0 0 0 2) + lm (mapd 0 0 1 2))
  let hyLong := 0.5 * (lm (mapd 0 0 0 1) + lm (mapd 0 1 0 1))
  [4.0, lm (mapd 0 0 0 2), hyLong, hyLong, hzLong1, hzLong1, hyLong, hyLong, hzLong0, hzLong0,
     2.0 * hzShort, hyLong, hyLong, hyLong, hyLong, 4.0 * hzShort]

/-- The window positions `(i, j, k, component)` at which source `dvwdz` reads a buffer, in
source order. -/
def dvwdzReads : List (Int × Int × Int × Int) :=
  [(0, 0, 0, 2), (0, 1, 0, 2), (0, 0, 0, 1), (0, 0, 1, 1), (0, 0, -1, 2), (0, 1, -1, 2),
     (0, 0, -1, 1), (0, 0, 0, 1), (0, 0, 0, 2), (0, 1, 0, 2), (0, 0, 0, 1), (0, 0, 1, 1),
     (0, 0, -1, 2), (0, 1, -1, 2), (0, 0, -1, 1), (0, 0, 0, 1), (0, 0, 0, 2), (0, 0, 0, 2),
     (0, 0, 0, 2), (0, 0, -1, 2), (0, 0, 0, 2), (0, 0, 1, 2), (0, 0, 0, 1), (0, 0, 0, 1),
     (0, 1, 0, 1), (0, 0, 0, 2), (0, 1, 0, 2), (0, 0, 0, 1), (0, 0, 1, 1), (0, 0, -1, 2),
     (0, 1, -1, 2), (0, 0, -1, 1)]

/-- The denominators of the divisions in the body of source `du2dx`, in source order. -/
def du2dxDenominators (lm : Cube K) : List K :=
  let dxShort := 0.5 * lm (mapd 0 0 0 0)
  let dxLong1 := 0.5 * (lm (mapd 0 0 0 0) + lm (mapd 1 0 0 0))
  [4.0, lm (mapd 0 0 0 0), 2, 2, 4 * dxLong1, 4.0 * dxShort]

/-- The window positions `(i, j, k, component)` at which source `du2dx` reads a buffer, in
source order. -/
def du2dxReads : List (Int × Int × Int × Int) :=
  [(0, 0, 0, 0), (1, 0, 0, 0), (0, 0, 0, 0), (1, 0, 0, 0), (-1, 0, 0, 0), (0, 0, 0, 0),
     (-1, 0, 0, 0), (0, 0, 0, 0), (0, 0, 0, 0), (1, 0, 0, 0), (0, 0, 0, 0), (1, 0, 0, 0),
     (-1, 0, 0, 0), (0, 0, 0, 0), (-1, 0, 0, 0), (0, 0, 0, 0), (0, 0, 0, 0), (0, 0, 0, 0),
     (0, 0, 0, 0), (1, 0, 0, 0), (0, 0, 0, 0), (-1, 0, 0, 0), (1, 0, 0, 0)]

/-- The denominators of the divisions in the body of source `dv2dy`, in source order. -/
def dv2dyDenominators (lm : Cube K) : List K :=
  let dyShort := 0.5 * lm (mapd 0 0 0 1)
  let dyLong1 := 0.5 * (lm (mapd 0 0 0 1) + lm (mapd 0 1 0 1))
  [4.0, lm (mapd 0 0 0 1), 2, 2, 4 * dyLong1, 4.0 * dyShort]

/-- The window positions `(i, j, k, component)` at which source `dv2dy` reads a buffer, in
source order. -/
def dv2dyReads : List (Int × Int × Int × Int) :=
  [(0, 0, 0, 1), (0, 1, 0, 1), (0, 0, 0, 1), (0, 1, 0, 1), (0, -1, 0, 1), (0, 0, 0, 1),
     (0, -1, 0, 1), (0, 0, 0, 1), (0, 0, 0, 1), (0, 1, 0, 1), (0, 0, 0, 1), (0, 1, 0, 1),
     (0, -1, 0, 1), (0, 0, 0, 1), (0, -1, 0, 1), (0, 0, 0, 1), (0, 0, 0, 1), (0, 0, 0, 1),
     (0, 0, 0, 1), (0, 1, 0, 1), (0, 0, 0, 1), (0, -1, 0, 1), (0, 1, 0, 1)]

/-- The denominators of the divisions in the body of source `dw2dz`, in source order. -/
def dw2dzDenominators (lm : Cube K) : List K :=
  let dzShort := 0.5 * lm (mapd 0 0 0 2)
  let dzLong1 := 0.5 * (lm (mapd 0 0 0 2) + lm (mapd 0 0 1 2))
  [4.0, lm (mapd 0 0 0 2), 2, 2, 4 * dzLong1, 4.0 * dzShort]

/-- The window positions `(i, j, k, component)` at which source `dw2dz` reads a buffer, in
source order. -/
def dw2dzReads : List (Int × Int × Int × Int) :=
  [(0, 0, 0, 2), (0, 0, 1, 2), (0, 0, 0, 2), (0, 0, 1, 2), (0, 0, -1, 2), (0, 0, 0, 2),
     (0, 0, -1, 2), (0, 0, 0, 2), (0, 0, 0, 2), (0, 0, 1, 2), (0, 0, 0, 2), (0, 0, 1, 2),
     (0, 0, -1, 2), (0, 0, 0, 2), (0, 0, -1, 2), (0, 0, 0, 2), (0, 0, 0, 2), (0, 0, 0, 2),
     (0, 0, 0, 2), (0, 0, 1, 2), (0, 0, 0, 2), (0, 0, -1, 2), (0, 0, 1, 2)]

/-- The denominators of the divisions in the body of source `computeF2D`, in source order. -/
def computeF2DDenominators (parameters : Parameters K) : List K :=
  [parameters.flow.Re]

/-- The window positions `(i, j, k, component)` at which source `computeF2D` reads a buffer, in
source order. -/
def computeF2DReads : List (Int × Int × Int × Int) :=
  [(0, 0, 0, 0)]

/-- The denominators of the divisions in the body of source `computeG2D`, in source order. -/
def computeG2DDenominators (parameters : Parameters K) : List K :=
  [parameters.flow.Re]

/-- The window positions `(i, j, k, component)` at which source `computeG2D` reads a buffer, in
source order. -/
def computeG2DReads : List (Int × Int × Int × Int) :=
  [(0, 0, 0, 1)]

/-- The denominators of the divisions in the body of source `computeF3D`, in source order. -/
def computeF3DDenominators (parameters : Parameters K) : List K :=
  [parameters.flow.Re]

/-- The window positions `(i, j, k, component)` at which source `computeF3D` reads a buffer, in
source order. -/
def computeF3DReads : List (Int × Int × Int × Int) :=
  [(0, 0, 0, 0)]

/-- The denominators of the divisions in the body of source `computeG3D`, in source order. -/
def computeG3DDenominators (parameters : Parameters K) : List K :=
  [parameters.flow.Re]

/-- The window positions `(i, j, k, component)` at which source `computeG3D` reads a buffer, in
source order. -/
def computeG3DReads : List (Int × Int × Int × Int) :=
  [(0, 0, 0, 1)]

/-- The denominators of the divisions in the body of source `computeH3D`, in source order. -/
def computeH3DDenominators (parameters : Parameters K) : List K :=
  [parameters.flow.Re]

/-- The window positions `(i, j, k, component)` at which source `computeH3D` reads a buffer, in
source order. -/
def computeH3DReads : List (Int × Int × Int × Int) :=
  [(0, 0, 0, 2)]

/-- The functions of the source, by name. -/
inductive StencilFunction where
  | dudx | dvdy | dwdz | d2udx2 | d2vdx2 | d2wdx2 | d2udy2 | d2vdy2 | d2wdy2 | d2udz2 | d2vdz2
  | d2wdz2 | duvdx | duvdy | duwdx | duwdz | dvwdy | dvwdz | du2dx | dv2dy | dw2dz | computeF2D
  | computeG2D | computeF3D | computeG3D | computeH3D
  deriving DecidableEq, Repr

/-- The denominators of the divisions of the named function. -/
def StencilFunction.denominators (lm : Cube K) (parameters : Parameters K) :
    StencilFunction → List K
  | .dudx => dudxDenominators lm
  | .dvdy => dvdyDenominators lm
  | .dwdz => dwdzDenominators lm
  | .d2udx2 => d2udx2Denominators lm
  | .d2vdx2 => d2vdx2Denominators lm
  | .d2wdx2 => d2wdx2Denominators lm
  | .d2udy2 => d2udy2Denominators lm
  | .d2vdy2 => d2vdy2Denominators lm
  | .d2wdy2 => d2wdy2Denominators lm
  | .d2udz2 => d2udz2Denominators lm
  | .d2vdz2 => d2vdz2Denominators lm
  | .d2wdz2 => d2wdz2Denominators lm
  | .duvdx => duvdxDenominators lm
  | .duvdy => duvdyDenominators lm
  | .duwdx => duwdxDenominators lm
  | .duwdz => duwdzDenominators lm
  | .dvwdy => dvwdyDenominators lm
  | .dvwdz => dvwdzDenominators lm
  | .du2dx => du2dxDenominators lm
  | .dv2dy => dv2dyDenominators lm
  | .dw2dz => dw2dzDenominators lm
  | .computeF2D => computeF2DDenominators parameters
  | .computeG2D => computeG2DDenominators parameters
  | .computeF3D => computeF3DDenominators parameters
  | .computeG3D => computeG3DDenominators parameters
  | .computeH3D => computeH3DDenominators parameters

/-- The window positions read by the named function. -/
def StencilFunction.reads : StencilFunction → List (Int × Int × Int × Int)
  | .dudx => dudxReads
  | .dvdy => dvdyReads
  | .dwdz => dwdzReads
  | .d2udx2 => d2udx2Reads
  | .d2vdx2 => d2vdx2Reads
  | .d2wdx2 => d2wdx2Reads
  | .d2udy2 => d2udy2Reads
  | .d2vdy2 => d2vdy2Reads
  | .d2wdy2 => d2wdy2Reads
  | .d2udz2 => d2udz2Reads
  | .d2vdz2 => d2vdz2Reads
  | .d2wdz2 => d2wdz2Reads
  | .duvdx => duvdxReads
  | .duvdy => duvdyReads
  | .duwdx => duwdxReads
  | .duwdz => duwdzReads
  | .dvwdy => dvwdyReads
  | .dvwdz => dvwdzReads
  | .du2dx => du2dxReads
  | .dv2dy => dv2dyReads
  | .dw2dz => dw2dzReads
  | .computeF2D => computeF2DReads
  | .computeG2D => computeG2DReads
  | .computeF3D => computeF3DReads
  | .computeG3D => computeG3DReads
  | .computeH3D => computeH3DReads

/-! ## Face products of `duvdx`

The two products whose difference is the numerator of `secondOrder` in source `duvdx`
(lines 239-243), with the local variables they use. -/

/-- The interpolated product on the east face: the first product in `secondOrder` of source
`duvdx`. -/
def duvdxEastFace (lv lm : Cube K) : K :=
  let hxShort := 0.5 * lm (mapd 0 0 0 0)
  let hxLong1 := 0.5 * (lm (mapd 0 0 0 0) + lm (mapd 1 0 0 0))
  let hyShort := 0.5 * lm (mapd 0 0 0 1)
  let hyLong := 0.5 * (lm (mapd 0 0 0 1) + lm (mapd 0 1 0 1))
  let u00 := lv (mapd 0 0 0 0)
  let u01 := lv (mapd 0 1 0 0)
  let v00 := lv (mapd 0 0 0 1)
  let v10 := lv (mapd 1 0 0 1)
  ((hyLong - hyShort) / hyLong * u00 + hyShort / hyLong * u01)
    * ((hxLong1 - hxShort) / hxLong1 * v00 + hxShort / hxLong1 * v10)

/-- The interpolated product on the west face: the second product in `secondOrder` of source
`duvdx`. -/
def duvdxWestFace (lv lm : Cube K) : K :=
  let hxShort := 0.5 * lm (mapd 0 0 0 0)
  let hxLong0 := 0.5 * (lm (mapd 0 0 0 0) + lm (mapd (-1) 0 0 0))
  let hyShort := 0.5 * lm (mapd 0 0 0 1)
  let hyLong := 0.5 * (lm (mapd 0 0 0 1) + lm (mapd 0 1 0 1))
  let v00 := lv (mapd 0 0 0 1)
  let uM10 := lv (mapd (-1) 0 0 0)
  let uM11 := lv (mapd (-1) 1 0 0)
  let vM10 := lv (mapd (-1) 0 0 1)
  ((hyLong - hyShort) / hyLong * uM10 + hyShort / hyLong * uM11)
    * ((hxLong0 - hxShort) / hxLong0 * v00 + hxShort / hxLong0 * vM10)

/-! ## Rounded arithmetic

`RealType` is declared in `Definitions.hpp`, which is not among the sources; the operators above
are embedded over an exact ordered field, which gives the value of every formula up to rounding.
Whether the consistency check of an advection operator fires depends on the rounding itself, so
the nine operators are embedded a second time with an explicit rounding function `fl` applied to
every arithmetic operation and every decimal literal, in the source's order of evaluation.
With `fl = id` these are the exact bodies; with `fl = binary64` they are IEEE 754 double
precision arithmetic (round to nearest, ties to even) as long as no result leaves the normal
range. -/

/-- The number of binary digits of `n`, found by halving at most `fuel` times. -/
def bitLength : ℕ → ℕ → ℕ
  | 0, _ => 0
  | fuel + 1, n => if n = 0 then 0 else bitLength fuel (n / 2) + 1

/-- Rounding of a rational to the nearest number `g * 2^e` with `g < 2^prec`, ties to the even
`g`; the exponent `e` is unbounded (no overflow, no subnormal numbers). Here `f0` is the integer
part at a first guess `e0` of the exponent of the last place, `e` the corrected exponent, `f` and
`r / m` the integer and fractional parts of `|q| / 2^e`. -/
def roundNearestEven (prec : ℕ) (q : ℚ) : ℚ :=
  if q = 0 then 0 else
    let a : ℕ := q.num.natAbs
    let d : ℕ := q.den
    let e0 : ℤ := (bitLength a a : ℤ) - (bitLength d d : ℤ) - ((prec : ℤ) - 1)
    let f0 : ℕ := (a * 2 ^ (-e0).toNat) / (d * 2 ^ e0.toNat)
    let e : ℤ := if f0 < 2 ^ (prec - 1) then e0 - 1 else e0
    let n : ℕ := a * 2 ^ (-e).toNat
    let m : ℕ := d * 2 ^ e.toNat
    let f : ℕ := n / m
    let r : ℕ := n % m
    let g : ℕ := if 2 * r < m then f else if m < 2 * r then f + 1 else f + f % 2
    let v : ℚ := (g : ℚ) * 2 ^ e.toNat / 2 ^ (-e).toNat
    if q < 0 then -v else v

/-- Rounding to IEEE 754 binary64 (53 significant bits), the C++ `double`. -/
def binary64 (q : ℚ) : ℚ := roundNearestEven 53 q

/-- The local variables of source `duvdx` when every arithmetic operation and every
decimal literal is rounded by `fl`, in the order in which the source evaluates them. -/
def duvdxLocalsRounded (fl : K → K) (lv : Cube K) (parameters : Parameters K) (lm : Cube K) :
    AdvectionLocals K :=
  let tmp1 := fl (fl (fl (fl 1.0 / fl 4.0) * fl (fl (fl (fl (lv (mapd 0 0 0 0) + lv (mapd 0 1 0 0))
      * fl (lv (mapd 0 0 0 1) + lv (mapd 1 0 0 1))) - fl (fl (lv (mapd (-1) 0 0 0) + lv (mapd (-1)
      1 0 0)) * fl (lv (mapd (-1) 0 0 1) + lv (mapd 0 0 0 1)))) + fl (parameters.solver.gamma * fl
      (fl (abs (fl (lv (mapd 0 0 0 0) + lv (mapd 0 1 0 0))) * fl (lv (mapd 0 0 0 1) - lv (mapd 1 0
      0 1))) - fl (abs (fl (lv (mapd (-1) 0 0 0) + lv (mapd (-1) 1 0 0))) * fl (lv (mapd (-1) 0 0
      1) - lv (mapd 0 0 0 1))))))) / lm (mapd 0 0 0 0))
  let hxShort := fl (fl 0.5 * lm (mapd 0 0 0 0))
  let hxLong0 := fl (fl 0.5 * fl (lm (mapd 0 0 0 0) + lm (mapd (-1) 0 0 0)))
  let hxLong1 := fl (fl 0.5 * fl (lm (mapd 0 0 0 0) + lm (mapd 1 0 0 0)))
  let hyShort := fl (fl 0.5 * lm (mapd 0 0 0 1))
  let hyLong := fl (fl 0.5 * fl (lm (mapd 0 0 0 1) + lm (mapd 0 1 0 1)))
  let u00 := lv (mapd 0 0 0 0)
  let u01 := lv (mapd 0 1 0 0)
  let v00 := lv (mapd 0 0 0 1)
  let v10 := lv (mapd 1 0 0 1)
  let uM10 := lv (mapd (-1) 0 0 0)
  let uM11 := lv (mapd (-1) 1 0 0)
  let vM10 := lv (mapd (-1) 0 0 1)
  let secondOrder := fl (fl (fl (fl (fl (fl (fl (hyLong - hyShort) / hyLong) * u00) + fl (fl
      (hyShort / hyLong) * u01)) * fl (fl (fl (fl (hxLong1 - hxShort) / hxLong1) * v00) + fl (fl
      (hxShort / hxLong1) * v10))) - fl (fl (fl (fl (fl (hyLong - hyShort) / hyLong) * uM10) + fl
      (fl (hyShort / hyLong) * uM11)) * fl (fl (fl (fl (hxLong0 - hxShort) / hxLong0) * v00) + fl
      (fl (hxShort / hxLong0) * vM10)))) / fl (fl 2.0 * hxShort))
  let kr := fl (fl (fl (fl (hyLong - hyShort) / hyLong) * u00) + fl (fl (hyShort / hyLong) * u01))
  let kl := fl (fl (fl (fl (hyLong - hyShort) / hyLong) * uM10) + fl (fl (hyShort / hyLong) * uM11))
  let firstOrder := fl (fl (fl 1.0 / fl (fl 4.0 * hxShort)) * fl (fl (fl (fl (kr * fl (v00 + v10))
      - fl (kl * fl (vM10 + v00))) + fl (abs (kr) * fl (v00 - v10))) - fl (abs (kl) * fl (vM10 -
      v00))))
  let tmp2 := fl (fl (fl (fl 1.0 - parameters.solver.gamma) * secondOrder) + fl
      (parameters.solver.gamma * firstOrder))
  AdvectionLocals.mk tmp1 kr kl secondOrder firstOrder tmp2

/-- Source `duvdx` in rounded arithmetic: without `NDEBUG` it throws when the rounded
difference of `tmp1` and `tmp2` exceeds the rounded literal `1.0e-12` in absolute value;
otherwise it returns `tmp2`. -/
def duvdxRounded (fl : K → K) (ndebug : Bool) (lv : Cube K) (parameters : Parameters K)
    (lm : Cube K) : Except String K :=
  let l := duvdxLocalsRounded fl lv parameters lm
  if ndebug = false ∧ abs (fl (l.tmp1 - l.tmp2)) > fl 1.0e-12 then Except.error "Error in duvdx"
  else Except.ok l.tmp2

/-- The local variables of source `duvdy` when every arithmetic operation and every
decimal literal is rounded by `fl`, in the order in which the source evaluates them. -/
def duvdyLocalsRounded (fl : K → K) (lv : Cube K) (parameters : Parameters K) (lm : Cube K) :
    AdvectionLocals K :=
  let tmp1 := fl (fl (fl (fl 1.0 / fl 4.0) * fl (fl (fl (fl (lv (mapd 0 0 0 1) + lv (mapd 1 0 0 1))
      * fl (lv (mapd 0 0 0 0) + lv (mapd 0 1 0 0))) - fl (fl (lv (mapd 0 (-1) 0 1) + lv (mapd 1
      (-1) 0 1)) * fl (lv (mapd 0 (-1) 0 0) + lv (mapd 0 0 0 0)))) + fl (parameters.solver.gamma *
      fl (fl (abs (fl (lv (mapd 0 0 0 1) + lv (mapd 1 0 0 1))) * fl (lv (mapd 0 0 0 0) - lv (mapd 0
      1 0 0))) - fl (abs (fl (lv (mapd 0 (-1) 0 1) + lv (mapd 1 (-1) 0 1))) * fl (lv (mapd 0 (-1) 0
      0) - lv (mapd 0 0 0 0))))))) / lm (mapd 0 0 0 1))
  let hyShort := fl (fl 0.5 * lm (mapd 0 0 0 1))
  let hyLong0 := fl (fl 0.5 * fl (lm (mapd 0 0 0 1) + lm (mapd 0 (-1) 0 1)))
  let hyLong1 := fl (fl 0.5 * fl (lm (mapd 0 0 0 1) + lm (mapd 0 1 0 1)))
  let hxShort := fl (fl 0.5 * lm (mapd 0 0 0 0))
  let hxLong := fl (fl 0.5 * fl (lm (mapd 0 0 0 0) + lm (mapd 1 0 0 0)))
  let v00 := lv (mapd 0 0 0 1)
  let v10 := lv (mapd 1 0 0 1)
  let u00 := lv (mapd 0 0 0 0)
  let u01 := lv (mapd 0 1 0 0)
  let v0M1 := lv (mapd 0 (-1) 0 1)
  let v1M1 := lv (mapd 1 (-1) 0 1)
  let u0M1 := lv (mapd 0 (-1) 0 0)
  let secondOrder := fl (fl (fl (fl (fl (fl (fl (hxLong - hxShort) / hxLong) * v00) + fl (fl
      (hxShort / hxLong) * v10)) * fl (fl (fl (fl (hyLong1 - hyShort) / hyLong1) * u00) + fl (fl
      (hyShort / hyLong1) * u01))) - fl (fl (fl (fl (fl (hxLong - hxShort) / hxLong) * v0M1) + fl
      (fl (hxShort / hxLong) * v1M1)) * fl (fl (fl (fl (hyLong0 - hyShort) / hyLong0) * u00) + fl
      (fl (hyShort / hyLong0) * u0M1)))) / fl (fl 2.0 * hyShort))
  let kr := fl (fl (fl (fl (hxLong - hxShort) / hxLong) * v00) + fl (fl (hxShort / hxLong) * v10))
  let kl := fl (fl (fl (fl (hxLong - hxShort) / hxLong) * v0M1) + fl (fl (hxShort / hxLong) * v1M1))
  let firstOrder := fl (fl (fl 1.0 / fl (fl 4.0 * hyShort)) * fl (fl (fl (fl (kr * fl (u00 + u01))
      - fl (kl * fl (u0M1 + u00))) + fl (abs (kr) * fl (u00 - u01))) - fl (abs (kl) * fl (u0M1 -
      u00))))
  let tmp2 := fl (fl (fl (fl 1.0 - parameters.solver.gamma) * secondOrder) + fl
      (parameters.solver.gamma * firstOrder))
  AdvectionLocals.mk tmp1 kr kl secondOrder firstOrder tmp2

/-- Source `duvdy` in rounded arithmetic: without `NDEBUG` it throws when the rounded
difference of `tmp1` and `tmp2` exceeds the rounded literal `1.0e-12` in absolute value;
otherwise it returns `tmp2`. -/
def duvdyRounded (fl : K → K) (ndebug : Bool) (lv : Cube K) (parameters : Parameters K)
    (lm : Cube K) : Except String K :=
  let l := duvdyLocalsRounded fl lv parameters lm
  if ndebug = false ∧ abs (fl (l.tmp1 - l.tmp2)) > fl 1.0e-12 then Except.error "Error in duvdy"
  else Except.ok l.tmp2

/-- The local variables of source `duwdx` when every arithmetic operation and every
decimal literal is rounded by `fl`, in the order in which the source evaluates them. -/
def duwdxLocalsRounded (fl : K → K) (lv : Cube K) (parameters : Parameters K) (lm : Cube K) :
    AdvectionLocals K :=
  let tmp1 := fl (fl (fl (fl 1.0 / fl 4.0) * fl (fl (fl (fl (lv (mapd 0 0 0 0) + lv (mapd 0 0 1 0))
      * fl (lv (mapd 0 0 0 2) + lv (mapd 1 0 0 2))) - fl (fl (lv (mapd (-1) 0 0 0) + lv (mapd (-1)
      0 1 0)) * fl (lv (mapd (-1) 0 0 2) + lv (mapd 0 0 0 2)))) + fl (parameters.solver.gamma * fl
      (fl (abs (fl (lv (mapd 0 0 0 0) + lv (mapd 0 0 1 0))) * fl (lv (mapd 0 0 0 2) - lv (mapd 1 0
      0 2))) - fl (abs (fl (lv (mapd (-1) 0 0 0) + lv (mapd (-1) 0 1 0))) * fl (lv (mapd (-1) 0 0
      2) - lv (mapd 0 0 0 2))))))) / lm (mapd 0 0 0 0))
  let hxShort := fl (fl 0.5 * lm (mapd 0 0 0 0))
  let hxLong0 := fl (fl 0.5 * fl (lm (mapd 0 0 0 0) + lm (mapd (-1) 0 0 0)))
  let hxLong1 := fl (fl 0.5 * fl (lm (mapd 0 0 0 0) + lm (mapd 1 0 0 0)))
  let hzShort := fl (fl 0.5 * lm (mapd 0 0 0 2))
  let hzLong := fl (fl 0.5 * fl (lm (mapd 0 0 0 2) + lm (mapd 0 0 1 2)))
  let u00 := lv (mapd 0 0 0 0)
  let u01 := lv (mapd 0 0 1 0)
  let w00 := lv (mapd 0 0 0 2)
  let w10 := lv (mapd 1 0 0 2)
  let uM10 := lv (mapd (-1) 0 0 0)
  let uM11 := lv (mapd (-1) 0 1 0)
  let wM10 := lv (mapd (-1) 0 0 2)
  let secondOrder := fl (fl (fl (fl (fl (fl (fl (hzLong - hzShort) / hzLong) * u00) + fl (fl
      (hzShort / hzLong) * u01)) * fl (fl (fl (fl (hxLong1 - hxShort) / hxLong1) * w00) + fl (fl
      (hxShort / hxLong1) * w10))) - fl (fl (fl (fl (fl (hzLong - hzShort) / hzLong) * uM10) + fl
      (fl (hzShort / hzLong) * uM11)) * fl (fl (fl (fl (hxLong0 - hxShort) / hxLong0) * w00) + fl
      (fl (hxShort / hxLong0) * wM10)))) / fl (fl 2.0 * hxShort))
  let kr := fl (fl (fl (fl (hzLong - hzShort) / hzLong) * u00) + fl (fl (hzShort / hzLong) * u01))
  let kl := fl (fl (fl (fl (hzLong - hzShort) / hzLong) * uM10) + fl (fl (hzShort / hzLong) * uM11))
  let firstOrder := fl (fl (fl 1.0 / fl (fl 4.0 * hxShort)) * fl (fl (fl (fl (kr * fl (w00 + w10))
      - fl (kl * fl (wM10 + w00))) + fl (abs (kr) * fl (w00 - w10))) - fl (abs (kl) * fl (wM10 -
      w00))))
  let tmp2 := fl (fl (fl (fl 1.0 - parameters.solver.gamma) * secondOrder) + fl
      (parameters.solver.gamma * firstOrder))
  AdvectionLocals.mk tmp1 kr kl secondOrder firstOrder tmp2

/-- Source `duwdx` in rounded arithmetic: without `NDEBUG` it throws when the rounded
difference of `tmp1` and `tmp2` exceeds the rounded literal `1.0e-12` in absolute value;
otherwise it returns `tmp2`. -/
def duwdxRounded (fl : K → K) (ndebug : Bool) (lv : Cube K) (parameters : Parameters K)
    (lm : Cube K) : Except String K :=
  let l := duwdxLocalsRounded fl lv parameters lm
  if ndebug = false ∧ abs (fl (l.tmp1 - l.tmp2)) > fl 1.0e-12 then Except.error "Error in duwdx"
  else Except.ok l.tmp2

/-- The local variables of source `duwdz` when every arithmetic operation and every
decimal literal is rounded by `fl`, in the order in which the source evaluates them. -/
def duwdzLocalsRounded (fl : K → K) (lv : Cube K) (parameters : Parameters K) (lm : Cube K) :
    AdvectionLocals K :=
  let tmp1 := fl (fl (fl (fl 1.0 / fl 4.0) * fl (fl (fl (fl (lv (mapd 0 0 0 2) + lv (mapd 1 0 0 2))
      * fl (lv (mapd 0 0 0 0) + lv (mapd 0 0 1 0))) - fl (fl (lv (mapd 0 0 (-1) 2) + lv (mapd 1 0
      (-1) 2)) * fl (lv (mapd 0 0 (-1) 0) + lv (mapd 0 0 0 0)))) + fl (parameters.solver.gamma * fl
      (fl (abs (fl (lv (mapd 0 0 0 2) + lv (mapd 1 0 0 2))) * fl (lv (mapd 0 0 0 0) - lv (mapd 0 0
      1 0))) - fl (abs (fl (lv (mapd 0 0 (-1) 2) + lv (mapd 1 0 (-1) 2))) * fl (lv (mapd 0 0 (-1)
      0) - lv (mapd 0 0 0 0))))))) / lm (mapd 0 0 0 2))
  let hzShort := fl (fl 0.5 * lm (mapd 0 0 0 2))
  let hzLong0 := fl (fl 0.5 * fl (lm (mapd 0 0 0 2) + lm (mapd 0 0 (-1) 2)))
  let hzLong1 := fl (fl 0.5 * fl (lm (mapd 0 0 0 2) + lm (mapd 0 0 1 2)))
  let hxShort := fl (fl 0.5 * lm (mapd 0 0 0 0))
  let hxLong := fl (fl 0.5 * fl (lm (mapd 0 0 0 0) + lm (mapd 1 0 0 0)))
  let w00 := lv (mapd 0 0 0 2)
  let w10 := lv (mapd 1 0 0 2)
  let u00 := lv (mapd 0 0 0 0)
  let u01 := lv (mapd 0 0 1 0)
  let w0M1 := lv (mapd 0 0 (-1) 2)
  let w1M1 := lv (mapd 1 0 (-1) 2)
  let u0M1 := lv (mapd 0 0 (-1) 0)
  let secondOrder := fl (fl (fl (fl (fl (fl (fl (hxLong - hxShort) / hxLong) * w00) + fl (fl
      (hxShort / hxLong) * w10)) * fl (fl (fl (fl (hzLong1 - hzShort) / hzLong1) * u00) + fl (fl
      (hzShort / hzLong1) * u01))) - fl (fl (fl (fl (fl (hxLong - hxShort) / hxLong) * w0M1) + fl
      (fl (hxShort / hxLong) * w1M1)) * fl (fl (fl (fl (hzLong0 - hzShort) / hzLong0) * u00) + fl
      (fl (hzShort / hzLong0) * u0M1)))) / fl (fl 2.0 * hzShort))
  let kr := fl (fl (fl (fl (hxLong - hxShort) / hxLong) * w00) + fl (fl (hxShort / hxLong) * w10))
  let kl := fl (fl (fl (fl (hxLong - hxShort) / hxLong) * w0M1) + fl (fl (hxShort / hxLong) * w1M1))
  let firstOrder := fl (fl (fl 1.0 / fl (fl 4.0 * hzShort)) * fl (fl (fl (fl (kr * fl (u00 + u01))
      - fl (kl * fl (u0M1 + u00))) + fl (abs (kr) * fl (u00 - u01))) - fl (abs (kl) * fl (u0M1 -
      u00))))
  let tmp2 := fl (fl (fl (fl 1.0 - parameters.solver.gamma) * secondOrder) + fl
      (parameters.solver.gamma * firstOrder))
  AdvectionLocals.mk tmp1 kr kl secondOrder firstOrder tmp2

/-- Source `duwdz` in rounded arithmetic: without `NDEBUG` it throws when the rounded
difference of `tmp1` and `tmp2` exceeds the rounded literal `1.0e-12` in absolute value;
otherwise it returns `tmp2`. -/
def duwdzRounded (fl : K → K) (ndebug : Bool) (lv : Cube K) (parameters : Parameters K)
    (lm : Cube K) : Except String K :=
  let l := duwdzLocalsRounded fl lv parameters lm
  if ndebug = false ∧ abs (fl (l.tmp1 - l.tmp2)) > fl 1.0e-12 then Except.error "Error in duwdz"
  else Except.ok l.tmp2

/-- The local variables of source `dvwdy` when every arithmetic operation and every
decimal literal is rounded by `fl`, in the order in which the source evaluates them. -/
def dvwdyLocalsRounded (fl : K → K) (lv : Cube K) (parameters : Parameters K) (lm : Cube K) :
    AdvectionLocals K :=
  let tmp1 := fl (fl (fl (fl 1.0 / fl 4.0) * fl (fl (fl (fl (lv (mapd 0 0 0 1) + lv (mapd 0 0 1 1))
      * fl (lv (mapd 0 0 0 2) + lv (mapd 0 1 0 2))) - fl (fl (lv (mapd 0 (-1) 0 1) + lv (mapd 0
      (-1) 1 1)) * fl (lv (mapd 0 (-1) 0 2) + lv (mapd 0 0 0 2)))) + fl (parameters.solver.gamma *
      fl (fl (abs (fl (lv (mapd 0 0 0 1) + lv (mapd 0 0 1 1))) * fl (lv (mapd 0 0 0 2) - lv (mapd 0
      1 0 2))) - fl (abs (fl (lv (mapd 0 (-1) 0 1) + lv (mapd 0 (-1) 1 1))) * fl (lv (mapd 0 (-1) 0
      2) - lv (mapd 0 0 0 2))))))) / lm (mapd 0 0 0 1))
  let hyShort := fl (fl 0.5 * lm (mapd 0 0 0 1))
  let hyLong0 := fl (fl 0.5 * fl (lm (mapd 0 0 0 1) + lm (mapd 0 (-1) 0 1)))
  let hyLong1 := fl (fl 0.5 * fl (lm (mapd 0 0 0 1) + lm (mapd 0 1 0 1)))
  let hzShort := fl (fl 0.5 * lm (mapd 0 0 0 2))
  let hzLong := fl (fl 0.5 * fl (lm (mapd 0 0 0 2) + lm (mapd 0 0 1 2)))
  let v00 := lv (mapd 0 0 0 1)
  let v01 := lv (mapd 0 0 1 1)
  let w00 := lv (mapd 0 0 0 2)
  let w10 := lv (mapd 0 1 0 2)
  let vM10 := lv (mapd 0 (-1) 0 1)
  let vM11 := lv (mapd 0 (-1) 1 1)
  let wM10 := lv (mapd 0 (-1) 0 2)
  let secondOrder := fl (fl (fl (fl (fl (fl (fl (hzLong - hzShort) / hzLong) * v00) + fl (fl
      (hzShort / hzLong) * v01)) * fl (fl (fl (fl (hyLong1 - hyShort) / hyLong1) * w00) + fl (fl
      (hyShort / hyLong1) * w10))) - fl (fl (fl (fl (fl (hzLong - hzShort) / hzLong) * vM10) + fl
      (fl (hzShort / hzLong) * vM11)) * fl (fl (fl (fl (hyLong0 - hyShort) / hyLong0) * w00) + fl
      (fl (hyShort / hyLong0) * wM10)))) / fl (fl 2.0 * hyShort))
  let kr := fl (fl (fl (fl (hzLong - hzShort) / hzLong) * v00) + fl (fl (hzShort / hzLong) * v01))
  let kl := fl (fl (fl (fl (hzLong - hzShort) / hzLong) * vM10) + fl (fl (hzShort / hzLong) * vM11))
  let firstOrder := fl (fl (fl 1.0 / fl (fl 4.0 * hyShort)) * fl (fl (fl (fl (kr * fl (w00 + w10))
      - fl (kl * fl (wM10 + w00))) + fl (abs (kr) * fl (w00 - w10))) - fl (abs (kl) * fl (wM10 -
      w00))))
  let tmp2 := fl (fl (fl (fl 1.0 - parameters.solver.gamma) * secondOrder) + fl
      (parameters.solver.gamma * firstOrder))
  AdvectionLocals.mk tmp1 kr kl secondOrder firstOrder tmp2

/-- Source `dvwdy` in rounded arithmetic: without `NDEBUG` it throws when the rounded
difference of `tmp1` and `tmp2` exceeds the rounded literal `1.0e-12` in absolute value;
otherwise it returns `tmp2`. -/
def dvwdyRounded (fl : K → K) (ndebug : Bool) (lv : Cube K) (parameters : Parameters K)
    (lm : Cube K) : Except String K :=
  let l := dvwdyLocalsRounded fl lv parameters lm
  if ndebug = false ∧ abs (fl (l.tmp1 - l.tmp2)) > fl 1.0e-12 then Except.error "Error in dvwdy"
  else Except.ok l.tmp2

/-- The local variables of source `dvwdz` when every arithmetic operation and every
decimal literal is rounded by `fl`, in the order in which the source evaluates them. -/
def dvwdzLocalsRounded (fl : K → K) (lv : Cube K) (parameters : Parameters K) (lm : Cube K) :
    AdvectionLocals K :=
  let tmp1 := fl (fl (fl (fl 1.0 / fl 4.0) * fl (fl (fl (fl (lv (mapd 0 0 0 2) + lv (mapd 0 1 0 2))
      * fl (lv (mapd 0 0 0 1) + lv (mapd 0 0 1 1))) - fl (fl (lv (mapd 0 0 (-1) 2) + lv (mapd 0 1
      (-1) 2)) * fl (lv (mapd 0 0 (-1) 1) + lv (mapd 0 0 0 1)))) + fl (parameters.solver.gamma * fl
      (fl (abs (fl (lv (mapd 0 0 0 2) + lv (mapd 0 1 0 2))) * fl (lv (mapd 0 0 0 1) - lv (mapd 0 0
      1 1))) - fl (abs (fl (lv (mapd 0 0 (-1) 2) + lv (mapd 0 1 (-1) 2))) * fl (lv (mapd 0 0 (-1)
      1) - lv (mapd 0 0 0 1))))))) / lm (mapd 0 0 0 2))
  let hzShort := fl (fl 0.5 * lm (mapd 0 0 0 2))
  let hzLong0 := fl (fl 0.5 * fl (lm (mapd 0 0 0 2) + lm (mapd 0 0 (-1) 2)))
  let hzLong1 := fl (fl 0.5 * fl (lm (mapd 0 0 0 2) + lm (mapd 0 0 1 2)))
  let hyShort := fl (fl 0.5 * lm (mapd 0 0 0 1))
  let hyLong := fl (fl 0.5 * fl (lm (mapd 0 0 0 1) + lm (mapd 0 1 0 1)))
  let w00 := lv (mapd 0 0 0 2)
  let w10 := lv (mapd 0 1 0 2)
  let v00 := lv (mapd 0 0 0 1)
  let v01 := lv (mapd 0 0 1 1)
  let w0M1 := lv (mapd 0 0 (-1) 2)
  let w1M1 := lv (mapd 0 1 (-1) 2)
  let v0M1 := lv (mapd 0 0 (-1) 1)
  let secondOrder := fl (fl (fl (fl (fl (fl (fl (hyLong - hyShort) / hyLong) * w00) + fl (fl
      (hyShort / hyLong) * w10)) * fl (fl (fl (fl (hzLong1 - hzShort) / hzLong1) * v00) + fl (fl
      (hzShort / hzLong1) * v01))) - fl (fl (fl (fl (fl (hyLong - hyShort) / hyLong) * w0M1) + fl
      (fl (hyShort / hyLong) * w1M1)) * fl (fl (fl (fl (hzLong0 - hzShort) / hzLong0) * v00) + fl
      (fl (hzShort / hzLong0) * v0M1)))) / fl (fl 2.0 * hzShort))
  let kr := fl (fl (fl (fl (hyLong - hyShort) / hyLong) * w00) + fl (fl (hyShort / hyLong) * w10))
  let kl := fl (fl (fl (fl (hyLong - hyShort) / hyLong) * w0M1) + fl (fl (hyShort / hyLong) * w1M1))
  let firstOrder := fl (fl (fl 1.0 / fl (fl 4.0 * hzShort)) * fl (fl (fl (fl (kr * fl (v00 + v01))
      - fl (kl * fl (v0M1 + v00))) + fl (abs (kr) * fl (v00 - v01))) - fl (abs (kl) * fl (v0M1 -
      v00))))
  let tmp2 := fl (fl (fl (fl 1.0 - parameters.solver.gamma) * secondOrder) + fl
      (parameters.solver.gamma * firstOrder))
  AdvectionLocals.mk tmp1 kr kl secondOrder firstOrder tmp2

/-- Source `dvwdz` in rounded arithmetic: without `NDEBUG` it throws when the rounded
difference of `tmp1` and `tmp2` exceeds the rounded literal `1.0e-12` in absolute value;
otherwise it returns `tmp2`. -/
def dvwdzRounded (fl : K → K) (ndebug : Bool) (lv : Cube K) (parameters : Parameters K)
    (lm : Cube K) : Except String K :=
  let l := dvwdzLocalsRounded fl lv parameters lm
  if ndebug = false ∧ abs (fl (l.tmp1 - l.tmp2)) > fl 1.0e-12 then Except.error "Error in dvwdz"
  else Except.ok l.tmp2

/-- The local variables of source `du2dx` when every arithmetic operation and every
decimal literal is rounded by `fl`, in the order in which the source evaluates them. -/
def du2dxLocalsRounded (fl : K → K) (lv : Cube K) (parameters : Parameters K) (lm : Cube K) :
    AdvectionLocals K :=
  let tmp1 := fl (fl (fl (fl 1.0 / fl 4.0) * fl (fl (fl (fl (lv (mapd 0 0 0 0) + lv (mapd 1 0 0 0))
      * fl (lv (mapd 0 0 0 0) + lv (mapd 1 0 0 0))) - fl (fl (lv (mapd (-1) 0 0 0) + lv (mapd 0 0 0
      0)) * fl (lv (mapd (-1) 0 0 0) + lv (mapd 0 0 0 0)))) + fl (parameters.solver.gamma * fl (fl
      (abs (fl (lv (mapd 0 0 0 0) + lv (mapd 1 0 0 0))) * fl (lv (mapd 0 0 0 0) - lv (mapd 1 0 0
      0))) - fl (abs (fl (lv (mapd (-1) 0 0 0) + lv (mapd 0 0 0 0))) * fl (lv (mapd (-1) 0 0 0) -
      lv (mapd 0 0 0 0))))))) / lm (mapd 0 0 0 0))
  let dxShort := fl (fl 0.5 * lm (mapd 0 0 0 0))
  let dxLong1 := fl (fl 0.5 * fl (lm (mapd 0 0 0 0) + lm (mapd 1 0 0 0)))
  let u0 := lv (mapd 0 0 0 0)
  let uM1 := lv (mapd (-1) 0 0 0)
  let u1 := lv (mapd 1 0 0 0)
  let kr := fl (fl (u0 + u1) / fl 2)
  let kl := fl (fl (u0 + uM1) / fl 2)
  let secondOrder := fl (fl (fl (fl (u0 + u1) * fl (u0 + u1)) - fl (fl (u0 + uM1) * fl (u0 + uM1)))
      / fl (fl 4 * dxLong1))
  let firstOrder := fl (fl (fl 1.0 / fl (fl 4.0 * dxShort)) * fl (fl (fl (fl (kr * fl (u0 + u1)) -
      fl (kl * fl (uM1 + u0))) + fl (abs (kr) * fl (u0 - u1))) - fl (abs (kl) * fl (uM1 - u0))))
  let tmp2 := fl (fl (fl (fl 1.0 - parameters.solver.gamma) * secondOrder) + fl
      (parameters.solver.gamma * firstOrder))
  AdvectionLocals.mk tmp1 kr kl secondOrder firstOrder tmp2

/-- Source `du2dx` in rounded arithmetic: without `NDEBUG` it throws when the rounded
difference of `tmp1` and `tmp2` exceeds the rounded literal `1.0e-12` in absolute value;
otherwise it returns `tmp2`. -/
def du2dxRounded (fl : K → K) (ndebug : Bool) (lv : Cube K) (parameters : Parameters K)
    (lm : Cube K) : Except String K :=
  let l := du2dxLocalsRounded fl lv parameters lm
  if ndebug = false ∧ abs (fl (l.tmp1 - l.tmp2)) > fl 1.0e-12 then Except.error "Error in du2dx"
  else Except.ok l.tmp2

/-- The local variables of source `dv2dy` when every arithmetic operation and every
decimal literal is rounded by `fl`, in the order in which the source evaluates them. -/
def dv2dyLocalsRounded (fl : K → K) (lv : Cube K) (parameters : Parameters K) (lm : Cube K) :
    AdvectionLocals K :=
  let tmp1 := fl (fl (fl (fl 1.0 / fl 4.0) * fl (fl (fl (fl (lv (mapd 0 0 0 1) + lv (mapd 0 1 0 1))
      * fl (lv (mapd 0 0 0 1) + lv (mapd 0 1 0 1))) - fl (fl (lv (mapd 0 (-1) 0 1) + lv (mapd 0 0 0
      1)) * fl (lv (mapd 0 (-1) 0 1) + lv (mapd 0 0 0 1)))) + fl (parameters.solver.gamma * fl (fl
      (abs (fl (lv (mapd 0 0 0 1) + lv (mapd 0 1 0 1))) * fl (lv (mapd 0 0 0 1) - lv (mapd 0 1 0
      1))) - fl (abs (fl (lv (mapd 0 (-1) 0 1) + lv (mapd 0 0 0 1))) * fl (lv (mapd 0 (-1) 0 1) -
      lv (mapd 0 0 0 1))))))) / lm (mapd 0 0 0 1))
  let dyShort := fl (fl 0.5 * lm (mapd 0 0 0 1))
  let dyLong1 := fl (fl 0.5 * fl (lm (mapd 0 0 0 1) + lm (mapd 0 1 0 1)))
  let v0 := lv (mapd 0 0 0 1)
  let vM1 := lv (mapd 0 (-1) 0 1)
  let v1 := lv (mapd 0 1 0 1)
  let kr := fl (fl (v0 + v1) / fl 2)
  let kl := fl (fl (v0 + vM1) / fl 2)
  let secondOrder := fl (fl (fl (fl (v0 + v1) * fl (v0 + v1)) - fl (fl (v0 + vM1) * fl (v0 + vM1)))
      / fl (fl 4 * dyLong1))
  let firstOrder := fl (fl (fl 1.0 / fl (fl 4.0 * dyShort)) * fl (fl (fl (fl (kr * fl (v0 + v1)) -
      fl (kl * fl (vM1 + v0))) + fl (abs (kr) * fl (v0 - v1))) - fl (abs (kl) * fl (vM1 - v0))))
  let tmp2 := fl (fl (fl (fl 1.0 - parameters.solver.gamma) * secondOrder) + fl
      (parameters.solver.gamma * firstOrder))
  AdvectionLocals.mk tmp1 kr kl secondOrder firstOrder tmp2

/-- Source `dv2dy` in rounded arithmetic: without `NDEBUG` it throws when the rounded
difference of `tmp1` and `tmp2` exceeds the rounded literal `1.0e-12` in absolute value;
otherwise it returns `tmp2`. -/
def dv2dyRounded (fl : K → K) (ndebug : Bool) (lv : Cube K) (parameters : Parameters K)
    (lm : Cube K) : Except String K :=
  let l := dv2dyLocalsRounded fl lv parameters lm
  if ndebug = false ∧ abs (fl (l.tmp1 - l.tmp2)) > fl 1.0e-12 then Except.error "Error in dv2dy"
  else Except.ok l.tmp2

/-- The local variables of source `dw2dz` when every arithmetic operation and every
decimal literal is rounded by `fl`, in the order in which the source evaluates them. -/
def dw2dzLocalsRounded (fl : K → K) (lv : Cube K) (parameters : Parameters K) (lm : Cube K) :
    AdvectionLocals K :=
  let tmp1 := fl (fl (fl (fl 1.0 / fl 4.0) * fl (fl (fl (fl (lv (mapd 0 0 0 2) + lv (mapd 0 0 1 2))
      * fl (lv (mapd 0 0 0 2) + lv (mapd 0 0 1 2))) - fl (fl (lv (mapd 0 0 (-1) 2) + lv (mapd 0 0 0
      2)) * fl (lv (mapd 0 0 (-1) 2) + lv (mapd 0 0 0 2)))) + fl (parameters.solver.gamma * fl (fl
      (abs (fl (lv (mapd 0 0 0 2) + lv (mapd 0 0 1 2))) * fl (lv (mapd 0 0 0 2) - lv (mapd 0 0 1
      2))) - fl (abs (fl (lv (mapd 0 0 (-1) 2) + lv (mapd 0 0 0 2))) * fl (lv (mapd 0 0 (-1) 2) -
      lv (mapd 0 0 0 2))))))) / lm (mapd 0 0 0 2))
  let dzShort := fl (fl 0.5 * lm (mapd 0 0 0 2))
  let dzLong1 := fl (fl 0.5 * fl (lm (mapd 0 0 0 2) + lm (mapd 0 0 1 2)))
  let w0 := lv (mapd 0 0 0 2)
  let wM1 := lv (mapd 0 0 (-1) 2)
  let w1 := lv (mapd 0 0 1 2)
  let kr := fl (fl (w0 + w1) / fl 2)
  let kl := fl (fl (w0 + wM1) / fl 2)
  let secondOrder := fl (fl (fl (fl (w0 + w1) * fl (w0 + w1)) - fl (fl (w0 + wM1) * fl (w0 + wM1)))
      / fl (fl 4 * dzLong1))
  let firstOrder := fl (fl (fl 1.0 / fl (fl 4.0 * dzShort)) * fl (fl (fl (fl (kr * fl (w0 + w1)) -
      fl (kl * fl (wM1 + w0))) + fl (abs (kr) * fl (w0 - w1))) - fl (abs (kl) * fl (wM1 - w0))))
  let tmp2 := fl (fl (fl (fl 1.0 - parameters.solver.gamma) * secondOrder) + fl
      (parameters.solver.gamma * firstOrder))
  AdvectionLocals.mk tmp1 kr kl secondOrder firstOrder tmp2

/-- Source `dw2dz` in rounded arithmetic: without `NDEBUG` it throws when the rounded
difference of `tmp1` and `tmp2` exceeds the rounded literal `1.0e-12` in absolute value;
otherwise it returns `tmp2`. -/
def dw2dzRounded (fl : K → K) (ndebug : Bool) (lv : Cube K) (parameters : Parameters K)
    (lm : Cube K) : Except String K :=
  let l := dw2dzLocalsRounded fl lv parameters lm
  if ndebug = false ∧ abs (fl (l.tmp1 - l.tmp2)) > fl 1.0e-12 then Except.error "Error in dw2dz"
  else Except.ok l.tmp2

/-- The local variables of the named operator in rounded arithmetic. -/
def AdvectionOp.localsRounded :
    AdvectionOp → (K → K) → Cube K → Parameters K → Cube K → AdvectionLocals K
  | .duvdx => duvdxLocalsRounded
  | .duvdy => duvdyLocalsRounded
  | .duwdx => duwdxLocalsRounded
  | .duwdz => duwdzLocalsRounded
  | .dvwdy => dvwdyLocalsRounded
  | .dvwdz => dvwdzLocalsRounded
  | .du2dx => du2dxLocalsRounded
  | .dv2dy => dv2dyLocalsRounded
  | .dw2dz => dw2dzLocalsRounded

/-- The named operator in rounded arithmetic, as a function of the rounding, the build and its
three arguments. -/
def AdvectionOp.runRounded :
    AdvectionOp → (K → K) → Bool → Cube K → Parameters K → Cube K → Except String K
  | .duvdx => duvdxRounded
  | .duvdy => duvdyRounded
  | .duwdx => duwdxRounded
  | .duwdz => duwdzRounded
  | .dvwdy => dvwdyRounded
  | .dvwdz => dvwdzRounded
  | .du2dx => du2dxRounded
  | .dv2dy => dv2dyRounded
  | .dw2dz => dw2dzRounded

/-! ## Reference formula of the specification -/

/-- The non-uniform three-point formula in the words of the specification (section 4.4):
`2 * ( f(+1)/(h+ * (h+ + h-)) - f(0)/(h- * h+) + f(-1)/(h- * (h- + h+)) )`, as a function of
`f(-1)`, `f(0)`, `f(+1)`, `h-` and `h+`.  It is what the second-derivative operators of the
source are compared with. -/
def specThreePoint (fm f0 fp hm hp : K) : K :=
  2 * (fp / (hp * (hp + hm)) - f0 / (hm * hp) + fm / (hm * (hm + hp)))

/-! ## Concrete inputs -/

/-- Parameters from their five scalars: `gamma`, `Re`, `gx`, `gy`, `gz`. -/
def mkParameters (gamma Re gx gy gz : K) : Parameters K :=
  Parameters.mk (SolverParameters.mk gamma) (FlowParameters.mk Re)
    (EnvironmentParameters.mk gx gy gz)

/-- A velocity cube that is 1 in the slots listed and 0 elsewhere. -/
def cubeOnesAt (slots : List Int) : Cube ℚ := fun n => if n ∈ slots then 1 else 0

/-- A spacing cube with the same `dx`, `dy`, `dz` in all 27 cells (the component of slot `n` is
`n % 3`, since `mapd` adds the component to a multiple of 3). -/
def meshPerAxis (hx hy hz : ℚ) : Cube ℚ :=
  fun n => if n % 3 = 0 then hx else if n % 3 = 1 then hy else hz

/-- A spacing cube with spacing 1 in every slot but `slot`, where it is `h`. -/
def meshOneExcept (slot : Int) (h : ℚ) : Cube ℚ := fun n => if n = slot then h else 1

/-- A velocity cube that is `a` in the slots `sa`, `b` in the slots `sb` and 0 elsewhere. -/
def cubeTwoValues (a : ℚ) (sa : List Int) (b : ℚ) (sb : List Int) : Cube ℚ :=
  fun n => if n ∈ sa then a else if n ∈ sb then b else 0

/-- For each advection operator, a velocity cube with the two transporting values on the next
face and the transported value at the next cell equal to 1, and 0 elsewhere. -/
def stretchedVelocity : AdvectionOp → Cube ℚ
  | .duvdx => cubeOnesAt [mapd 0 0 0 0, mapd 0 1 0 0, mapd 1 0 0 1]
  | .duvdy => cubeOnesAt [mapd 0 0 0 1, mapd 1 0 0 1, mapd 0 1 0 0]
  | .duwdx => cubeOnesAt [mapd 0 0 0 0, mapd 0 0 1 0, mapd 1 0 0 2]
  | .duwdz => cubeOnesAt [mapd 0 0 0 2, mapd 1 0 0 2, mapd 0 0 1 0]
  | .dvwdy => cubeOnesAt [mapd 0 0 0 1, mapd 0 0 1 1, mapd 0 1 0 2]
  | .dvwdz => cubeOnesAt [mapd 0 0 0 2, mapd 0 1 0 2, mapd 0 0 1 1]
  | .du2dx => cubeOnesAt [mapd 1 0 0 0]
  | .dv2dy => cubeOnesAt [mapd 0 1 0 1]
  | .dw2dz => cubeOnesAt [mapd 0 0 1 2]

/-- For each advection operator, the spacing cube that is 1 in every slot except that the next
cell along the operator's axis has spacing 3 along that axis. -/
def stretchedMesh : AdvectionOp → Cube ℚ
  | .duvdx => meshOneExcept (mapd 1 0 0 0) 3
  | .duvdy => meshOneExcept (mapd 0 1 0 1) 3
  | .duwdx => meshOneExcept (mapd 1 0 0 0) 3
  | .duwdz => meshOneExcept (mapd 0 0 1 2) 3
  | .dvwdy => meshOneExcept (mapd 0 1 0 1) 3
  | .dvwdz => meshOneExcept (mapd 0 0 1 2) 3
  | .du2dx => meshOneExcept (mapd 1 0 0 0) 3
  | .dv2dy => meshOneExcept (mapd 0 1 0 1) 3
  | .dw2dz => meshOneExcept (mapd 0 0 1 2) 3

/-- The velocity cube of a spatially constant flow: `u = a`, `v = b`, `w = c` in all 27 cells
(the component of slot `n` is `n % 3`). -/
def constantFlow (a b c : ℚ) : Cube ℚ :=
  fun n => if n % 3 = 0 then a else if n % 3 = 1 then b else c


/-- A velocity field on the grid that varies in both directions: `u = a + 10 b` and
`v = 100 + a b` at the cell `(a, b)`. -/
def shearField (a b c : Int) : ℚ := if c = 0 then a + 10 * b else 100 + a * b

/-- The x-spacing of a stretched tensor-product mesh: `a^2 + 1` in column `a`. -/
def tensorDx (a _b : Int) : ℚ := a * a + 1

/-- The y-spacing of a stretched tensor-product mesh: `b^2 + 2` in row `b`. -/
def tensorDy (_a b : Int) : ℚ := b * b + 2

/-- For each advection operator, a velocity cube of ordinary size: the two transporting values
on the next face equal to 100 and the transported value at the next cell equal to 50 (for the
squared operators the next value equal to 100), and 0 elsewhere. All values are binary64
numbers. -/
def largeVelocity : AdvectionOp → Cube ℚ
  | .duvdx => cubeTwoValues 100 [mapd 0 0 0 0, mapd 0 1 0 0] 50 [mapd 1 0 0 1]
  | .duvdy => cubeTwoValues 100 [mapd 0 0 0 1, mapd 1 0 0 1] 50 [mapd 0 1 0 0]
  | .duwdx => cubeTwoValues 100 [mapd 0 0 0 0, mapd 0 0 1 0] 50 [mapd 1 0 0 2]
  | .duwdz => cubeTwoValues 100 [mapd 0 0 0 2, mapd 1 0 0 2] 50 [mapd 0 0 1 0]
  | .dvwdy => cubeTwoValues 100 [mapd 0 0 0 1, mapd 0 0 1 1] 50 [mapd 0 1 0 2]
  | .dvwdz => cubeTwoValues 100 [mapd 0 0 0 2, mapd 0 1 0 2] 50 [mapd 0 0 1 1]
  | .du2dx => cubeTwoValues 100 [mapd 1 0 0 0] 50 []
  | .dv2dy => cubeTwoValues 100 [mapd 0 1 0 1] 50 []
  | .dw2dz => cubeTwoValues 100 [mapd 0 0 1 2] 50 []

/-- The uniform spacing cube whose every slot holds the binary64 number written `0.01`. -/
def fineUniformMesh : Cube ℚ := fun _ => binary64 0.01

/-- Parameters with `gamma` the binary64 number written `0.9`, `Re = 1` and no body force. -/
def blendedParameters : Parameters ℚ := mkParameters (binary64 0.9) 1 0 0 0

/-- A positive stretched spacing cube of binary64 numbers: `0.01` in every slot but the
x-spacing of the east neighbour, which is `0.3`. -/
def stretchedFineMesh : Cube ℚ := fun n => if n = mapd 1 0 0 0 then binary64 0.3 else binary64 0.01
/-! ## Shared lemmas -/

/-- In a production build every advection operator returns its `tmp2`. -/
theorem run_production (op : AdvectionOp) (lv : Cube K) (p : Parameters K) (lm : Cube K) :
    op.run true lv p lm = Except.ok (op.locals lv p lm).tmp2 := by
  cases op <;>
    simp [AdvectionOp.run, AdvectionOp.locals, duvdx, duvdy, duwdx, duwdz, dvwdy, dvwdz, du2dx,
      dv2dy, dw2dz]

/-- Whatever the build, a value returned by an advection operator is its `tmp2`. -/
theorem run_ok (op : AdvectionOp) (b : Bool) (lv : Cube K) (p : Parameters K) (lm : Cube K)
    (r : K) (h : op.run b lv p lm = Except.ok r) : r = (op.locals lv p lm).tmp2 := by
  cases op <;>
    simp only [AdvectionOp.run, AdvectionOp.locals, duvdx, duvdy, duwdx, duwdz, dvwdy, dvwdz,
      du2dx, dv2dy, dw2dz] at h ⊢ <;>
    split_ifs at h <;> simp_all

/-- The blended value is the convex combination of the two estimates. -/
theorem tmp2_eq (op : AdvectionOp) (lv : Cube K) (p : Parameters K) (lm : Cube K) :
    (op.locals lv p lm).tmp2
      = (1 - p.solver.gamma) * (op.locals lv p lm).secondOrder
        + p.solver.gamma * (op.locals lv p lm).firstOrder := by
  cases op <;>
    simp only [AdvectionOp.locals, duvdxLocals, duvdyLocals, duwdxLocals, duwdzLocals,
      dvwdyLocals, dvwdzLocals, du2dxLocals, dv2dyLocals, dw2dzLocals] <;>
    norm_num


/-- A sequenced call returns a value exactly when both steps do. -/
theorem bind_eq_ok {α β : Type} (x : Except String α) (f : α → Except String β) (r : β) :
    (x >>= f) = Except.ok r ↔ ∃ a, x = Except.ok a ∧ f a = Except.ok r := by
  cases x <;> simp [bind, Except.bind]

/-! ## Momentum assemblers -/

/-- C1: `computeF2D` returns `lv[mapd(0,0,0,0)] + dt*(-(du2dx + duvdy) + (1/Re)*(d2udx2 + d2udy2)
+ gx)` and `computeG2D` returns `lv[mapd(0,0,0,1)] + dt*(-(duvdx + dv2dy) + (1/Re)*(d2vdx2 +
d2vdy2) + gy)`, every operator evaluated on the same cubes and parameters: the production build
returns exactly this value for every input, and whatever the build, a returned value is this
one. -/
theorem computeF2D_computeG2D_value (b : Bool) (lv lm : Cube K) (p : Parameters K) (dt : K) :
    (computeF2D true lv lm p dt
        = Except.ok (lv (mapd 0 0 0 0)
            + dt * (-((du2dxLocals lv p lm).tmp2 + (duvdyLocals lv p lm).tmp2)
                    + (1 / p.flow.Re) * (d2udx2 lv lm + d2udy2 lv lm) + p.environment.gx)))
    ∧ (∀ r, computeF2D b lv lm p dt = Except.ok r →
        r = lv (mapd 0 0 0 0)
            + dt * (-((du2dxLocals lv p lm).tmp2 + (duvdyLocals lv p lm).tmp2)
                    + (1 / p.flow.Re) * (d2udx2 lv lm + d2udy2 lv lm) + p.environment.gx))
    ∧ (computeG2D true lv lm p dt
        = Except.ok (lv (mapd 0 0 0 1)
            + dt * (-((duvdxLocals lv p lm).tmp2 + (dv2dyLocals lv p lm).tmp2)
                    + (1 / p.flow.Re) * (d2vdx2 lv lm + d2vdy2 lv lm) + p.environment.gy)))
    ∧ (∀ r, computeG2D b lv lm p dt = Except.ok r →
        r = lv (mapd 0 0 0 1)
            + dt * (-((duvdxLocals lv p lm).tmp2 + (dv2dyLocals lv p lm).tmp2)
                    + (1 / p.flow.Re) * (d2vdx2 lv lm + d2vdy2 lv lm) + p.environment.gy)) := by
  have pu2 := run_production AdvectionOp.du2dx lv p lm
  have puvy := run_production AdvectionOp.duvdy lv p lm
  have puvx := run_production AdvectionOp.duvdx lv p lm
  have pv2 := run_production AdvectionOp.dv2dy lv p lm
  simp only [AdvectionOp.run, AdvectionOp.locals] at pu2 puvy puvx pv2
  refine ⟨?_, ?_, ?_, ?_⟩
  · simp only [computeF2D, pu2, puvy, bind, Except.bind, pure, Except.pure]
    congr 1; ring
  · intro r h
    simp only [computeF2D, bind_eq_ok] at h
    obtain ⟨a, ha, c, hc, hr⟩ := h
    have ea := run_ok AdvectionOp.du2dx b lv p lm a ha
    have ec := run_ok AdvectionOp.duvdy b lv p lm c hc
    simp only [AdvectionOp.locals] at ea ec
    simp only [pure, Except.pure, Except.ok.injEq] at hr
    rw [← hr, ea, ec]; ring
  · simp only [computeG2D, puvx, pv2, bind, Except.bind, pure, Except.pure]
    congr 1; ring
  · intro r h
    simp only [computeG2D, bind_eq_ok] at h
    obtain ⟨a, ha, c, hc, hr⟩ := h
    have ea := run_ok AdvectionOp.duvdx b lv p lm a ha
    have ec := run_ok AdvectionOp.dv2dy b lv p lm c hc
    simp only [AdvectionOp.locals] at ea ec
    simp only [pure, Except.pure, Except.ok.injEq] at hr
    rw [← hr, ea, ec]; ring


/-- C2: `computeF3D` returns `lv[mapd(0,0,0,0)] + dt*(-(du2dx + duvdy + duwdz) + (1/Re)*(d2udx2 +
d2udy2 + d2udz2) + gx)` and `computeH3D` returns `lv[mapd(0,0,0,2)] + dt*(-(dw2dz + duwdx + dvwdy)
+ (1/Re)*(d2wdx2 + d2wdy2 + d2wdz2) + gz)`: the production build returns exactly this value for
every input, and whatever the build, a returned value is this one. -/
theorem computeF3D_computeH3D_value (b : Bool) (lv lm : Cube K) (p : Parameters K) (dt : K) :
    (computeF3D true lv lm p dt
        = Except.ok (lv (mapd 0 0 0 0)
            + dt * (-((du2dxLocals lv p lm).tmp2 + (duvdyLocals lv p lm).tmp2
                      + (duwdzLocals lv p lm).tmp2)
                    + (1 / p.flow.Re) * (d2udx2 lv lm + d2udy2 lv lm + d2udz2 lv lm)
                    + p.environment.gx)))
    ∧ (∀ r, computeF3D b lv lm p dt = Except.ok r →
        r = lv (mapd 0 0 0 0)
            + dt * (-((du2dxLocals lv p lm).tmp2 + (duvdyLocals lv p lm).tmp2
                      + (duwdzLocals lv p lm).tmp2)
                    + (1 / p.flow.Re) * (d2udx2 lv lm + d2udy2 lv lm + d2udz2 lv lm)
                    + p.environment.gx))
    ∧ (computeH3D true lv lm p dt
        = Except.ok (lv (mapd 0 0 0 2)
            + dt * (-((dw2dzLocals lv p lm).tmp2 + (duwdxLocals lv p lm).tmp2
                      + (dvwdyLocals lv p lm).tmp2)
                    + (1 / p.flow.Re) * (d2wdx2 lv lm + d2wdy2 lv lm + d2wdz2 lv lm)
                    + p.environment.gz)))
    ∧ (∀ r, computeH3D b lv lm p dt = Except.ok r →
        r = lv (mapd 0 0 0 2)
            + dt * (-((dw2dzLocals lv p lm).tmp2 + (duwdxLocals lv p lm).tmp2
                      + (dvwdyLocals lv p lm).tmp2)
                    + (1 / p.flow.Re) * (d2wdx2 lv lm + d2wdy2 lv lm + d2wdz2 lv lm)
                    + p.environment.gz)) := by
  have pu2 := run_production AdvectionOp.du2dx lv p lm
  have puvy := run_production AdvectionOp.duvdy lv p lm
  have puwz := run_production AdvectionOp.duwdz lv p lm
  have pw2 := run_production AdvectionOp.dw2dz lv p lm
  have puwx := run_production AdvectionOp.duwdx lv p lm
  have pvwy := run_production AdvectionOp.dvwdy lv p lm
  simp only [AdvectionOp.run, AdvectionOp.locals] at pu2 puvy puwz pw2 puwx pvwy
  refine ⟨?_, ?_, ?_, ?_⟩
  · simp only [computeF3D, pu2, puvy, puwz, bind, Except.bind, pure, Except.pure]
    congr 1; ring
  · intro r h
    simp only [computeF3D, bind_eq_ok] at h
    obtain ⟨a, ha, c, hc, d, hd, hr⟩ := h
    have ea := run_ok AdvectionOp.du2dx b lv p lm a ha
    have ec := run_ok AdvectionOp.duvdy b lv p lm c hc
    have ed := run_ok AdvectionOp.duwdz b lv p lm d hd
    simp only [AdvectionOp.locals] at ea ec ed
    simp only [pure, Except.pure, Except.ok.injEq] at hr
    rw [← hr, ea, ec, ed]; ring
  · simp only [computeH3D, pw2, puwx, pvwy, bind, Except.bind, pure, Except.pure]
    congr 1; ring
  · intro r h
    simp only [computeH3D, bind_eq_ok] at h
    obtain ⟨a, ha, c, hc, d, hd, hr⟩ := h
    have ea := run_ok AdvectionOp.dw2dz b lv p lm a ha
    have ec := run_ok AdvectionOp.duwdx b lv p lm c hc
    have ed := run_ok AdvectionOp.dvwdy b lv p lm d hd
    simp only [AdvectionOp.locals] at ea ec ed
    simp only [pure, Except.pure, Except.ok.injEq] at hr
    rw [← hr, ea, ec, ed]; ring

/-- C3: at the rest state (all velocities 0, unit spacings, `Re = 1`, `gamma = 0`, `gy = 0`,
`dt = 1`) the claimed value of `computeG3D` is 0, which is what the source returns when the
undefined callee `dSv2dy` is read as `dv2dy`; the value the source returns is that of whatever
`dSv2dy` denotes, for instance `-1` when it returns 1. -/
theorem computeG3D_first_term_is_the_undefined_callee :
    computeG3D (dv2dy true) true (cubeOnesAt []) (meshPerAxis 1 1 1) (mkParameters 0 1 0 0 0) 1
        = Except.ok 0
    ∧ computeG3D (fun _ _ _ => Except.ok 1) true (cubeOnesAt []) (meshPerAxis 1 1 1)
          (mkParameters 0 1 0 0 0) 1
        = Except.ok (-1) := by
  constructor <;>
    norm_num [computeG3D, dv2dy, dv2dyLocals, duvdx, duvdxLocals, dvwdz, dvwdzLocals, d2vdx2,
      d2vdy2, d2vdz2, mapd, cubeOnesAt, meshPerAxis, mkParameters, bind, Except.bind, pure,
      Except.pure]

/-! ## Second derivatives -/

/-- C4: each of the x- and y-direction second-derivative operators returns the three-point
formula `2*(f(+1)/(h+*(h+ + h-)) - f(0)/(h-*h+) + f(-1)/(h-*(h- + h+)))`, where `f(-1)`, `f(0)`,
`f(+1)` are its velocity component at the previous, centre and next cell along the axis, `h-` is
the spacing of the centre cell along the axis and `h+` that of the next cell along the axis. -/
theorem d2_x_y_three_point (lv lm : Cube K) :
    d2udx2 lv lm = specThreePoint (lv (mapd (-1) 0 0 0)) (lv (mapd 0 0 0 0)) (lv (mapd 1 0 0 0))
        (lm (mapd 0 0 0 0)) (lm (mapd 1 0 0 0))
    ∧ d2vdx2 lv lm = specThreePoint (lv (mapd (-1) 0 0 1)) (lv (mapd 0 0 0 1)) (lv (mapd 1 0 0 1))
        (lm (mapd 0 0 0 0)) (lm (mapd 1 0 0 0))
    ∧ d2wdx2 lv lm = specThreePoint (lv (mapd (-1) 0 0 2)) (lv (mapd 0 0 0 2)) (lv (mapd 1 0 0 2))
        (lm (mapd 0 0 0 0)) (lm (mapd 1 0 0 0))
    ∧ d2udy2 lv lm = specThreePoint (lv (mapd 0 (-1) 0 0)) (lv (mapd 0 0 0 0)) (lv (mapd 0 1 0 0))
        (lm (mapd 0 0 0 1)) (lm (mapd 0 1 0 1))
    ∧ d2vdy2 lv lm = specThreePoint (lv (mapd 0 (-1) 0 1)) (lv (mapd 0 0 0 1)) (lv (mapd 0 1 0 1))
        (lm (mapd 0 0 0 1)) (lm (mapd 0 1 0 1))
    ∧ d2wdy2 lv lm = specThreePoint (lv (mapd 0 (-1) 0 2)) (lv (mapd 0 0 0 2)) (lv (mapd 0 1 0 2))
        (lm (mapd 0 0 0 1)) (lm (mapd 0 1 0 1)) :=
  ⟨rfl, rfl, rfl, rfl, rfl, rfl⟩

/-- C5: with `dx = dy = 1` and `dz = 2` in every cell and the component equal to 1 at the next
cell along z and 0 elsewhere, the three z-direction operators return 1, whereas the three-point
formula with the z-spacings `h- = lm[mapd(0,0,0,2)]`, `h+ = lm[mapd(0,0,1,2)]` gives `1/4`: the
source reads the spacings at component 0 (`dx`). -/
theorem d2_z_reads_dx_spacing :
    d2udz2 (cubeOnesAt [mapd 0 0 1 0]) (meshPerAxis 1 1 2) = 1
    ∧ d2vdz2 (cubeOnesAt [mapd 0 0 1 1]) (meshPerAxis 1 1 2) = 1
    ∧ d2wdz2 (cubeOnesAt [mapd 0 0 1 2]) (meshPerAxis 1 1 2) = 1
    ∧ specThreePoint (cubeOnesAt [mapd 0 0 1 0] (mapd 0 0 (-1) 0))
        (cubeOnesAt [mapd 0 0 1 0] (mapd 0 0 0 0)) (cubeOnesAt [mapd 0 0 1 0] (mapd 0 0 1 0))
        (meshPerAxis 1 1 2 (mapd 0 0 0 2)) (meshPerAxis 1 1 2 (mapd 0 0 1 2)) = 1 / 4
    ∧ specThreePoint (cubeOnesAt [mapd 0 0 1 1] (mapd 0 0 (-1) 1))
        (cubeOnesAt [mapd 0 0 1 1] (mapd 0 0 0 1)) (cubeOnesAt [mapd 0 0 1 1] (mapd 0 0 1 1))
        (meshPerAxis 1 1 2 (mapd 0 0 0 2)) (meshPerAxis 1 1 2 (mapd 0 0 1 2)) = 1 / 4
    ∧ specThreePoint (cubeOnesAt [mapd 0 0 1 2] (mapd 0 0 (-1) 2))
        (cubeOnesAt [mapd 0 0 1 2] (mapd 0 0 0 2)) (cubeOnesAt [mapd 0 0 1 2] (mapd 0 0 1 2))
        (meshPerAxis 1 1 2 (mapd 0 0 0 2)) (meshPerAxis 1 1 2 (mapd 0 0 1 2)) = 1 / 4 := by
  refine ⟨?_, ?_, ?_, ?_, ?_, ?_⟩
  · norm_num [d2udz2, mapd, cubeOnesAt, meshPerAxis]
  · norm_num [d2vdz2, mapd, cubeOnesAt, meshPerAxis]
  · norm_num [d2wdz2, mapd, cubeOnesAt, meshPerAxis]
  · norm_num [specThreePoint, mapd, cubeOnesAt, meshPerAxis]
  · norm_num [specThreePoint, mapd, cubeOnesAt, meshPerAxis]
  · norm_num [specThreePoint, mapd, cubeOnesAt, meshPerAxis]

/-- C6: on a spacing cube all of whose 81 slots equal `h > 0`, each of the nine second-derivative
operators returns exactly `(f(+1) - 2*f(0) + f(-1)) / h^2`, where `f(-1)`, `f(0)`, `f(+1)` are the
operator's velocity component at the previous, centre and next cell along its axis. -/
theorem d2_uniform_mesh (h : K) (lv lm : Cube K) (hpos : 0 < h)
    (huni : ∀ n : Int, 0 ≤ n → n ≤ 80 → lm n = h) :
    d2udx2 lv lm = (lv (mapd 1 0 0 0) - 2 * lv (mapd 0 0 0 0) + lv (mapd (-1) 0 0 0)) / h ^ 2
    ∧ d2vdx2 lv lm = (lv (mapd 1 0 0 1) - 2 * lv (mapd 0 0 0 1) + lv (mapd (-1) 0 0 1)) / h ^ 2
    ∧ d2wdx2 lv lm = (lv (mapd 1 0 0 2) - 2 * lv (mapd 0 0 0 2) + lv (mapd (-1) 0 0 2)) / h ^ 2
    ∧ d2udy2 lv lm = (lv (mapd 0 1 0 0) - 2 * lv (mapd 0 0 0 0) + lv (mapd 0 (-1) 0 0)) / h ^ 2
    ∧ d2vdy2 lv lm = (lv (mapd 0 1 0 1) - 2 * lv (mapd 0 0 0 1) + lv (mapd 0 (-1) 0 1)) / h ^ 2
    ∧ d2wdy2 lv lm = (lv (mapd 0 1 0 2) - 2 * lv (mapd 0 0 0 2) + lv (mapd 0 (-1) 0 2)) / h ^ 2
    ∧ d2udz2 lv lm = (lv (mapd 0 0 1 0) - 2 * lv (mapd 0 0 0 0) + lv (mapd 0 0 (-1) 0)) / h ^ 2
    ∧ d2vdz2 lv lm = (lv (mapd 0 0 1 1) - 2 * lv (mapd 0 0 0 1) + lv (mapd 0 0 (-1) 1)) / h ^ 2
    ∧ d2wdz2 lv lm = (lv (mapd 0 0 1 2) - 2 * lv (mapd 0 0 0 2) + lv (mapd 0 0 (-1) 2)) / h ^ 2 := by
  have hne : h ≠ 0 := ne_of_gt hpos
  have e39 : lm 39 = h := huni 39 (by norm_num) (by norm_num)
  have e40 : lm 40 = h := huni 40 (by norm_num) (by norm_num)
  have e42 : lm 42 = h := huni 42 (by norm_num) (by norm_num)
  have e49 : lm 49 = h := huni 49 (by norm_num) (by norm_num)
  have e66 : lm 66 = h := huni 66 (by norm_num) (by norm_num)
  refine ⟨?_, ?_, ?_, ?_, ?_, ?_, ?_, ?_, ?_⟩ <;>
    simp only [d2udx2, d2vdx2, d2wdx2, d2udy2, d2vdy2, d2wdy2, d2udz2, d2vdz2, d2wdz2, mapd] <;>
    norm_num <;> simp only [e39, e40, e42, e49, e66] <;> field_simp <;> ring

/-- Witness of C6: spacing 2 in every slot, velocity 1 at the next cell along the axis. -/
theorem d2_uniform_mesh_witness :
    (0 : ℚ) < 2 ∧ (∀ n : Int, 0 ≤ n → n ≤ 80 → meshPerAxis 2 2 2 n = 2)
    ∧ d2udz2 (cubeOnesAt [mapd 0 0 1 0]) (meshPerAxis 2 2 2) = 1 / 4 := by
  have hu : ∀ n : Int, 0 ≤ n → n ≤ 80 → meshPerAxis 2 2 2 n = 2 := by
    intro n _ _
    simp only [meshPerAxis]
    split_ifs <;> rfl
  refine ⟨by norm_num, hu, ?_⟩
  have h := (d2_uniform_mesh (2 : ℚ) (cubeOnesAt [mapd 0 0 1 0]) (meshPerAxis 2 2 2)
    (by norm_num) hu).2.2.2.2.2.2.1
  rw [h]
  norm_num [mapd, cubeOnesAt]

/-! ## Blended advection operators -/

/-- The convex combination of two values lies between them, strictly so for a weight strictly
between 0 and 1 and distinct values. -/
theorem blend_between (g s f : K) (h0 : 0 ≤ g) (h1 : g ≤ 1) :
    (min s f ≤ (1 - g) * s + g * f ∧ (1 - g) * s + g * f ≤ max s f)
    ∧ (0 < g → g < 1 → s ≠ f → min s f < (1 - g) * s + g * f ∧ (1 - g) * s + g * f < max s f) := by
  have h1g : 0 ≤ 1 - g := by linarith
  rcases le_total s f with hsf | hfs
  · rw [min_eq_left hsf, max_eq_right hsf]
    refine ⟨⟨by nlinarith, by nlinarith⟩, ?_⟩
    intro hg0 hg1 hne
    have hlt : s < f := lt_of_le_of_ne hsf hne
    exact ⟨by nlinarith, by nlinarith⟩
  · rw [min_eq_right hfs, max_eq_left hfs]
    refine ⟨⟨by nlinarith, by nlinarith⟩, ?_⟩
    intro hg0 hg1 hne
    have hlt : f < s := lt_of_le_of_ne hfs (Ne.symm hne)
    exact ⟨by nlinarith, by nlinarith⟩

/-- C7: each of the nine blended advection operators returns `(1 - gamma)*secondOrder +
gamma*firstOrder` for its own `secondOrder` and `firstOrder`; with `gamma = 0` the returned value
is `secondOrder` and with `gamma = 1` it is `firstOrder`.  The production build returns this value
for every input, and whatever the build, a returned value is this one. -/
theorem advection_returns_blend (op : AdvectionOp) (b : Bool) (lv : Cube K) (p : Parameters K)
    (lm : Cube K) :
    op.run true lv p lm
        = Except.ok ((1 - p.solver.gamma) * (op.locals lv p lm).secondOrder
            + p.solver.gamma * (op.locals lv p lm).firstOrder)
    ∧ (∀ r, op.run b lv p lm = Except.ok r →
        r = (1 - p.solver.gamma) * (op.locals lv p lm).secondOrder
            + p.solver.gamma * (op.locals lv p lm).firstOrder)
    ∧ (p.solver.gamma = 0 →
        op.run true lv p lm = Except.ok (op.locals lv p lm).secondOrder
        ∧ ∀ r, op.run b lv p lm = Except.ok r → r = (op.locals lv p lm).secondOrder)
    ∧ (p.solver.gamma = 1 →
        op.run true lv p lm = Except.ok (op.locals lv p lm).firstOrder
        ∧ ∀ r, op.run b lv p lm = Except.ok r → r = (op.locals lv p lm).firstOrder) := by
  have hp := run_production op lv p lm
  have ht := tmp2_eq op lv p lm
  refine ⟨by rw [hp, ht], ?_, ?_, ?_⟩
  · intro r hr
    rw [run_ok op b lv p lm r hr, ht]
  · intro hg
    have e : (op.locals lv p lm).tmp2 = (op.locals lv p lm).secondOrder := by
      rw [ht, hg]; ring
    exact ⟨by rw [hp, e], fun r hr => by rw [run_ok op b lv p lm r hr, e]⟩
  · intro hg
    have e : (op.locals lv p lm).tmp2 = (op.locals lv p lm).firstOrder := by
      rw [ht, hg]; ring
    exact ⟨by rw [hp, e], fun r hr => by rw [run_ok op b lv p lm r hr, e]⟩

/-- C8: for `0 <= gamma <= 1` the value returned by a blended advection operator lies between
`min(secondOrder, firstOrder)` and `max(secondOrder, firstOrder)`, and for `0 < gamma < 1` with
`secondOrder != firstOrder` it lies strictly between them. -/
theorem advection_blend_bounded (op : AdvectionOp) (b : Bool) (lv : Cube K) (p : Parameters K)
    (lm : Cube K) (r : K) (h0 : 0 ≤ p.solver.gamma) (h1 : p.solver.gamma ≤ 1)
    (hr : op.run b lv p lm = Except.ok r) :
    (min (op.locals lv p lm).secondOrder (op.locals lv p lm).firstOrder ≤ r
      ∧ r ≤ max (op.locals lv p lm).secondOrder (op.locals lv p lm).firstOrder)
    ∧ (0 < p.solver.gamma → p.solver.gamma < 1 →
        (op.locals lv p lm).secondOrder ≠ (op.locals lv p lm).firstOrder →
        min (op.locals lv p lm).secondOrder (op.locals lv p lm).firstOrder < r
        ∧ r < max (op.locals lv p lm).secondOrder (op.locals lv p lm).firstOrder) := by
  rw [run_ok op b lv p lm r hr, tmp2_eq op lv p lm]
  exact blend_between _ _ _ h0 h1

/-- Witness of C8: `duvdx` in the build with the consistency check, on the unit mesh with
`u(0,0) = u(0,1) = v(1,0) = 1` and `gamma = 1/2`, returns `1/4`, strictly between its first-order
estimate 0 and its second-order estimate `1/2`. -/
theorem advection_blend_bounded_witness :
    (0 : ℚ) ≤ (mkParameters (1 / 2 : ℚ) 1 0 0 0).solver.gamma
    ∧ (mkParameters (1 / 2 : ℚ) 1 0 0 0).solver.gamma ≤ 1
    ∧ duvdx false (cubeOnesAt [mapd 0 0 0 0, mapd 0 1 0 0, mapd 1 0 0 1])
        (mkParameters (1 / 2) 1 0 0 0) (meshPerAxis 1 1 1) = Except.ok (1 / 4)
    ∧ (duvdxLocals (cubeOnesAt [mapd 0 0 0 0, mapd 0 1 0 0, mapd 1 0 0 1])
        (mkParameters (1 / 2) 1 0 0 0) (meshPerAxis 1 1 1)).secondOrder = 1 / 2
    ∧ (duvdxLocals (cubeOnesAt [mapd 0 0 0 0, mapd 0 1 0 0, mapd 1 0 0 1])
        (mkParameters (1 / 2) 1 0 0 0) (meshPerAxis 1 1 1)).firstOrder = 0
    ∧ (min (1 / 2 : ℚ) 0 < 1 / 4 ∧ (1 / 4 : ℚ) < max (1 / 2) 0) := by
  have hg0 : (0 : ℚ) ≤ (mkParameters (1 / 2 : ℚ) 1 0 0 0).solver.gamma := by
    norm_num [mkParameters]
  have hg1 : (mkParameters (1 / 2 : ℚ) 1 0 0 0).solver.gamma ≤ 1 := by
    norm_num [mkParameters]
  have hr : duvdx false (cubeOnesAt [mapd 0 0 0 0, mapd 0 1 0 0, mapd 1 0 0 1])
      (mkParameters (1 / 2) 1 0 0 0) (meshPerAxis 1 1 1) = Except.ok (1 / 4) := by
    norm_num [duvdx, duvdxLocals, mapd, cubeOnesAt, meshPerAxis, mkParameters]
  have hs : (duvdxLocals (cubeOnesAt [mapd 0 0 0 0, mapd 0 1 0 0, mapd 1 0 0 1])
      (mkParameters (1 / 2) 1 0 0 0) (meshPerAxis 1 1 1)).secondOrder = 1 / 2 := by
    norm_num [duvdxLocals, mapd, cubeOnesAt, meshPerAxis, mkParameters]
  have hf : (duvdxLocals (cubeOnesAt [mapd 0 0 0 0, mapd 0 1 0 0, mapd 1 0 0 1])
      (mkParameters (1 / 2) 1 0 0 0) (meshPerAxis 1 1 1)).firstOrder = 0 := by
    norm_num [duvdxLocals, mapd, cubeOnesAt, meshPerAxis, mkParameters]
  have key := (advection_blend_bounded AdvectionOp.duvdx false
    (cubeOnesAt [mapd 0 0 0 0, mapd 0 1 0 0, mapd 1 0 0 1]) (mkParameters (1 / 2) 1 0 0 0)
    (meshPerAxis 1 1 1) (1 / 4) hg0 hg1 hr).2 (by norm_num [mkParameters])
    (by norm_num [mkParameters])
  simp only [AdvectionOp.locals] at key
  rw [hs, hf] at key
  exact ⟨hg0, hg1, hr, hs, hf, key (by norm_num)⟩

/-- C9: for `gamma = 0` and strictly positive spacings `duvdx` returns `(Ue*Ve - Uw*Vw) / dxc`
with the distance-weighted face values `Ue = (dyn*u(0,0) + dyc*u(0,1))/(dyc+dyn)`,
`Uw = (dyn*u(-1,0) + dyc*u(-1,1))/(dyc+dyn)`, `Ve = (dxe*v(0,0) + dxc*v(1,0))/(dxc+dxe)`,
`Vw = (dxw*v(0,0) + dxc*v(-1,0))/(dxc+dxw)`; each face value is the combination of its two grid
values with weights in `(0,1)` that sum to 1. -/
theorem duvdx_centred_scheme (b : Bool) (lv : Cube K) (p : Parameters K) (lm : Cube K)
    (hgamma : p.solver.gamma = 0) (hpos : ∀ n : Int, 0 ≤ n → n ≤ 80 → 0 < lm n) :
    let dxc := lm (mapd 0 0 0 0)
    let dxw := lm (mapd (-1) 0 0 0)
    let dxe := lm (mapd 1 0 0 0)
    let dyc := lm (mapd 0 0 0 1)
    let dyn := lm (mapd 0 1 0 1)
    let Ue := (dyn * lv (mapd 0 0 0 0) + dyc * lv (mapd 0 1 0 0)) / (dyc + dyn)
    let Uw := (dyn * lv (mapd (-1) 0 0 0) + dyc * lv (mapd (-1) 1 0 0)) / (dyc + dyn)
    let Ve := (dxe * lv (mapd 0 0 0 1) + dxc * lv (mapd 1 0 0 1)) / (dxc + dxe)
    let Vw := (dxw * lv (mapd 0 0 0 1) + dxc * lv (mapd (-1) 0 0 1)) / (dxc + dxw)
    duvdx true lv p lm = Except.ok ((Ue * Ve - Uw * Vw) / dxc)
    ∧ (∀ r, duvdx b lv p lm = Except.ok r → r = (Ue * Ve - Uw * Vw) / dxc)
    ∧ Ue = dyn / (dyc + dyn) * lv (mapd 0 0 0 0) + dyc / (dyc + dyn) * lv (mapd 0 1 0 0)
    ∧ Uw = dyn / (dyc + dyn) * lv (mapd (-1) 0 0 0) + dyc / (dyc + dyn) * lv (mapd (-1) 1 0 0)
    ∧ Ve = dxe / (dxc + dxe) * lv (mapd 0 0 0 1) + dxc / (dxc + dxe) * lv (mapd 1 0 0 1)
    ∧ Vw = dxw / (dxc + dxw) * lv (mapd 0 0 0 1) + dxc / (dxc + dxw) * lv (mapd (-1) 0 0 1)
    ∧ (0 < dyn / (dyc + dyn) ∧ dyn / (dyc + dyn) < 1)
    ∧ (0 < dyc / (dyc + dyn) ∧ dyc / (dyc + dyn) < 1)
    ∧ (0 < dxe / (dxc + dxe) ∧ dxe / (dxc + dxe) < 1)
    ∧ (0 < dxc / (dxc + dxe) ∧ dxc / (dxc + dxe) < 1)
    ∧ (0 < dxw / (dxc + dxw) ∧ dxw / (dxc + dxw) < 1)
    ∧ (0 < dxc / (dxc + dxw) ∧ dxc / (dxc + dxw) < 1)
    ∧ dyn / (dyc + dyn) + dyc / (dyc + dyn) = 1
    ∧ dxe / (dxc + dxe) + dxc / (dxc + dxe) = 1
    ∧ dxw / (dxc + dxw) + dxc / (dxc + dxw) = 1 := by
  intro dxc dxw dxe dyc dyn Ue Uw Ve Vw
  have hxc : 0 < dxc := hpos _ (by norm_num [mapd]) (by norm_num [mapd])
  have hxw : 0 < dxw := hpos _ (by norm_num [mapd]) (by norm_num [mapd])
  have hxe : 0 < dxe := hpos _ (by norm_num [mapd]) (by norm_num [mapd])
  have hyc : 0 < dyc := hpos _ (by norm_num [mapd]) (by norm_num [mapd])
  have hyn : 0 < dyn := hpos _ (by norm_num [mapd]) (by norm_num [mapd])
  have hy : 0 < dyc + dyn := by linarith
  have he : 0 < dxc + dxe := by linarith
  have hw : 0 < dxc + dxw := by linarith
  have hval : (duvdxLocals lv p lm).tmp2 = (Ue * Ve - Uw * Vw) / dxc := by
    have ht := tmp2_eq AdvectionOp.duvdx lv p lm
    simp only [AdvectionOp.locals] at ht
    rw [ht, hgamma]
    simp only [duvdxLocals, Ue, Uw, Ve, Vw]
    norm_num
    field_simp
  have hprod := run_production AdvectionOp.duvdx lv p lm
  simp only [AdvectionOp.run, AdvectionOp.locals] at hprod
  refine ⟨by rw [hprod, hval], ?_, ?_, ?_, ?_, ?_, ?_, ?_, ?_, ?_, ?_, ?_, ?_, ?_, ?_⟩
  · intro r hr
    have := run_ok AdvectionOp.duvdx b lv p lm r hr
    simp only [AdvectionOp.locals] at this
    rw [this, hval]
  · simp only [Ue]; field_simp
  · simp only [Uw]; field_simp
  · simp only [Ve]; field_simp
  · simp only [Vw]; field_simp
  · exact ⟨by positivity, by rw [div_lt_one hy]; linarith⟩
  · exact ⟨by positivity, by rw [div_lt_one hy]; linarith⟩
  · exact ⟨by positivity, by rw [div_lt_one he]; linarith⟩
  · exact ⟨by positivity, by rw [div_lt_one he]; linarith⟩
  · exact ⟨by positivity, by rw [div_lt_one hw]; linarith⟩
  · exact ⟨by positivity, by rw [div_lt_one hw]; linarith⟩
  · field_simp; ring
  · field_simp; ring
  · field_simp; ring

/-- Witness of C9: unit spacings except `dxe = 3`, `u(0,0) = u(0,1) = v(1,0) = 1`, `gamma = 0`:
`Ue = 1`, `Ve = 1/4`, `Uw = 0`, and `duvdx` returns `1/4`. -/
theorem duvdx_centred_scheme_witness :
    (mkParameters (0 : ℚ) 1 0 0 0).solver.gamma = 0
    ∧ (∀ n : Int, 0 ≤ n → n ≤ 80 → 0 < meshOneExcept (mapd 1 0 0 0) 3 n)
    ∧ duvdx true (cubeOnesAt [mapd 0 0 0 0, mapd 0 1 0 0, mapd 1 0 0 1]) (mkParameters 0 1 0 0 0)
        (meshOneExcept (mapd 1 0 0 0) 3) = Except.ok (1 / 4) := by
  have hpos : ∀ n : Int, 0 ≤ n → n ≤ 80 → 0 < meshOneExcept (mapd 1 0 0 0) 3 n := by
    intro n _ _
    simp only [meshOneExcept]
    split_ifs <;> norm_num
  refine ⟨rfl, hpos, ?_⟩
  have h := (duvdx_centred_scheme true (cubeOnesAt [mapd 0 0 0 0, mapd 0 1 0 0, mapd 1 0 0 1])
    (mkParameters 0 1 0 0 0) (meshOneExcept (mapd 1 0 0 0) 3) rfl hpos).1
  rw [h]
  norm_num [mapd, cubeOnesAt, meshOneExcept]

/-- C10: with `gamma = 0`, unit spacings except 3 at the next cell along the axis, and the
component equal to 1 at the next cell and 0 elsewhere, the claimed value
`(((f0+f1)/2)^2 - ((fM1+f0)/2)^2) / lm[centre]` is `1/4`, whereas `du2dx`, `dv2dy` and `dw2dz`
return `1/8`: their `secondOrder` divides by `4*dLong1 = 2*(lm[centre] + lm[next])`.  The build
with the consistency check throws on the same input. -/
theorem squared_advection_divides_by_long_spacing :
    du2dx true (cubeOnesAt [mapd 1 0 0 0]) (mkParameters 0 1 0 0 0)
        (meshOneExcept (mapd 1 0 0 0) 3) = Except.ok (1 / 8)
    ∧ dv2dy true (cubeOnesAt [mapd 0 1 0 1]) (mkParameters 0 1 0 0 0)
        (meshOneExcept (mapd 0 1 0 1) 3) = Except.ok (1 / 8)
    ∧ dw2dz true (cubeOnesAt [mapd 0 0 1 2]) (mkParameters 0 1 0 0 0)
        (meshOneExcept (mapd 0 0 1 2) 3) = Except.ok (1 / 8)
    ∧ (((cubeOnesAt [mapd 1 0 0 0] (mapd 0 0 0 0) + cubeOnesAt [mapd 1 0 0 0] (mapd 1 0 0 0)) / 2) ^ 2
        - ((cubeOnesAt [mapd 1 0 0 0] (mapd (-1) 0 0 0)
            + cubeOnesAt [mapd 1 0 0 0] (mapd 0 0 0 0)) / 2) ^ 2)
        / meshOneExcept (mapd 1 0 0 0) 3 (mapd 0 0 0 0) = 1 / 4
    ∧ (((cubeOnesAt [mapd 0 1 0 1] (mapd 0 0 0 1) + cubeOnesAt [mapd 0 1 0 1] (mapd 0 1 0 1)) / 2) ^ 2
        - ((cubeOnesAt [mapd 0 1 0 1] (mapd 0 (-1) 0 1)
            + cubeOnesAt [mapd 0 1 0 1] (mapd 0 0 0 1)) / 2) ^ 2)
        / meshOneExcept (mapd 0 1 0 1) 3 (mapd 0 0 0 1) = 1 / 4
    ∧ (((cubeOnesAt [mapd 0 0 1 2] (mapd 0 0 0 2) + cubeOnesAt [mapd 0 0 1 2] (mapd 0 0 1 2)) / 2) ^ 2
        - ((cubeOnesAt [mapd 0 0 1 2] (mapd 0 0 (-1) 2)
            + cubeOnesAt [mapd 0 0 1 2] (mapd 0 0 0 2)) / 2) ^ 2)
        / meshOneExcept (mapd 0 0 1 2) 3 (mapd 0 0 0 2) = 1 / 4
    ∧ du2dx false (cubeOnesAt [mapd 1 0 0 0]) (mkParameters 0 1 0 0 0)
        (meshOneExcept (mapd 1 0 0 0) 3) = Except.error "Error in du2dx"
    ∧ dv2dy false (cubeOnesAt [mapd 0 1 0 1]) (mkParameters 0 1 0 0 0)
        (meshOneExcept (mapd 0 1 0 1) 3) = Except.error "Error in dv2dy"
    ∧ dw2dz false (cubeOnesAt [mapd 0 0 1 2]) (mkParameters 0 1 0 0 0)
        (meshOneExcept (mapd 0 0 1 2) 3) = Except.error "Error in dw2dz" := by
  refine ⟨?_, ?_, ?_, ?_, ?_, ?_, ?_, ?_, ?_⟩
  · norm_num [du2dx, du2dxLocals, mapd, cubeOnesAt, meshOneExcept, mkParameters]
  · norm_num [dv2dy, dv2dyLocals, mapd, cubeOnesAt, meshOneExcept, mkParameters]
  · norm_num [dw2dz, dw2dzLocals, mapd, cubeOnesAt, meshOneExcept, mkParameters]
  · norm_num [mapd, cubeOnesAt, meshOneExcept]
  · norm_num [mapd, cubeOnesAt, meshOneExcept]
  · norm_num [mapd, cubeOnesAt, meshOneExcept]
  · norm_num [du2dx, du2dxLocals, mapd, cubeOnesAt, meshOneExcept, mkParameters]
    intro h
    rw [abs_of_pos (by norm_num : (0 : ℚ) < 1 / 8)] at h
    norm_num at h
  · norm_num [dv2dy, dv2dyLocals, mapd, cubeOnesAt, meshOneExcept, mkParameters]
    intro h
    rw [abs_of_pos (by norm_num : (0 : ℚ) < 1 / 8)] at h
    norm_num at h
  · norm_num [dw2dz, dw2dzLocals, mapd, cubeOnesAt, meshOneExcept, mkParameters]
    intro h
    rw [abs_of_pos (by norm_num : (0 : ℚ) < 1 / 8)] at h
    norm_num at h

/-! ## Index mapper and cube extractors -/

/-- A slot that no assignment of the list names keeps its content. -/
theorem foldl_store_of_not_mem {V : Type} (ws : List (Int × V)) (buf : Cube V) (n : Int)
    (h : n ∉ ws.map Prod.fst) : ws.foldl store buf n = buf n := by
  induction ws generalizing buf with
  | nil => rfl
  | cons w ws ih =>
    simp only [List.map_cons, List.mem_cons, not_or] at h
    rw [List.foldl_cons, ih (store buf w) h.2]
    simp only [store]
    exact Function.update_noteq h.1 _ _

/-- When no slot is assigned twice, a slot holds the value of its assignment. -/
theorem foldl_store_of_mem {V : Type} (ws : List (Int × V)) (buf : Cube V) (n : Int) (v : V)
    (hnd : (ws.map Prod.fst).Nodup) (h : (n, v) ∈ ws) : ws.foldl store buf n = v := by
  induction ws generalizing buf with
  | nil => simp at h
  | cons w ws ih =>
    simp only [List.map_cons, List.nodup_cons] at hnd
    rw [List.foldl_cons]
    rcases List.mem_cons.mp h with rfl | hw
    · rw [foldl_store_of_not_mem ws (store buf (n, v)) n hnd.1]
      simp [store]
    · exact ih (store buf w) hnd.2 hw

/-- The 3D loaders assign the slots 0 to 80 in ascending order. -/
theorem velocity3D_slots {V : Type} (getVector : Int → Int → Int → Int → V) (i j k : Int) :
    (loadLocalVelocity3DWrites getVector i j k).map Prod.fst = (List.range 81).map Int.ofNat :=
  rfl

/-- The 3D mesh loader assigns the slots 0 to 80 in ascending order. -/
theorem meshsize3D_slots {V : Type} (getDx getDy getDz : Int → Int → Int → V) (i j k : Int) :
    (loadLocalMeshsize3DWrites getDx getDy getDz i j k).map Prod.fst
      = (List.range 81).map Int.ofNat :=
  rfl

/-- The 18 slots that the 2D loaders assign, in program order. -/
theorem velocity2D_slots {V : Type} (getVector : Int → Int → Int → V) (i j : Int) :
    (loadLocalVelocity2DWrites getVector i j).map Prod.fst
      = [27, 28, 30, 31, 33, 34, 36, 37, 39, 40, 42, 43, 45, 46, 48, 49, 51, 52] :=
  rfl

/-- The 18 slots that the 2D mesh loader assigns, in program order. -/
theorem meshsize2D_slots {V : Type} (getDx getDy : Int → Int → V) (i j : Int) :
    (loadLocalMeshsize2DWrites getDx getDy i j).map Prod.fst
      = [27, 28, 30, 31, 33, 34, 36, 37, 39, 40, 42, 43, 45, 46, 48, 49, 51, 52] :=
  rfl

/-- C14: `mapd` is a bijection from the window `i, j, k ∈ {-1,0,1}`, `c ∈ {0,1,2}` onto the
contiguous range `0..80`: it is injective on the window, every value lies in `0..80`, every
integer in `0..80` is attained, and `mapd(0,0,0,0) = 39`. -/
theorem mapd_bijection :
    (∀ i j k c i2 j2 k2 c2 : Int,
        -1 ≤ i → i ≤ 1 → -1 ≤ j → j ≤ 1 → -1 ≤ k → k ≤ 1 → 0 ≤ c → c ≤ 2 →
        -1 ≤ i2 → i2 ≤ 1 → -1 ≤ j2 → j2 ≤ 1 → -1 ≤ k2 → k2 ≤ 1 → 0 ≤ c2 → c2 ≤ 2 →
        mapd i j k c = mapd i2 j2 k2 c2 → i = i2 ∧ j = j2 ∧ k = k2 ∧ c = c2)
    ∧ (∀ i j k c : Int,
        -1 ≤ i → i ≤ 1 → -1 ≤ j → j ≤ 1 → -1 ≤ k → k ≤ 1 → 0 ≤ c → c ≤ 2 →
        0 ≤ mapd i j k c ∧ mapd i j k c ≤ 80)
    ∧ (∀ n : Int, 0 ≤ n → n ≤ 80 →
        ∃ i j k c : Int, (-1 ≤ i ∧ i ≤ 1) ∧ (-1 ≤ j ∧ j ≤ 1) ∧ (-1 ≤ k ∧ k ≤ 1)
          ∧ (0 ≤ c ∧ c ≤ 2) ∧ mapd i j k c = n)
    ∧ mapd 0 0 0 0 = 39 := by
  refine ⟨?_, ?_, ?_, rfl⟩
  · intro i j k c i2 j2 k2 c2 _ _ _ _ _ _ _ _ _ _ _ _ _ _ _ _ h
    simp only [mapd] at h
    omega
  · intro i j k c _ _ _ _ _ _ _ _
    simp only [mapd]
    omega
  · intro n h0 h80
    refine ⟨n / 3 % 3 - 1, n / 9 % 3 - 1, n / 27 - 1, n % 3, ?_, ?_, ?_, ?_, ?_⟩ <;>
      (try simp only [mapd]) <;> omega

/-- C15: `mapd` has the constant strides 3, 9, 27 and 1 in `i`, `j`, `k` and the component, for
all integers; and the slots that the four loaders assign, in program order, are
`mapd(column,row,layer,c)` for the window position and the component written (`layer = 0` in 2D),
the same for the velocity and the spacing cube. -/
theorem mapd_affine_and_loader_slots {V : Type} (getVector2 : Int → Int → Int → V)
    (getVector3 : Int → Int → Int → Int → V) (getDx2 getDy2 : Int → Int → V)
    (getDx3 getDy3 getDz3 : Int → Int → Int → V) (i j k : Int) :
    (∀ a b d c : Int, mapd (a + 1) b d c - mapd a b d c = 3
        ∧ mapd a (b + 1) d c - mapd a b d c = 9
        ∧ mapd a b (d + 1) c - mapd a b d c = 27
        ∧ mapd a b d (c + 1) - mapd a b d c = 1)
    ∧ (loadLocalVelocity3DWrites getVector3 i j k).map Prod.fst
        = (([-1, 0, 1] : List Int).flatMap fun layer =>
            ([-1, 0, 1] : List Int).flatMap fun row =>
            ([-1, 0, 1] : List Int).flatMap fun column =>
              [mapd column row layer 0, mapd column row layer 1, mapd column row layer 2])
    ∧ (loadLocalMeshsize3DWrites getDx3 getDy3 getDz3 i j k).map Prod.fst
        = (([-1, 0, 1] : List Int).flatMap fun layer =>
            ([-1, 0, 1] : List Int).flatMap fun row =>
            ([-1, 0, 1] : List Int).flatMap fun column =>
              [mapd column row layer 0, mapd column row layer 1, mapd column row layer 2])
    ∧ (loadLocalVelocity2DWrites getVector2 i j).map Prod.fst
        = (([-1, 0, 1] : List Int).flatMap fun row =>
            ([-1, 0, 1] : List Int).flatMap fun column =>
              [mapd column row 0 0, mapd column row 0 1])
    ∧ (loadLocalMeshsize2DWrites getDx2 getDy2 i j).map Prod.fst
        = (([-1, 0, 1] : List Int).flatMap fun row =>
            ([-1, 0, 1] : List Int).flatMap fun column =>
              [mapd column row 0 0, mapd column row 0 1]) := by
  refine ⟨?_, rfl, rfl, rfl, rfl⟩
  intro a b d c
  simp only [mapd]
  omega

/-- An integer from 0 to 80 is one of the slots `0, 1, ..., 80`. -/
theorem mem_slots_of_bounds (n : Int) (h0 : 0 ≤ n) (h80 : n ≤ 80) :
    n ∈ (List.range 81).map Int.ofNat :=
  List.mem_map.mpr ⟨n.toNat, List.mem_range.mpr (by omega), by simp; omega⟩

/-- The slots `0, 1, ..., 80` are pairwise distinct. -/
theorem nodup_slots : ((List.range 81).map Int.ofNat).Nodup :=
  (List.nodup_range 81).map Int.ofNat_injective

/-- C16: after `loadLocalVelocity3D` the buffer holds, at `mapd(di,dj,dk,c)`, component `c` of
the velocity at `(i+di, j+dj, k+dk)`, for every `di, dj, dk ∈ {-1,0,1}` and `c ∈ {0,1,2}`; hence
all 81 slots are independent of the previous content of the buffer. -/
theorem loadLocalVelocity3D_roundtrip {V : Type} (getVector : Int → Int → Int → Int → V)
    (buf buf2 : Cube V) (i j k : Int) :
    (∀ di dj dk c : Int,
        -1 ≤ di → di ≤ 1 → -1 ≤ dj → dj ≤ 1 → -1 ≤ dk → dk ≤ 1 → 0 ≤ c → c ≤ 2 →
        loadLocalVelocity3D getVector buf i j k (mapd di dj dk c)
          = getVector (i + di) (j + dj) (k + dk) c)
    ∧ (∀ n : Int, 0 ≤ n → n ≤ 80 →
        loadLocalVelocity3D getVector buf i j k n = loadLocalVelocity3D getVector buf2 i j k n)
    := by
  have hnd : ((loadLocalVelocity3DWrites getVector i j k).map Prod.fst).Nodup := by
    rw [velocity3D_slots]; exact nodup_slots
  constructor
  · intro di dj dk c hi0 hi1 hj0 hj1 hk0 hk1 hc0 hc1
    apply foldl_store_of_mem _ _ _ _ hnd
    simp only [loadLocalVelocity3DWrites, List.mem_flatMap]
    refine ⟨dk, by simp; omega, dj, by simp; omega, di, by simp; omega, ?_⟩
    have hc : c = 0 ∨ c = 1 ∨ c = 2 := by omega
    rcases hc with rfl | rfl | rfl <;> simp [mapd]
  · intro n h0 h80
    have hn : n ∈ (loadLocalVelocity3DWrites getVector i j k).map Prod.fst := by
      rw [velocity3D_slots]; exact mem_slots_of_bounds n h0 h80
    obtain ⟨w, hw, rfl⟩ := List.mem_map.mp hn
    unfold loadLocalVelocity3D
    rw [foldl_store_of_mem _ buf w.1 w.2 hnd hw, foldl_store_of_mem _ buf2 w.1 w.2 hnd hw]

/-- C17: after `loadLocalMeshsize3D` the buffer holds `getDx`, `getDy`, `getDz` of the cell
`(i+di, j+dj, k+dk)` at `mapd(di,dj,dk,0)`, `mapd(di,dj,dk,1)`, `mapd(di,dj,dk,2)`, for every
`di, dj, dk ∈ {-1,0,1}`: the addressing of the velocity cube. -/
theorem loadLocalMeshsize3D_roundtrip {V : Type} (getDx getDy getDz : Int → Int → Int → V)
    (buf : Cube V) (i j k di dj dk : Int) (hi0 : -1 ≤ di) (hi1 : di ≤ 1) (hj0 : -1 ≤ dj)
    (hj1 : dj ≤ 1) (hk0 : -1 ≤ dk) (hk1 : dk ≤ 1) :
    loadLocalMeshsize3D getDx getDy getDz buf i j k (mapd di dj dk 0)
        = getDx (i + di) (j + dj) (k + dk)
    ∧ loadLocalMeshsize3D getDx getDy getDz buf i j k (mapd di dj dk 1)
        = getDy (i + di) (j + dj) (k + dk)
    ∧ loadLocalMeshsize3D getDx getDy getDz buf i j k (mapd di dj dk 2)
        = getDz (i + di) (j + dj) (k + dk) := by
  have hnd : ((loadLocalMeshsize3DWrites getDx getDy getDz i j k).map Prod.fst).Nodup := by
    rw [meshsize3D_slots]; exact nodup_slots
  refine ⟨?_, ?_, ?_⟩ <;>
  · apply foldl_store_of_mem _ _ _ _ hnd
    simp only [loadLocalMeshsize3DWrites, List.mem_flatMap]
    refine ⟨dk, by simp; omega, dj, by simp; omega, di, by simp; omega, ?_⟩
    simp [mapd]

/-- Witness of C17: the mesh with `dx = i`, `dy = j`, `dz = k` at cell `(i,j,k)`, loaded around
the cell `(5,6,7)` into a zero buffer, read back at the offset `(1,0,-1)`. -/
theorem loadLocalMeshsize3D_roundtrip_witness :
    ((-1 : Int) ≤ 1 ∧ (1 : Int) ≤ 1) ∧ ((-1 : Int) ≤ 0 ∧ (0 : Int) ≤ 1)
    ∧ ((-1 : Int) ≤ -1 ∧ (-1 : Int) ≤ 1)
    ∧ loadLocalMeshsize3D (fun a _ _ => (a : ℚ)) (fun _ a _ => (a : ℚ)) (fun _ _ a => (a : ℚ))
        (fun _ => 0) 5 6 7 (mapd 1 0 (-1) 0) = 6
    ∧ loadLocalMeshsize3D (fun a _ _ => (a : ℚ)) (fun _ a _ => (a : ℚ)) (fun _ _ a => (a : ℚ))
        (fun _ => 0) 5 6 7 (mapd 1 0 (-1) 1) = 6
    ∧ loadLocalMeshsize3D (fun a _ _ => (a : ℚ)) (fun _ a _ => (a : ℚ)) (fun _ _ a => (a : ℚ))
        (fun _ => 0) 5 6 7 (mapd 1 0 (-1) 2) = 6 := by
  have h := loadLocalMeshsize3D_roundtrip (fun a _ _ => (a : ℚ)) (fun _ a _ => (a : ℚ))
    (fun _ _ a => (a : ℚ)) (fun _ => 0) 5 6 7 1 0 (-1) (by norm_num) (by norm_num) (by norm_num)
    (by norm_num) (by norm_num) (by norm_num)
  refine ⟨by norm_num, by norm_num, by norm_num, ?_, ?_, ?_⟩
  · rw [h.1]; norm_num
  · rw [h.2.1]; norm_num
  · rw [h.2.2]; norm_num

/-- C18: `loadLocalVelocity2D` and `loadLocalMeshsize2D` set the slot `mapd(di,dj,0,c)` to
component `c` of the velocity at `(i+di, j+dj)`, respectively to `getDx` (`c = 0`) and `getDy`
(`c = 1`) of that cell, for `di, dj ∈ {-1,0,1}` and `c ∈ {0,1}`; these are 18 distinct slots; and
each other slot of the window, those with `k != 0` and those with component 2, keeps its previous
content. -/
theorem load2D_window_and_frame {V : Type} (getVector : Int → Int → Int → V)
    (getDx getDy : Int → Int → V) (buf : Cube V) (i j : Int) :
    (∀ di dj c : Int, -1 ≤ di → di ≤ 1 → -1 ≤ dj → dj ≤ 1 → 0 ≤ c → c ≤ 1 →
        loadLocalVelocity2D getVector buf i j (mapd di dj 0 c) = getVector (i + di) (j + dj) c)
    ∧ (∀ di dj : Int, -1 ≤ di → di ≤ 1 → -1 ≤ dj → dj ≤ 1 →
        loadLocalMeshsize2D getDx getDy buf i j (mapd di dj 0 0) = getDx (i + di) (j + dj)
        ∧ loadLocalMeshsize2D getDx getDy buf i j (mapd di dj 0 1) = getDy (i + di) (j + dj))
    ∧ (((loadLocalVelocity2DWrites getVector i j).map Prod.fst).length = 18
        ∧ ((loadLocalVelocity2DWrites getVector i j).map Prod.fst).Nodup)
    ∧ (((loadLocalMeshsize2DWrites getDx getDy i j).map Prod.fst).length = 18
        ∧ ((loadLocalMeshsize2DWrites getDx getDy i j).map Prod.fst).Nodup)
    ∧ (∀ di dj dk c : Int,
        -1 ≤ di → di ≤ 1 → -1 ≤ dj → dj ≤ 1 → -1 ≤ dk → dk ≤ 1 → 0 ≤ c → c ≤ 2 →
        dk ≠ 0 ∨ c = 2 →
        loadLocalVelocity2D getVector buf i j (mapd di dj dk c) = buf (mapd di dj dk c)
        ∧ loadLocalMeshsize2D getDx getDy buf i j (mapd di dj dk c) = buf (mapd di dj dk c))
    := by
  have hv : ((loadLocalVelocity2DWrites getVector i j).map Prod.fst).Nodup := by
    rw [velocity2D_slots]; decide
  have hm : ((loadLocalMeshsize2DWrites getDx getDy i j).map Prod.fst).Nodup := by
    rw [meshsize2D_slots]; decide
  refine ⟨?_, ?_, ⟨by rw [velocity2D_slots]; rfl, hv⟩, ⟨by rw [meshsize2D_slots]; rfl, hm⟩, ?_⟩
  · intro di dj c hi0 hi1 hj0 hj1 hc0 hc1
    apply foldl_store_of_mem _ _ _ _ hv
    simp only [loadLocalVelocity2DWrites, List.mem_flatMap]
    refine ⟨dj, by simp; omega, di, by simp; omega, ?_⟩
    have hc : c = 0 ∨ c = 1 := by omega
    rcases hc with rfl | rfl <;> simp [mapd]
  · intro di dj hi0 hi1 hj0 hj1
    constructor <;>
    · apply foldl_store_of_mem _ _ _ _ hm
      simp only [loadLocalMeshsize2DWrites, List.mem_flatMap]
      refine ⟨dj, by simp; omega, di, by simp; omega, ?_⟩
      simp [mapd]
  · intro di dj dk c hi0 hi1 hj0 hj1 hk0 hk1 hc0 hc1 hout
    constructor
    · apply foldl_store_of_not_mem
      rw [velocity2D_slots]
      simp only [mapd, List.mem_cons, List.mem_singleton, List.not_mem_nil, or_false]
      omega
    · apply foldl_store_of_not_mem
      rw [meshsize2D_slots]
      simp only [mapd, List.mem_cons, List.mem_singleton, List.not_mem_nil, or_false]
      omega

/-! ## First derivatives -/

/-- C19: `dudx`, `dvdy` and `dwdz` divide the difference of their own component between the
centre and the previous cell along their own axis by the centre cell's spacing along that
axis. -/
theorem first_derivatives (lv lm : Cube K) :
    dudx lv lm = (lv (mapd 0 0 0 0) - lv (mapd (-1) 0 0 0)) / lm (mapd 0 0 0 0)
    ∧ dvdy lv lm = (lv (mapd 0 0 0 1) - lv (mapd 0 (-1) 0 1)) / lm (mapd 0 0 0 1)
    ∧ dwdz lv lm = (lv (mapd 0 0 0 2) - lv (mapd 0 0 (-1) 2)) / lm (mapd 0 0 0 2) :=
  ⟨rfl, rfl, rfl⟩

/-! ## Consistency check of the advection operators -/

/-- C13: without `NDEBUG` an advection operator fails exactly when `|tmp1 - tmp2| > 1e-12` and
otherwise returns `tmp2`; with `NDEBUG` it never fails and returns `tmp2`; so a value returned
without `NDEBUG` is the value returned with it. -/
theorem consistency_check_semantics (op : AdvectionOp) (lv : Cube K) (p : Parameters K)
    (lm : Cube K) :
    ((∃ msg, op.run false lv p lm = Except.error msg)
        ↔ |(op.locals lv p lm).tmp1 - (op.locals lv p lm).tmp2| > 1.0e-12)
    ∧ (¬ |(op.locals lv p lm).tmp1 - (op.locals lv p lm).tmp2| > 1.0e-12 →
        op.run false lv p lm = Except.ok (op.locals lv p lm).tmp2)
    ∧ op.run true lv p lm = Except.ok (op.locals lv p lm).tmp2
    ∧ (∀ r, op.run false lv p lm = Except.ok r → op.run true lv p lm = Except.ok r) := by
  refine ⟨?_, ?_, run_production op lv p lm, ?_⟩
  · cases op <;>
      simp only [AdvectionOp.run, AdvectionOp.locals, duvdx, duvdy, duwdx, duwdz, dvwdy, dvwdz,
        du2dx, dv2dy, dw2dz] <;>
      split_ifs with h <;> simp_all
  · intro h
    cases op <;>
      simp only [AdvectionOp.run, AdvectionOp.locals, duvdx, duvdy, duwdx, duwdz, dvwdy, dvwdz,
        du2dx, dv2dy, dw2dz] at h ⊢ <;>
      simp [h]
  · intro r hr
    rw [run_production, run_ok op false lv p lm r hr]

/-- C12: for each of the nine advection operators there is a spacing cube with strictly positive
spacings (1 everywhere, 3 at the next cell along the axis) and a velocity cube on which, with
`gamma = 0`, the blended value `tmp2` is half the reference value `tmp1 >= 1/4`, so that the
consistency check fails. -/
theorem consistency_check_fails_on_stretched_mesh :
    ∀ op : AdvectionOp,
      (∀ n : Int, 0 ≤ n → n ≤ 80 → 0 < stretchedMesh op n)
      ∧ 1 / 4 ≤ (op.locals (stretchedVelocity op) (mkParameters 0 1 0 0 0) (stretchedMesh op)).tmp1
      ∧ (op.locals (stretchedVelocity op) (mkParameters 0 1 0 0 0) (stretchedMesh op)).tmp2
          = (op.locals (stretchedVelocity op) (mkParameters 0 1 0 0 0) (stretchedMesh op)).tmp1 / 2
      ∧ ∃ msg, op.run false (stretchedVelocity op) (mkParameters 0 1 0 0 0) (stretchedMesh op)
          = Except.error msg := by
  intro op
  have hpos : ∀ n : Int, 0 ≤ n → n ≤ 80 → 0 < stretchedMesh op n := by
    intro n _ _
    cases op <;> simp only [stretchedMesh, meshOneExcept] <;> split_ifs <;> norm_num
  have h1 : 1 / 4 ≤ (op.locals (stretchedVelocity op) (mkParameters 0 1 0 0 0)
      (stretchedMesh op)).tmp1 := by
    cases op <;>
      norm_num [AdvectionOp.locals, duvdxLocals, duvdyLocals, duwdxLocals, duwdzLocals,
        dvwdyLocals, dvwdzLocals, du2dxLocals, dv2dyLocals, dw2dzLocals, stretchedVelocity,
        stretchedMesh, mapd, cubeOnesAt, meshOneExcept, mkParameters]
  have h2 : (op.locals (stretchedVelocity op) (mkParameters 0 1 0 0 0) (stretchedMesh op)).tmp2
      = (op.locals (stretchedVelocity op) (mkParameters 0 1 0 0 0) (stretchedMesh op)).tmp1 / 2
      := by
    cases op <;>
      norm_num [AdvectionOp.locals, duvdxLocals, duvdyLocals, duwdxLocals, duwdzLocals,
        dvwdyLocals, dvwdzLocals, du2dxLocals, dv2dyLocals, dw2dzLocals, stretchedVelocity,
        stretchedMesh, mapd, cubeOnesAt, meshOneExcept, mkParameters]
  refine ⟨hpos, h1, h2, ?_⟩
  have hgt : |(op.locals (stretchedVelocity op) (mkParameters 0 1 0 0 0)
      (stretchedMesh op)).tmp1 - (op.locals (stretchedVelocity op) (mkParameters 0 1 0 0 0)
      (stretchedMesh op)).tmp2| > 1.0e-12 := by
    rw [h2, abs_of_pos (by linarith)]
    norm_num
    linarith
  cases op <;>
    simp only [AdvectionOp.run, AdvectionOp.locals, duvdx, duvdy, duwdx, duwdz, dvwdy, dvwdz,
      du2dx, dv2dy, dw2dz] at hgt ⊢ <;>
    simp [hgt]

/-! ## Donor-cell estimate -/

/-- C11: for `gamma = 1` and strictly positive spacings, with `kr` and `kl` the transporting face
velocities of `duvdx`: if `kr >= 0` and `kl >= 0` it returns `(kr*v(0,0) - kl*v(-1,0)) / dxc`, and
if `kr <= 0` and `kl <= 0` it returns `(kr*v(1,0) - kl*v(0,0)) / dxc`, with `dxc =
lm[mapd(0,0,0,0)]`; the same holds for `du2dx` with `kr = (u0+u1)/2`, `kl = (u0+uM1)/2` and the
transported `u`. -/
theorem donor_cell_upwind (b : Bool) (lv : Cube K) (p : Parameters K) (lm : Cube K)
    (hgamma : p.solver.gamma = 1) (hpos : ∀ n : Int, 0 ≤ n → n ≤ 80 → 0 < lm n) :
    (0 ≤ (duvdxLocals lv p lm).kr → 0 ≤ (duvdxLocals lv p lm).kl →
        duvdx true lv p lm
          = Except.ok (((duvdxLocals lv p lm).kr * lv (mapd 0 0 0 1)
              - (duvdxLocals lv p lm).kl * lv (mapd (-1) 0 0 1)) / lm (mapd 0 0 0 0))
        ∧ ∀ r, duvdx b lv p lm = Except.ok r →
            r = ((duvdxLocals lv p lm).kr * lv (mapd 0 0 0 1)
              - (duvdxLocals lv p lm).kl * lv (mapd (-1) 0 0 1)) / lm (mapd 0 0 0 0))
    ∧ ((duvdxLocals lv p lm).kr ≤ 0 → (duvdxLocals lv p lm).kl ≤ 0 →
        duvdx true lv p lm
          = Except.ok (((duvdxLocals lv p lm).kr * lv (mapd 1 0 0 1)
              - (duvdxLocals lv p lm).kl * lv (mapd 0 0 0 1)) / lm (mapd 0 0 0 0))
        ∧ ∀ r, duvdx b lv p lm = Except.ok r →
            r = ((duvdxLocals lv p lm).kr * lv (mapd 1 0 0 1)
              - (duvdxLocals lv p lm).kl * lv (mapd 0 0 0 1)) / lm (mapd 0 0 0 0))
    ∧ (du2dxLocals lv p lm).kr = (lv (mapd 0 0 0 0) + lv (mapd 1 0 0 0)) / 2
    ∧ (du2dxLocals lv p lm).kl = (lv (mapd 0 0 0 0) + lv (mapd (-1) 0 0 0)) / 2
    ∧ (0 ≤ (du2dxLocals lv p lm).kr → 0 ≤ (du2dxLocals lv p lm).kl →
        du2dx true lv p lm
          = Except.ok (((du2dxLocals lv p lm).kr * lv (mapd 0 0 0 0)
              - (du2dxLocals lv p lm).kl * lv (mapd (-1) 0 0 0)) / lm (mapd 0 0 0 0))
        ∧ ∀ r, du2dx b lv p lm = Except.ok r →
            r = ((du2dxLocals lv p lm).kr * lv (mapd 0 0 0 0)
              - (du2dxLocals lv p lm).kl * lv (mapd (-1) 0 0 0)) / lm (mapd 0 0 0 0))
    ∧ ((du2dxLocals lv p lm).kr ≤ 0 → (du2dxLocals lv p lm).kl ≤ 0 →
        du2dx true lv p lm
          = Except.ok (((du2dxLocals lv p lm).kr * lv (mapd 1 0 0 0)
              - (du2dxLocals lv p lm).kl * lv (mapd 0 0 0 0)) / lm (mapd 0 0 0 0))
        ∧ ∀ r, du2dx b lv p lm = Except.ok r →
            r = ((du2dxLocals lv p lm).kr * lv (mapd 1 0 0 0)
              - (du2dxLocals lv p lm).kl * lv (mapd 0 0 0 0)) / lm (mapd 0 0 0 0)) := by
  have hc : 0 < lm (mapd 0 0 0 0) := hpos _ (by norm_num [mapd]) (by norm_num [mapd])
  have hne : lm (mapd 0 0 0 0) ≠ 0 := ne_of_gt hc
  -- the returned value is the first-order estimate
  have tuv : (duvdxLocals lv p lm).tmp2 = (duvdxLocals lv p lm).firstOrder := by
    have ht := tmp2_eq AdvectionOp.duvdx lv p lm
    simp only [AdvectionOp.locals] at ht
    rw [ht, hgamma]; ring
  have tu2 : (du2dxLocals lv p lm).tmp2 = (du2dxLocals lv p lm).firstOrder := by
    have ht := tmp2_eq AdvectionOp.du2dx lv p lm
    simp only [AdvectionOp.locals] at ht
    rw [ht, hgamma]; ring
  -- the first-order estimates in terms of `kr` and `kl`
  have fuv : (duvdxLocals lv p lm).firstOrder
      = 1.0 / (4.0 * (0.5 * lm (mapd 0 0 0 0)))
        * ((duvdxLocals lv p lm).kr * (lv (mapd 0 0 0 1) + lv (mapd 1 0 0 1))
          - (duvdxLocals lv p lm).kl * (lv (mapd (-1) 0 0 1) + lv (mapd 0 0 0 1))
          + |(duvdxLocals lv p lm).kr| * (lv (mapd 0 0 0 1) - lv (mapd 1 0 0 1))
          - |(duvdxLocals lv p lm).kl| * (lv (mapd (-1) 0 0 1) - lv (mapd 0 0 0 1))) := rfl
  have fu2 : (du2dxLocals lv p lm).firstOrder
      = 1.0 / (4.0 * (0.5 * lm (mapd 0 0 0 0)))
        * ((du2dxLocals lv p lm).kr * (lv (mapd 0 0 0 0) + lv (mapd 1 0 0 0))
          - (du2dxLocals lv p lm).kl * (lv (mapd (-1) 0 0 0) + lv (mapd 0 0 0 0))
          + |(du2dxLocals lv p lm).kr| * (lv (mapd 0 0 0 0) - lv (mapd 1 0 0 0))
          - |(du2dxLocals lv p lm).kl| * (lv (mapd (-1) 0 0 0) - lv (mapd 0 0 0 0))) := rfl
  have puv := run_production AdvectionOp.duvdx lv p lm
  have pu2 := run_production AdvectionOp.du2dx lv p lm
  simp only [AdvectionOp.run, AdvectionOp.locals] at puv pu2
  have ouv : ∀ r, duvdx b lv p lm = Except.ok r → r = (duvdxLocals lv p lm).firstOrder :=
    fun r hr => (run_ok AdvectionOp.duvdx b lv p lm r hr).trans tuv
  have ou2 : ∀ r, du2dx b lv p lm = Except.ok r → r = (du2dxLocals lv p lm).firstOrder :=
    fun r hr => (run_ok AdvectionOp.du2dx b lv p lm r hr).trans tu2
  refine ⟨?_, ?_, rfl, rfl, ?_, ?_⟩
  · intro hr hl
    have e : (duvdxLocals lv p lm).firstOrder
        = ((duvdxLocals lv p lm).kr * lv (mapd 0 0 0 1)
            - (duvdxLocals lv p lm).kl * lv (mapd (-1) 0 0 1)) / lm (mapd 0 0 0 0) := by
      rw [fuv, abs_of_nonneg hr, abs_of_nonneg hl]
      norm_num
      field_simp
      ring
    exact ⟨by rw [puv, tuv, e], fun r h => (ouv r h).trans e⟩
  · intro hr hl
    have e : (duvdxLocals lv p lm).firstOrder
        = ((duvdxLocals lv p lm).kr * lv (mapd 1 0 0 1)
            - (duvdxLocals lv p lm).kl * lv (mapd 0 0 0 1)) / lm (mapd 0 0 0 0) := by
      rw [fuv, abs_of_nonpos hr, abs_of_nonpos hl]
      norm_num
      field_simp
      ring
    exact ⟨by rw [puv, tuv, e], fun r h => (ouv r h).trans e⟩
  · intro hr hl
    have e : (du2dxLocals lv p lm).firstOrder
        = ((du2dxLocals lv p lm).kr * lv (mapd 0 0 0 0)
            - (du2dxLocals lv p lm).kl * lv (mapd (-1) 0 0 0)) / lm (mapd 0 0 0 0) := by
      rw [fu2, abs_of_nonneg hr, abs_of_nonneg hl]
      norm_num
      field_simp
      ring
    exact ⟨by rw [pu2, tu2, e], fun r h => (ou2 r h).trans e⟩
  · intro hr hl
    have e : (du2dxLocals lv p lm).firstOrder
        = ((du2dxLocals lv p lm).kr * lv (mapd 1 0 0 0)
            - (du2dxLocals lv p lm).kl * lv (mapd 0 0 0 0)) / lm (mapd 0 0 0 0) := by
      rw [fu2, abs_of_nonpos hr, abs_of_nonpos hl]
      norm_num
      field_simp
      ring
    exact ⟨by rw [pu2, tu2, e], fun r h => (ou2 r h).trans e⟩

/-- Witness of C11: `gamma = 1`, unit spacings except `dxe = 3`, `v(1,0) = 1`.  With
`u(0,0) = u(0,1) = 1` the flow is eastward (`kr = 1`, `kl = 0`) and `duvdx` returns
`(kr*v(0,0) - kl*v(-1,0)) / dxc = 0`; with `u(0,0) = u(0,1) = -1` it is westward (`kr = -1`,
`kl = 0`) and `duvdx` returns `(kr*v(1,0) - kl*v(0,0)) / dxc = -1`. -/
theorem donor_cell_upwind_witness :
    (mkParameters (1 : ℚ) 1 0 0 0).solver.gamma = 1
    ∧ (∀ n : Int, 0 ≤ n → n ≤ 80 → 0 < meshOneExcept (mapd 1 0 0 0) 3 n)
    ∧ (duvdxLocals (cubeTwoValues 1 [mapd 0 0 0 0, mapd 0 1 0 0] 1 [mapd 1 0 0 1])
        (mkParameters 1 1 0 0 0) (meshOneExcept (mapd 1 0 0 0) 3)).kr = 1
    ∧ (duvdxLocals (cubeTwoValues 1 [mapd 0 0 0 0, mapd 0 1 0 0] 1 [mapd 1 0 0 1])
        (mkParameters 1 1 0 0 0) (meshOneExcept (mapd 1 0 0 0) 3)).kl = 0
    ∧ duvdx true (cubeTwoValues 1 [mapd 0 0 0 0, mapd 0 1 0 0] 1 [mapd 1 0 0 1])
        (mkParameters 1 1 0 0 0) (meshOneExcept (mapd 1 0 0 0) 3) = Except.ok 0
    ∧ (duvdxLocals (cubeTwoValues (-1) [mapd 0 0 0 0, mapd 0 1 0 0] 1 [mapd 1 0 0 1])
        (mkParameters 1 1 0 0 0) (meshOneExcept (mapd 1 0 0 0) 3)).kr = -1
    ∧ (duvdxLocals (cubeTwoValues (-1) [mapd 0 0 0 0, mapd 0 1 0 0] 1 [mapd 1 0 0 1])
        (mkParameters 1 1 0 0 0) (meshOneExcept (mapd 1 0 0 0) 3)).kl = 0
    ∧ duvdx true (cubeTwoValues (-1) [mapd 0 0 0 0, mapd 0 1 0 0] 1 [mapd 1 0 0 1])
        (mkParameters 1 1 0 0 0) (meshOneExcept (mapd 1 0 0 0) 3) = Except.ok (-1) := by
  have hpos : ∀ n : Int, 0 ≤ n → n ≤ 80 → 0 < meshOneExcept (mapd 1 0 0 0) 3 n := by
    intro n _ _
    simp only [meshOneExcept]
    split_ifs <;> norm_num
  have kr1 : (duvdxLocals (cubeTwoValues 1 [mapd 0 0 0 0, mapd 0 1 0 0] 1 [mapd 1 0 0 1])
      (mkParameters 1 1 0 0 0) (meshOneExcept (mapd 1 0 0 0) 3)).kr = 1 := by
    norm_num [duvdxLocals, mapd, cubeTwoValues, meshOneExcept]
  have kl1 : (duvdxLocals (cubeTwoValues 1 [mapd 0 0 0 0, mapd 0 1 0 0] 1 [mapd 1 0 0 1])
      (mkParameters 1 1 0 0 0) (meshOneExcept (mapd 1 0 0 0) 3)).kl = 0 := by
    norm_num [duvdxLocals, mapd, cubeTwoValues, meshOneExcept]
  have kr2 : (duvdxLocals (cubeTwoValues (-1) [mapd 0 0 0 0, mapd 0 1 0 0] 1 [mapd 1 0 0 1])
      (mkParameters 1 1 0 0 0) (meshOneExcept (mapd 1 0 0 0) 3)).kr = -1 := by
    norm_num [duvdxLocals, mapd, cubeTwoValues, meshOneExcept]
  have kl2 : (duvdxLocals (cubeTwoValues (-1) [mapd 0 0 0 0, mapd 0 1 0 0] 1 [mapd 1 0 0 1])
      (mkParameters 1 1 0 0 0) (meshOneExcept (mapd 1 0 0 0) 3)).kl = 0 := by
    norm_num [duvdxLocals, mapd, cubeTwoValues, meshOneExcept]
  have east := ((donor_cell_upwind true
    (cubeTwoValues 1 [mapd 0 0 0 0, mapd 0 1 0 0] 1 [mapd 1 0 0 1]) (mkParameters 1 1 0 0 0)
    (meshOneExcept (mapd 1 0 0 0) 3) rfl hpos).1 (by rw [kr1]; norm_num) (by rw [kl1])).1
  have west := ((donor_cell_upwind true
    (cubeTwoValues (-1) [mapd 0 0 0 0, mapd 0 1 0 0] 1 [mapd 1 0 0 1]) (mkParameters 1 1 0 0 0)
    (meshOneExcept (mapd 1 0 0 0) 3) rfl hpos).2.1 (by rw [kr2]; norm_num) (by rw [kl2])).1
  rw [kr1, kl1] at east
  rw [kr2, kl2] at west
  refine ⟨rfl, hpos, kr1, kl1, ?_, kr2, kl2, ?_⟩
  · rw [east]; norm_num [mapd, cubeTwoValues, meshOneExcept]
  · rw [west]; norm_num [mapd, cubeTwoValues, meshOneExcept]

/-! ## Rest state -/

/-- A cube that is 0 in the slots 0 to 80 is 0 at every window position. -/
theorem zero_at_mapd (lv : Cube K) (hlv : ∀ n : Int, 0 ≤ n → n ≤ 80 → lv n = 0)
    (i j k c : Int) (hi : -1 ≤ i ∧ i ≤ 1) (hj : -1 ≤ j ∧ j ≤ 1) (hk : -1 ≤ k ∧ k ≤ 1)
    (hc : 0 ≤ c ∧ c ≤ 2) : lv (mapd i j k c) = 0 :=
  hlv _ (by simp only [mapd]; omega) (by simp only [mapd]; omega)

/-- At rest both the reference value and the blended value of every advection operator are 0. -/
theorem locals_at_rest (op : AdvectionOp) (lv : Cube K) (p : Parameters K) (lm : Cube K)
    (hlv : ∀ n : Int, 0 ≤ n → n ≤ 80 → lv n = 0) :
    (op.locals lv p lm).tmp1 = 0 ∧ (op.locals lv p lm).tmp2 = 0 := by
  cases op <;>
    simp [AdvectionOp.locals, duvdxLocals, duvdyLocals, duwdxLocals, duwdzLocals, dvwdyLocals,
      dvwdzLocals, du2dxLocals, dv2dyLocals, dw2dzLocals, zero_at_mapd lv hlv]

/-- At rest every advection operator returns 0, with or without the consistency check. -/
theorem run_at_rest (op : AdvectionOp) (b : Bool) (lv : Cube K) (p : Parameters K) (lm : Cube K)
    (hlv : ∀ n : Int, 0 ≤ n → n ≤ 80 → lv n = 0) : op.run b lv p lm = Except.ok 0 := by
  obtain ⟨h1, h2⟩ := locals_at_rest op lv p lm hlv
  cases op <;>
    simp only [AdvectionOp.run, AdvectionOp.locals, duvdx, duvdy, duwdx, duwdz, dvwdy, dvwdz,
      du2dx, dv2dy, dw2dz] at h1 h2 ⊢ <;>
    rw [h1, h2] <;> norm_num

/-- At rest every second derivative is 0. -/
theorem d2_at_rest (lv lm : Cube K) (hlv : ∀ n : Int, 0 ≤ n → n ≤ 80 → lv n = 0) :
    d2udx2 lv lm = 0 ∧ d2udy2 lv lm = 0 ∧ d2udz2 lv lm = 0
    ∧ d2vdx2 lv lm = 0 ∧ d2vdy2 lv lm = 0 ∧ d2vdz2 lv lm = 0
    ∧ d2wdx2 lv lm = 0 ∧ d2wdy2 lv lm = 0 ∧ d2wdz2 lv lm = 0 := by
  refine ⟨?_, ?_, ?_, ?_, ?_, ?_, ?_, ?_, ?_⟩ <;>
    simp [d2udx2, d2udy2, d2udz2, d2vdx2, d2vdy2, d2vdz2, d2wdx2, d2wdy2, d2wdz2,
      zero_at_mapd lv hlv]

/-- C20: at rest (all 81 velocity slots 0, `gx = gy = gz = 0`) `computeF2D`, `computeG2D`,
`computeF3D` and `computeH3D` return exactly 0 for every spacing cube, `Re`, `gamma` and `dt`, with
or without the consistency check, and no check of an advection operator fails.  `computeG3D`
returns 0 when its undefined callee `dSv2dy` is read as `dv2dy`; its value is otherwise that of
the callee, `-dt` when the callee returns 1. -/
theorem rest_state (b : Bool) (lv lm : Cube K) (p : Parameters K) (dt : K)
    (hlv : ∀ n : Int, 0 ≤ n → n ≤ 80 → lv n = 0)
    (hgx : p.environment.gx = 0) (hgy : p.environment.gy = 0) (hgz : p.environment.gz = 0) :
    computeF2D b lv lm p dt = Except.ok 0
    ∧ computeG2D b lv lm p dt = Except.ok 0
    ∧ computeF3D b lv lm p dt = Except.ok 0
    ∧ computeH3D b lv lm p dt = Except.ok 0
    ∧ (∀ op : AdvectionOp, op.run b lv p lm = Except.ok 0)
    ∧ computeG3D (dv2dy b) b lv lm p dt = Except.ok 0
    ∧ computeG3D (fun _ _ _ => Except.ok 1) b lv lm p dt = Except.ok (-dt) := by
  have r := fun op => run_at_rest op b lv p lm hlv
  have ruvx := r AdvectionOp.duvdx
  have ruvy := r AdvectionOp.duvdy
  have ruwx := r AdvectionOp.duwdx
  have ruwz := r AdvectionOp.duwdz
  have rvwy := r AdvectionOp.dvwdy
  have rvwz := r AdvectionOp.dvwdz
  have ru2 := r AdvectionOp.du2dx
  have rv2 := r AdvectionOp.dv2dy
  have rw2 := r AdvectionOp.dw2dz
  simp only [AdvectionOp.run] at ruvx ruvy ruwx ruwz rvwy rvwz ru2 rv2 rw2
  obtain ⟨d1, d2, d3, d4, d5, d6, d7, d8, d9⟩ := d2_at_rest lv lm hlv
  have c0 := zero_at_mapd lv hlv 0 0 0 0 (by norm_num) (by norm_num) (by norm_num) (by norm_num)
  have c1 := zero_at_mapd lv hlv 0 0 0 1 (by norm_num) (by norm_num) (by norm_num) (by norm_num)
  have c2 := zero_at_mapd lv hlv 0 0 0 2 (by norm_num) (by norm_num) (by norm_num) (by norm_num)
  refine ⟨?_, ?_, ?_, ?_, r, ?_, ?_⟩
  · simp [computeF2D, ru2, ruvy, d1, d2, c0, hgx, bind, Except.bind, pure, Except.pure]
  · simp [computeG2D, ruvx, rv2, d4, d5, c1, hgy, bind, Except.bind, pure, Except.pure]
  · simp [computeF3D, ru2, ruvy, ruwz, d1, d2, d3, c0, hgx, bind, Except.bind, pure,
      Except.pure]
  · simp [computeH3D, rw2, ruwx, rvwy, d7, d8, d9, c2, hgz, bind, Except.bind, pure,
      Except.pure]
  · simp [computeG3D, rv2, ruvx, rvwz, d4, d5, d6, c1, hgy, bind, Except.bind, pure,
      Except.pure]
  · simp [computeG3D, ruvx, rvwz, d4, d5, d6, c1, hgy, bind, Except.bind, pure,
      Except.pure]

/-- Witness of C20: the zero velocity cube, unit spacings, `Re = 1`, `gamma = 1/2`, no body
force and `dt = 1/10`, in the build with the consistency check. -/
theorem rest_state_witness :
    (∀ n : Int, 0 ≤ n → n ≤ 80 → cubeOnesAt [] n = 0)
    ∧ (mkParameters (1 / 2 : ℚ) 1 0 0 0).environment.gx = 0
    ∧ (mkParameters (1 / 2 : ℚ) 1 0 0 0).environment.gy = 0
    ∧ (mkParameters (1 / 2 : ℚ) 1 0 0 0).environment.gz = 0
    ∧ computeF3D false (cubeOnesAt []) (meshPerAxis 1 1 1) (mkParameters (1 / 2) 1 0 0 0)
        (1 / 10) = Except.ok 0 :=
  ⟨fun _ _ _ => rfl, rfl, rfl, rfl,
    (rest_state false (cubeOnesAt []) (meshPerAxis 1 1 1) (mkParameters (1 / 2) 1 0 0 0)
      (1 / 10) (fun _ _ _ => rfl) rfl rfl rfl).2.2.1⟩

/-! ## The advection operators as instances of the two common shapes -/

/-- The body of `duvdx` is the mixed-product shape at the values it reads. -/
theorem duvdxLocals_shape (lv : Cube K) (p : Parameters K) (lm : Cube K) :
    duvdxLocals lv p lm = crossLocals p.solver.gamma
      (lv (mapd 0 0 0 0)) (lv (mapd 0 1 0 0)) (lv (mapd 0 0 0 1)) (lv (mapd 1 0 0 1))
      (lv (mapd (-1) 0 0 0)) (lv (mapd (-1) 1 0 0)) (lv (mapd (-1) 0 0 1))
      (lm (mapd 0 0 0 0)) (lm (mapd (-1) 0 0 0)) (lm (mapd 1 0 0 0))
      (lm (mapd 0 0 0 1)) (lm (mapd 0 1 0 1)) := rfl

/-- The body of `duvdy` is the mixed-product shape at the values it reads. -/
theorem duvdyLocals_shape (lv : Cube K) (p : Parameters K) (lm : Cube K) :
    duvdyLocals lv p lm = crossLocals p.solver.gamma
      (lv (mapd 0 0 0 1)) (lv (mapd 1 0 0 1)) (lv (mapd 0 0 0 0)) (lv (mapd 0 1 0 0))
      (lv (mapd 0 (-1) 0 1)) (lv (mapd 1 (-1) 0 1)) (lv (mapd 0 (-1) 0 0))
      (lm (mapd 0 0 0 1)) (lm (mapd 0 (-1) 0 1)) (lm (mapd 0 1 0 1))
      (lm (mapd 0 0 0 0)) (lm (mapd 1 0 0 0)) := rfl

/-- The body of `duwdx` is the mixed-product shape at the values it reads. -/
theorem duwdxLocals_shape (lv : Cube K) (p : Parameters K) (lm : Cube K) :
    duwdxLocals lv p lm = crossLocals p.solver.gamma
      (lv (mapd 0 0 0 0)) (lv (mapd 0 0 1 0)) (lv (mapd 0 0 0 2)) (lv (mapd 1 0 0 2))
      (lv (mapd (-1) 0 0 0)) (lv (mapd (-1) 0 1 0)) (lv (mapd (-1) 0 0 2))
      (lm (mapd 0 0 0 0)) (lm (mapd (-1) 0 0 0)) (lm (mapd 1 0 0 0))
      (lm (mapd 0 0 0 2)) (lm (mapd 0 0 1 2)) := rfl

/-- The body of `duwdz` is the mixed-product shape at the values it reads. -/
theorem duwdzLocals_shape (lv : Cube K) (p : Parameters K) (lm : Cube K) :
    duwdzLocals lv p lm = crossLocals p.solver.gamma
      (lv (mapd 0 0 0 2)) (lv (mapd 1 0 0 2)) (lv (mapd 0 0 0 0)) (lv (mapd 0 0 1 0))
      (lv (mapd 0 0 (-1) 2)) (lv (mapd 1 0 (-1) 2)) (lv (mapd 0 0 (-1) 0))
      (lm (mapd 0 0 0 2)) (lm (mapd 0 0 (-1) 2)) (lm (mapd 0 0 1 2))
      (lm (mapd 0 0 0 0)) (lm (mapd 1 0 0 0)) := rfl

/-- The body of `dvwdy` is the mixed-product shape at the values it reads. -/
theorem dvwdyLocals_shape (lv : Cube K) (p : Parameters K) (lm : Cube K) :
    dvwdyLocals lv p lm = crossLocals p.solver.gamma
      (lv (mapd 0 0 0 1)) (lv (mapd 0 0 1 1)) (lv (mapd 0 0 0 2)) (lv (mapd 0 1 0 2))
      (lv (mapd 0 (-1) 0 1)) (lv (mapd 0 (-1) 1 1)) (lv (mapd 0 (-1) 0 2))
      (lm (mapd 0 0 0 1)) (lm (mapd 0 (-1) 0 1)) (lm (mapd 0 1 0 1))
      (lm (mapd 0 0 0 2)) (lm (mapd 0 0 1 2)) := rfl

/-- The body of `dvwdz` is the mixed-product shape at the values it reads. -/
theorem dvwdzLocals_shape (lv : Cube K) (p : Parameters K) (lm : Cube K) :
    dvwdzLocals lv p lm = crossLocals p.solver.gamma
      (lv (mapd 0 0 0 2)) (lv (mapd 0 1 0 2)) (lv (mapd 0 0 0 1)) (lv (mapd 0 0 1 1))
      (lv (mapd 0 0 (-1) 2)) (lv (mapd 0 1 (-1) 2)) (lv (mapd 0 0 (-1) 1))
      (lm (mapd 0 0 0 2)) (lm (mapd 0 0 (-1) 2)) (lm (mapd 0 0 1 2))
      (lm (mapd 0 0 0 1)) (lm (mapd 0 1 0 1)) := rfl

/-- The body of `du2dx` is the square shape at the values it reads. -/
theorem du2dxLocals_shape (lv : Cube K) (p : Parameters K) (lm : Cube K) :
    du2dxLocals lv p lm = squareLocals p.solver.gamma
      (lv (mapd 0 0 0 0)) (lv (mapd (-1) 0 0 0)) (lv (mapd 1 0 0 0))
      (lm (mapd 0 0 0 0)) (lm (mapd 1 0 0 0)) := rfl

/-- The body of `dv2dy` is the square shape at the values it reads. -/
theorem dv2dyLocals_shape (lv : Cube K) (p : Parameters K) (lm : Cube K) :
    dv2dyLocals lv p lm = squareLocals p.solver.gamma
      (lv (mapd 0 0 0 1)) (lv (mapd 0 (-1) 0 1)) (lv (mapd 0 1 0 1))
      (lm (mapd 0 0 0 1)) (lm (mapd 0 1 0 1)) := rfl

/-- The body of `dw2dz` is the square shape at the values it reads. -/
theorem dw2dzLocals_shape (lv : Cube K) (p : Parameters K) (lm : Cube K) :
    dw2dzLocals lv p lm = squareLocals p.solver.gamma
      (lv (mapd 0 0 0 2)) (lv (mapd 0 0 (-1) 2)) (lv (mapd 0 0 1 2))
      (lm (mapd 0 0 0 2)) (lm (mapd 0 0 1 2)) := rfl

/-- An advection operator returns `r` exactly when `r` is its `tmp2` and the consistency check,
if compiled in, passes. -/
theorem run_eq_ok_iff (op : AdvectionOp) (b : Bool) (lv : Cube K) (p : Parameters K)
    (lm : Cube K) (r : K) :
    op.run b lv p lm = Except.ok r
      ↔ ¬ (b = false ∧ |(op.locals lv p lm).tmp1 - (op.locals lv p lm).tmp2| > 1.0e-12)
        ∧ r = (op.locals lv p lm).tmp2 := by
  cases op <;>
    simp only [AdvectionOp.run, AdvectionOp.locals, duvdx, duvdy, duwdx, duwdz, dvwdy, dvwdz,
      du2dx, dv2dy, dw2dz] <;>
    split_ifs with h <;> simp [h, eq_comm]


/-! ## Relabelling lemmas -/

/-- The digits of a window slot. -/
theorem slot_digits (i j k c : Int) (hi : -1 ≤ i ∧ i ≤ 1) (hj : -1 ≤ j ∧ j ≤ 1)
    (hc : 0 ≤ c ∧ c ≤ 2) :
    slotI (mapd i j k c) = i ∧ slotJ (mapd i j k c) = j ∧ slotK (mapd i j k c) = k
    ∧ slotC (mapd i j k c) = c := by
  simp only [slotI, slotJ, slotK, slotC, mapd]
  omega

/-- The x/y swap at a window slot reads the slot with `i` and `j` and the components 0 and 1
exchanged. -/
theorem transposeXY_apply {V : Type} (a : Cube V) (i j k c : Int) (hi : -1 ≤ i ∧ i ≤ 1)
    (hj : -1 ≤ j ∧ j ≤ 1) (hc : 0 ≤ c ∧ c ≤ 2) :
    transposeXY a (mapd i j k c) = a (mapd j i k (swapComponent 0 1 c)) := by
  obtain ⟨e1, e2, e3, e4⟩ := slot_digits i j k c hi hj hc
  simp only [transposeXY, e1, e2, e3, e4]

/-- The x/z swap at a window slot reads the slot with `i` and `k` and the components 0 and 2
exchanged. -/
theorem swapXZ_apply {V : Type} (a : Cube V) (i j k c : Int) (hi : -1 ≤ i ∧ i ≤ 1)
    (hj : -1 ≤ j ∧ j ≤ 1) (hc : 0 ≤ c ∧ c ≤ 2) :
    swapXZ a (mapd i j k c) = a (mapd k j i (swapComponent 0 2 c)) := by
  obtain ⟨e1, e2, e3, e4⟩ := slot_digits i j k c hi hj hc
  simp only [swapXZ, e1, e2, e3, e4]

/-- The y/z swap at a window slot reads the slot with `j` and `k` and the components 1 and 2
exchanged. -/
theorem swapYZ_apply {V : Type} (a : Cube V) (i j k c : Int) (hi : -1 ≤ i ∧ i ≤ 1)
    (hj : -1 ≤ j ∧ j ≤ 1) (hc : 0 ≤ c ∧ c ≤ 2) :
    swapYZ a (mapd i j k c) = a (mapd i k j (swapComponent 1 2 c)) := by
  obtain ⟨e1, e2, e3, e4⟩ := slot_digits i j k c hi hj hc
  simp only [swapYZ, e1, e2, e3, e4]

/-- C24: the blended advection operators are images of one another under relabelling of axes and
components: with `T` the x/y swap, `X` the x/z swap and `Y` the y/z swap, `duvdy(lv,lm) =
duvdx(T lv, T lm)`, `duwdz(lv,lm) = duwdx(X lv, X lm)`, `dvwdz(lv,lm) = dvwdy(Y lv, Y lm)`,
`duwdx(lv,lm) = duvdx(Y lv, Y lm)`, `dv2dy(lv,lm) = du2dx(T lv, T lm)` and `dw2dz(lv,lm) =
du2dx(X lv, X lm)`: all local variables of the two bodies agree, and so do the values returned
in a production build. -/
theorem advection_relabelling (lv : Cube K) (p : Parameters K) (lm : Cube K) :
    (duvdyLocals lv p lm = duvdxLocals (transposeXY lv) p (transposeXY lm)
      ∧ duvdy true lv p lm = duvdx true (transposeXY lv) p (transposeXY lm))
    ∧ (duwdzLocals lv p lm = duwdxLocals (swapXZ lv) p (swapXZ lm)
      ∧ duwdz true lv p lm = duwdx true (swapXZ lv) p (swapXZ lm))
    ∧ (dvwdzLocals lv p lm = dvwdyLocals (swapYZ lv) p (swapYZ lm)
      ∧ dvwdz true lv p lm = dvwdy true (swapYZ lv) p (swapYZ lm))
    ∧ (duwdxLocals lv p lm = duvdxLocals (swapYZ lv) p (swapYZ lm)
      ∧ duwdx true lv p lm = duvdx true (swapYZ lv) p (swapYZ lm))
    ∧ (dv2dyLocals lv p lm = du2dxLocals (transposeXY lv) p (transposeXY lm)
      ∧ dv2dy true lv p lm = du2dx true (transposeXY lv) p (transposeXY lm))
    ∧ (dw2dzLocals lv p lm = du2dxLocals (swapXZ lv) p (swapXZ lm)
      ∧ dw2dz true lv p lm = du2dx true (swapXZ lv) p (swapXZ lm)) := by
  have e1 : duvdyLocals lv p lm = duvdxLocals (transposeXY lv) p (transposeXY lm) := rfl
  have e2 : duwdzLocals lv p lm = duwdxLocals (swapXZ lv) p (swapXZ lm) := rfl
  have e3 : dvwdzLocals lv p lm = dvwdyLocals (swapYZ lv) p (swapYZ lm) := rfl
  have e4 : duwdxLocals lv p lm = duvdxLocals (swapYZ lv) p (swapYZ lm) := rfl
  have e5 : dv2dyLocals lv p lm = du2dxLocals (transposeXY lv) p (transposeXY lm) := rfl
  have e6 : dw2dzLocals lv p lm = du2dxLocals (swapXZ lv) p (swapXZ lm) := rfl
  exact ⟨⟨e1, (run_production AdvectionOp.duvdy lv p lm).trans
      ((congrArg (fun l => Except.ok l.tmp2) e1).trans
        (run_production AdvectionOp.duvdx (transposeXY lv) p (transposeXY lm)).symm)⟩,
    ⟨e2, (run_production AdvectionOp.duwdz lv p lm).trans
      ((congrArg (fun l => Except.ok l.tmp2) e2).trans
        (run_production AdvectionOp.duwdx (swapXZ lv) p (swapXZ lm)).symm)⟩,
    ⟨e3, (run_production AdvectionOp.dvwdz lv p lm).trans
      ((congrArg (fun l => Except.ok l.tmp2) e3).trans
        (run_production AdvectionOp.dvwdy (swapYZ lv) p (swapYZ lm)).symm)⟩,
    ⟨e4, (run_production AdvectionOp.duwdx lv p lm).trans
      ((congrArg (fun l => Except.ok l.tmp2) e4).trans
        (run_production AdvectionOp.duvdx (swapYZ lv) p (swapYZ lm)).symm)⟩,
    ⟨e5, (run_production AdvectionOp.dv2dy lv p lm).trans
      ((congrArg (fun l => Except.ok l.tmp2) e5).trans
        (run_production AdvectionOp.du2dx (transposeXY lv) p (transposeXY lm)).symm)⟩,
    ⟨e6, (run_production AdvectionOp.dw2dz lv p lm).trans
      ((congrArg (fun l => Except.ok l.tmp2) e6).trans
        (run_production AdvectionOp.du2dx (swapXZ lv) p (swapXZ lm)).symm)⟩⟩

/-! ## Symmetry of the assemblers -/

/-- C22: `computeG2D` is `computeF2D` with the roles of x/u and y/v exchanged.  With `T` the x/y
swap of a cube, `(T a)[mapd(i,j,k,c)] = a[mapd(j,i,k,s(c))]`, `computeG2D(T lv, T lm)` with
`gy = g` equals `computeF2D(lv, lm)` with `gx = g`, for every `lv`, `lm`, `Re`, `gamma`, `dt` and
`g`: the production builds return the same value, and in either build the one returns a value
exactly when the other returns it. -/
theorem computeG2D_is_transposed_computeF2D (b : Bool) (lv lm : Cube K)
    (gamma Re g gx gy gz1 gz2 dt : K) :
    (∀ a : Cube K, ∀ i j k c : Int, (-1 ≤ i ∧ i ≤ 1) → (-1 ≤ j ∧ j ≤ 1) → (0 ≤ c ∧ c ≤ 2) →
        transposeXY a (mapd i j k c) = a (mapd j i k (swapComponent 0 1 c)))
    ∧ computeG2D true (transposeXY lv) (transposeXY lm) (mkParameters gamma Re gx g gz1) dt
        = computeF2D true lv lm (mkParameters gamma Re g gy gz2) dt
    ∧ (∀ r, computeG2D b (transposeXY lv) (transposeXY lm) (mkParameters gamma Re gx g gz1) dt
          = Except.ok r
        ↔ computeF2D b lv lm (mkParameters gamma Re g gy gz2) dt = Except.ok r) := by
  have e1 : duvdxLocals (transposeXY lv) (mkParameters gamma Re gx g gz1) (transposeXY lm)
      = duvdyLocals lv (mkParameters gamma Re g gy gz2) lm := rfl
  have e2 : dv2dyLocals (transposeXY lv) (mkParameters gamma Re gx g gz1) (transposeXY lm)
      = du2dxLocals lv (mkParameters gamma Re g gy gz2) lm := rfl
  have d1 : d2vdx2 (transposeXY lv) (transposeXY lm) = d2udy2 lv lm := rfl
  have d2 : d2vdy2 (transposeXY lv) (transposeXY lm) = d2udx2 lv lm := rfl
  have c0 : transposeXY lv (mapd 0 0 0 1) = lv (mapd 0 0 0 0) := rfl
  have key : ∀ bb r,
      computeG2D bb (transposeXY lv) (transposeXY lm) (mkParameters gamma Re gx g gz1) dt
          = Except.ok r
        ↔ computeF2D bb lv lm (mkParameters gamma Re g gy gz2) dt = Except.ok r := by
    intro bb r
    have iuvx := run_eq_ok_iff AdvectionOp.duvdx bb (transposeXY lv)
      (mkParameters gamma Re gx g gz1) (transposeXY lm)
    have iv2 := run_eq_ok_iff AdvectionOp.dv2dy bb (transposeXY lv)
      (mkParameters gamma Re gx g gz1) (transposeXY lm)
    have iu2 := run_eq_ok_iff AdvectionOp.du2dx bb lv (mkParameters gamma Re g gy gz2) lm
    have iuvy := run_eq_ok_iff AdvectionOp.duvdy bb lv (mkParameters gamma Re g gy gz2) lm
    simp only [AdvectionOp.run, AdvectionOp.locals, e1, e2] at iuvx iv2 iu2 iuvy
    simp only [computeG2D, computeF2D, bind_eq_ok, iuvx, iv2, iu2, iuvy, d1, d2, c0, pure,
      Except.pure, Except.ok.injEq]
    constructor
    · rintro ⟨a, ⟨ha1, rfl⟩, c, ⟨hc1, rfl⟩, rfl⟩
      exact ⟨_, ⟨hc1, rfl⟩, _, ⟨ha1, rfl⟩, by simp only [mkParameters]; ring⟩
    · rintro ⟨a, ⟨ha1, rfl⟩, c, ⟨hc1, rfl⟩, rfl⟩
      exact ⟨_, ⟨hc1, rfl⟩, _, ⟨ha1, rfl⟩, by simp only [mkParameters]; ring⟩
  refine ⟨fun a i j k c hi hj hc => transposeXY_apply a i j k c hi hj hc, ?_, key b⟩
  have hv : ∃ v, computeF2D true lv lm (mkParameters gamma Re g gy gz2) dt = Except.ok v := by
    have pu2 := run_production AdvectionOp.du2dx lv (mkParameters gamma Re g gy gz2) lm
    have puvy := run_production AdvectionOp.duvdy lv (mkParameters gamma Re g gy gz2) lm
    simp only [AdvectionOp.run] at pu2 puvy
    exact ⟨_, by simp only [computeF2D, pu2, puvy, bind, Except.bind, pure, Except.pure]; rfl⟩
  obtain ⟨v, hv⟩ := hv
  rw [hv, (key true v).mpr hv]

/-- C23: with `dx = dy = 1`, `dz = 2` in every cell, `u = 1` at the next cell along x and 0
elsewhere, `Re = 1`, `gamma = 0`, no body force and `dt = 1`, `computeF3D(lv, lm)` returns `3/4`
whereas `computeH3D(X lv, X lm)` returns 0, in both builds; `X` is the x/z swap of a cube.  The
viscous terms differ: `d2udx2(lv, lm) + d2udz2(lv, lm) = 1` but `d2wdz2(X lv, X lm) + d2wdx2(X lv,
X lm) = 1/4`, because the z-direction second derivatives read the x-spacings. -/
theorem computeH3D_is_not_swapped_computeF3D :
    (∀ n : Int, 0 ≤ n → n ≤ 80 → 0 < meshPerAxis 1 1 2 n)
    ∧ computeF3D true (cubeOnesAt [mapd 1 0 0 0]) (meshPerAxis 1 1 2) (mkParameters 0 1 0 0 0) 1
        = Except.ok (3 / 4)
    ∧ computeH3D true (swapXZ (cubeOnesAt [mapd 1 0 0 0])) (swapXZ (meshPerAxis 1 1 2))
        (mkParameters 0 1 0 0 0) 1 = Except.ok 0
    ∧ computeF3D false (cubeOnesAt [mapd 1 0 0 0]) (meshPerAxis 1 1 2) (mkParameters 0 1 0 0 0) 1
        = Except.ok (3 / 4)
    ∧ computeH3D false (swapXZ (cubeOnesAt [mapd 1 0 0 0])) (swapXZ (meshPerAxis 1 1 2))
        (mkParameters 0 1 0 0 0) 1 = Except.ok 0
    ∧ d2udx2 (cubeOnesAt [mapd 1 0 0 0]) (meshPerAxis 1 1 2)
        + d2udz2 (cubeOnesAt [mapd 1 0 0 0]) (meshPerAxis 1 1 2) = 1
    ∧ d2wdz2 (swapXZ (cubeOnesAt [mapd 1 0 0 0])) (swapXZ (meshPerAxis 1 1 2))
        + d2wdx2 (swapXZ (cubeOnesAt [mapd 1 0 0 0])) (swapXZ (meshPerAxis 1 1 2)) = 1 / 4 := by
  refine ⟨?_, ?_, ?_, ?_, ?_, ?_, ?_⟩
  · intro n _ _
    simp only [meshPerAxis]
    split_ifs <;> norm_num
  · norm_num [computeF3D, du2dx, du2dxLocals, duvdy, duvdyLocals, duwdz, duwdzLocals, d2udx2,
      d2udy2, d2udz2, mapd, cubeOnesAt, meshPerAxis, mkParameters, bind, Except.bind, pure,
      Except.pure]
  · norm_num [computeH3D, dw2dz, dw2dzLocals, duwdx, duwdxLocals, dvwdy, dvwdyLocals, d2wdx2,
      d2wdy2, d2wdz2, swapXZ, slotI, slotJ, slotK, slotC, swapComponent, mapd, cubeOnesAt,
      meshPerAxis, mkParameters, bind, Except.bind, pure, Except.pure]
  · norm_num [computeF3D, du2dx, du2dxLocals, duvdy, duvdyLocals, duwdz, duwdzLocals, d2udx2,
      d2udy2, d2udz2, mapd, cubeOnesAt, meshPerAxis, mkParameters, bind, Except.bind, pure,
      Except.pure]
  · norm_num [computeH3D, dw2dz, dw2dzLocals, duwdx, duwdxLocals, dvwdy, dvwdyLocals, d2wdx2,
      d2wdy2, d2wdz2, swapXZ, slotI, slotJ, slotK, slotC, swapComponent, mapd, cubeOnesAt,
      meshPerAxis, mkParameters, bind, Except.bind, pure, Except.pure]
  · norm_num [d2udx2, d2udz2, mapd, cubeOnesAt, meshPerAxis]
  · norm_num [d2wdx2, d2wdz2, swapXZ, slotI, slotJ, slotK, slotC, swapComponent, mapd,
      cubeOnesAt, meshPerAxis]

/-! ## Constant and planar flow -/

/-- The mixed-product shape vanishes, reference value included, when the transporting component
is 0 at the four places where it is read. -/
theorem crossLocals_no_transport (gamma b00 b10 bM10 dC dW dE eC eN : K) :
    (crossLocals gamma 0 0 b00 b10 0 0 bM10 dC dW dE eC eN).tmp1 = 0
    ∧ (crossLocals gamma 0 0 b00 b10 0 0 bM10 dC dW dE eC eN).tmp2 = 0 := by
  constructor <;> simp [crossLocals]

/-- The three-point formula vanishes on equal values when the spacings are positive. -/
theorem three_point_constant (f x0 x2 : K) (h0 : 0 < x0) (h2 : 0 < x2) :
    2 * (f / (x2 * (x2 + x0)) - f / (x0 * x2) + f / (x0 * (x0 + x2))) = 0 := by
  have : x0 + x2 ≠ 0 := by positivity
  have : x2 + x0 ≠ 0 := by positivity
  field_simp
  ring

/-- A spacing cube that is positive in the slots 0 to 80 is positive at every window position. -/
theorem pos_at_mapd (lm : Cube K) (hpos : ∀ n : Int, 0 ≤ n → n ≤ 80 → 0 < lm n)
    (i j k c : Int) (hi : -1 ≤ i ∧ i ≤ 1) (hj : -1 ≤ j ∧ j ≤ 1) (hk : -1 ≤ k ∧ k ≤ 1)
    (hc : 0 ≤ c ∧ c ≤ 2) : 0 < lm (mapd i j k c) :=
  hpos _ (by simp only [mapd]; omega) (by simp only [mapd]; omega)

/-- An advection operator whose reference and blended value are both 0 returns 0 in either
build. -/
theorem run_of_locals_zero (op : AdvectionOp) (b : Bool) (lv : Cube K) (p : Parameters K)
    (lm : Cube K) (h1 : (op.locals lv p lm).tmp1 = 0) (h2 : (op.locals lv p lm).tmp2 = 0) :
    op.run b lv p lm = Except.ok 0 := by
  rw [run_eq_ok_iff, h1, h2]
  norm_num

/-- C29: for planar flow the 3D u-predictor is the 2D one: when `w = 0` in all 27 cells and `u`
has the same value at the previous, centre and next cell along z, on strictly positive spacings,
`duwdz` returns 0 and `d2udz2` is 0, so `computeF3D(lv, lm) = computeF2D(lv, lm)` for every `Re`,
`gamma`, `gx` and `dt`, with or without the consistency check. -/
theorem computeF3D_planar (bld : Bool) (lv lm : Cube K) (p : Parameters K) (dt : K)
    (hw : ∀ i j k : Int, -1 ≤ i ∧ i ≤ 1 → -1 ≤ j ∧ j ≤ 1 → -1 ≤ k ∧ k ≤ 1 → lv (mapd i j k 2) = 0)
    (hum : lv (mapd 0 0 (-1) 0) = lv (mapd 0 0 0 0))
    (hup : lv (mapd 0 0 1 0) = lv (mapd 0 0 0 0))
    (hpos : ∀ n : Int, 0 ≤ n → n ≤ 80 → 0 < lm n) :
    duwdz bld lv p lm = Except.ok 0
    ∧ d2udz2 lv lm = 0
    ∧ computeF3D bld lv lm p dt = computeF2D bld lv lm p dt := by
  have z : (-1 : Int) ≤ 0 ∧ (0 : Int) ≤ 1 := by norm_num
  have o : (-1 : Int) ≤ 1 ∧ (1 : Int) ≤ 1 := by norm_num
  have m : (-1 : Int) ≤ -1 ∧ (-1 : Int) ≤ 1 := by norm_num
  have hl : (duwdzLocals lv p lm).tmp1 = 0 ∧ (duwdzLocals lv p lm).tmp2 = 0 := by
    simp only [duwdzLocals_shape, hw 0 0 0 z z z, hw 1 0 0 o z z, hw 0 0 (-1) z z m,
      hw 1 0 (-1) o z m]
    exact crossLocals_no_transport _ _ _ _ _ _ _ _ _
  have hr : duwdz bld lv p lm = Except.ok 0 :=
    run_of_locals_zero AdvectionOp.duwdz bld lv p lm hl.1 hl.2
  have hd : d2udz2 lv lm = 0 := by
    simp only [d2udz2, hum, hup]
    exact three_point_constant _ _ _
      (pos_at_mapd lm hpos _ _ _ _ (by norm_num) (by norm_num) (by norm_num) (by norm_num))
      (pos_at_mapd lm hpos _ _ _ _ (by norm_num) (by norm_num) (by norm_num) (by norm_num))
  refine ⟨hr, hd, ?_⟩
  simp only [computeF3D, computeF2D, hr, hd]
  cases du2dx bld lv p lm with
  | error e => rfl
  | ok x =>
    cases duvdy bld lv p lm with
    | error e => rfl
    | ok y => simp [bind, Except.bind, pure, Except.pure]

/-- Witness of C29: `u = 1` at the next cell along x, `v = 1` at the centre, `w = 0`, spacings
`dx = 1`, `dy = 2`, `dz = 3`, `Re = 1`, `gamma = 1/2`, `gx = 1`, `dt = 1`, in the build with the
consistency check: both assemblers return the same value. -/
theorem computeF3D_planar_witness :
    (∀ i j k : Int, -1 ≤ i ∧ i ≤ 1 → -1 ≤ j ∧ j ≤ 1 → -1 ≤ k ∧ k ≤ 1 →
        cubeOnesAt [mapd 1 0 0 0, mapd 0 0 0 1] (mapd i j k 2) = 0)
    ∧ (∀ n : Int, 0 ≤ n → n ≤ 80 → 0 < meshPerAxis 1 2 3 n)
    ∧ computeF3D false (cubeOnesAt [mapd 1 0 0 0, mapd 0 0 0 1]) (meshPerAxis 1 2 3)
        (mkParameters (1 / 2) 1 1 0 0) 1
      = computeF2D false (cubeOnesAt [mapd 1 0 0 0, mapd 0 0 0 1]) (meshPerAxis 1 2 3)
        (mkParameters (1 / 2) 1 1 0 0) 1
    ∧ computeF2D false (cubeOnesAt [mapd 1 0 0 0, mapd 0 0 0 1]) (meshPerAxis 1 2 3)
        (mkParameters (1 / 2) 1 1 0 0) 1 = Except.ok (15 / 8) := by
  have hw : ∀ i j k : Int, -1 ≤ i ∧ i ≤ 1 → -1 ≤ j ∧ j ≤ 1 → -1 ≤ k ∧ k ≤ 1 →
      cubeOnesAt [mapd 1 0 0 0, mapd 0 0 0 1] (mapd i j k 2) = 0 := by
    intro i j k _ _ _
    simp only [cubeOnesAt, mapd, List.mem_cons, List.mem_singleton, List.not_mem_nil, or_false]
    rw [if_neg (by omega)]
  have hpos : ∀ n : Int, 0 ≤ n → n ≤ 80 → 0 < meshPerAxis 1 2 3 n := by
    intro n _ _
    simp only [meshPerAxis]
    split_ifs <;> norm_num
  refine ⟨hw, hpos, (computeF3D_planar false _ _ _ 1 hw (by norm_num [cubeOnesAt, mapd])
    (by norm_num [cubeOnesAt, mapd]) hpos).2.2, ?_⟩
  have ha : |(1 / 2 : ℚ)| = 1 / 2 := abs_of_pos (by norm_num)
  norm_num [computeF2D, du2dx, du2dxLocals, duvdy, duvdyLocals, d2udx2, d2udy2, mapd,
    cubeOnesAt, meshPerAxis, mkParameters, bind, Except.bind, pure, Except.pure, ha]

/-! ## Consistency check on a mesh that is uniform along each axis -/

/-- On equal spacings along the axis of differentiation and equal transverse spacings the
reference value of the mixed-product shape equals its blended value. -/
theorem crossLocals_uniform (gamma a00 a01 b00 b10 aM10 aM11 bM10 d e : K) (hd : 0 < d)
    (he : 0 < e) :
    (crossLocals gamma a00 a01 b00 b10 aM10 aM11 bM10 d d d e e).tmp1
      = (crossLocals gamma a00 a01 b00 b10 aM10 aM11 bM10 d d d e e).tmp2 := by
  have hd0 : d ≠ 0 := ne_of_gt hd
  have he0 : e ≠ 0 := ne_of_gt he
  have we1 : (0.5 * (e + e) - 0.5 * e) / (0.5 * (e + e)) = (1 / 2 : K) := by
    norm_num; field_simp; ring
  have we2 : 0.5 * e / (0.5 * (e + e)) = (1 / 2 : K) := by
    norm_num; field_simp; ring
  have wd1 : (0.5 * (d + d) - 0.5 * d) / (0.5 * (d + d)) = (1 / 2 : K) := by
    norm_num; field_simp; ring
  have wd2 : 0.5 * d / (0.5 * (d + d)) = (1 / 2 : K) := by
    norm_num; field_simp; ring
  have half : ∀ x y : K, |1 / 2 * x + 1 / 2 * y| = 1 / 2 * |x + y| := by
    intro x y
    rw [← mul_add, abs_mul, abs_of_pos (by norm_num : (0 : K) < 1 / 2)]
  simp only [crossLocals, we1, we2, wd1, wd2, half]
  norm_num
  field_simp
  ring

/-- On equal spacings at the centre and the next cell the reference value of the square shape
equals its blended value. -/
theorem squareLocals_uniform (gamma u0 uM1 u1 d : K) (hd : 0 < d) :
    (squareLocals gamma u0 uM1 u1 d d).tmp1 = (squareLocals gamma u0 uM1 u1 d d).tmp2 := by
  have hd0 : d ≠ 0 := ne_of_gt hd
  have half : ∀ x : K, |x / 2| = |x| / 2 := by
    intro x
    rw [abs_div, abs_of_pos (by norm_num : (0 : K) < 2)]
  simp only [squareLocals, half]
  norm_num
  field_simp
  ring_nf

/-- On a mesh that is uniform along each axis the reference value of every advection operator
equals its blended value. -/
theorem tmp1_eq_tmp2_of_uniform (op : AdvectionOp) (lv : Cube K) (p : Parameters K)
    (lm : Cube K) (hx hy hz : K) (hhx : 0 < hx) (hhy : 0 < hy) (hhz : 0 < hz)
    (hmesh : ∀ i j k : Int, -1 ≤ i ∧ i ≤ 1 → -1 ≤ j ∧ j ≤ 1 → -1 ≤ k ∧ k ≤ 1 →
      lm (mapd i j k 0) = hx ∧ lm (mapd i j k 1) = hy ∧ lm (mapd i j k 2) = hz) :
    (op.locals lv p lm).tmp1 = (op.locals lv p lm).tmp2 := by
  have z : (-1 : Int) ≤ 0 ∧ (0 : Int) ≤ 1 := by norm_num
  have o : (-1 : Int) ≤ 1 ∧ (1 : Int) ≤ 1 := by norm_num
  have m : (-1 : Int) ≤ -1 ∧ (-1 : Int) ≤ 1 := by norm_num
  cases op
  · simp only [AdvectionOp.locals, duvdxLocals_shape, (hmesh 0 0 0 z z z).1,
      (hmesh (-1) 0 0 m z z).1, (hmesh 1 0 0 o z z).1, (hmesh 0 0 0 z z z).2.1,
      (hmesh 0 1 0 z o z).2.1]
    exact crossLocals_uniform _ _ _ _ _ _ _ _ _ _ (by assumption) (by assumption)
  · simp only [AdvectionOp.locals, duvdyLocals_shape, (hmesh 0 0 0 z z z).2.1,
      (hmesh 0 (-1) 0 z m z).2.1, (hmesh 0 1 0 z o z).2.1, (hmesh 0 0 0 z z z).1,
      (hmesh 1 0 0 o z z).1]
    exact crossLocals_uniform _ _ _ _ _ _ _ _ _ _ (by assumption) (by assumption)
  · simp only [AdvectionOp.locals, duwdxLocals_shape, (hmesh 0 0 0 z z z).1,
      (hmesh (-1) 0 0 m z z).1, (hmesh 1 0 0 o z z).1, (hmesh 0 0 0 z z z).2.2,
      (hmesh 0 0 1 z z o).2.2]
    exact crossLocals_uniform _ _ _ _ _ _ _ _ _ _ (by assumption) (by assumption)
  · simp only [AdvectionOp.locals, duwdzLocals_shape, (hmesh 0 0 0 z z z).2.2,
      (hmesh 0 0 (-1) z z m).2.2, (hmesh 0 0 1 z z o).2.2, (hmesh 0 0 0 z z z).1,
      (hmesh 1 0 0 o z z).1]
    exact crossLocals_uniform _ _ _ _ _ _ _ _ _ _ (by assumption) (by assumption)
  · simp only [AdvectionOp.locals, dvwdyLocals_shape, (hmesh 0 0 0 z z z).2.1,
      (hmesh 0 (-1) 0 z m z).2.1, (hmesh 0 1 0 z o z).2.1, (hmesh 0 0 0 z z z).2.2,
      (hmesh 0 0 1 z z o).2.2]
    exact crossLocals_uniform _ _ _ _ _ _ _ _ _ _ (by assumption) (by assumption)
  · simp only [AdvectionOp.locals, dvwdzLocals_shape, (hmesh 0 0 0 z z z).2.2,
      (hmesh 0 0 (-1) z z m).2.2, (hmesh 0 0 1 z z o).2.2, (hmesh 0 0 0 z z z).2.1,
      (hmesh 0 1 0 z o z).2.1]
    exact crossLocals_uniform _ _ _ _ _ _ _ _ _ _ (by assumption) (by assumption)
  · simp only [AdvectionOp.locals, du2dxLocals_shape, (hmesh 0 0 0 z z z).1, (hmesh 1 0 0 o z z).1]
    exact squareLocals_uniform _ _ _ _ _ (by assumption)
  · simp only [AdvectionOp.locals, dv2dyLocals_shape, (hmesh 0 0 0 z z z).2.1,
      (hmesh 0 1 0 z o z).2.1]
    exact squareLocals_uniform _ _ _ _ _ (by assumption)
  · simp only [AdvectionOp.locals, dw2dzLocals_shape, (hmesh 0 0 0 z z z).2.2,
      (hmesh 0 0 1 z z o).2.2]
    exact squareLocals_uniform _ _ _ _ _ (by assumption)

/-! ## The consistency check in double precision -/

/-- With the identity as rounding, the rounded embedding of every advection operator is its
exact embedding: the same local variables and the same result in both builds. -/
theorem rounded_id_is_exact (op : AdvectionOp) (b : Bool) (lv : Cube K) (p : Parameters K)
    (lm : Cube K) :
    op.localsRounded id lv p lm = op.locals lv p lm
    ∧ op.runRounded id b lv p lm = op.run b lv p lm := by
  cases op <;> exact ⟨rfl, rfl⟩

/-- In a production build every advection operator in rounded arithmetic returns its `tmp2`. -/
theorem runRounded_production (op : AdvectionOp) (fl : K → K) (lv : Cube K) (p : Parameters K)
    (lm : Cube K) :
    op.runRounded fl true lv p lm = Except.ok (op.localsRounded fl lv p lm).tmp2 := by
  cases op <;>
    simp [AdvectionOp.runRounded, AdvectionOp.localsRounded, duvdxRounded, duvdyRounded,
      duwdxRounded, duwdzRounded, dvwdyRounded, dvwdzRounded, du2dxRounded, dv2dyRounded,
      dw2dzRounded]

/-- Values of `binary64` that can be compared with the bit patterns of the doubles: `0.01` is
`0x147AE147AE147B * 2^-59`, `0.1` is `0x1999999999999A * 2^-56`, `0.9` is
`0x1CCCCCCCCCCCCD * 2^-53`; integers below `2^53` are kept, `2^53 + 1` is a tie and goes to the
even neighbour `2^53`, `2^53 + 3` to `2^53 + 4`; rounding is odd. -/
theorem binary64_values :
    binary64 0.01 = 5764607523034235 / 2 ^ 59
    ∧ binary64 0.1 = 7205759403792794 / 2 ^ 56
    ∧ binary64 0.9 = 8106479329266893 / 2 ^ 53
    ∧ binary64 1.0e-12 = 4951760157141521 / 2 ^ 92
    ∧ binary64 100 = 100 ∧ binary64 50 = 50 ∧ binary64 0 = 0
    ∧ binary64 (1 / 3) = 6004799503160661 / 2 ^ 54
    ∧ binary64 (2 ^ 53 + 1) = 2 ^ 53 ∧ binary64 (2 ^ 53 + 3) = 2 ^ 53 + 4
    ∧ binary64 (-(1 / 3)) = -(6004799503160661 / 2 ^ 54) := by
  decide!

/-- C27: in double precision the consistency check fails on a uniform mesh. For each of the nine
advection operators, on the spacing cube that holds the binary64 number `0.01` in every slot
(uniform along each axis, positive), with `gamma` the binary64 number `0.9` and the velocity cube
`largeVelocity` (values 100, 50 and 0), binary64 arithmetic gives `tmp1 = 25000` and
`tmp2 = 25000 - 2^-37`, about `24999.999999999993`; their difference exceeds `1.0e-12`, so the
build with the check throws (`duvdx` throws `Error in duvdx`) where the production build returns
`tmp2`. In exact arithmetic `tmp1` and `tmp2` are equal on the same input, so the failure of the
check comes from rounding alone. -/
theorem consistency_check_fails_on_uniform_mesh :
    ((∀ n m : Int, fineUniformMesh n = fineUniformMesh m) ∧ 0 < fineUniformMesh 0
      ∧ binary64 (fineUniformMesh 0) = fineUniformMesh 0
      ∧ binary64 blendedParameters.solver.gamma = blendedParameters.solver.gamma
      ∧ binary64 100 = 100 ∧ binary64 50 = 50)
    ∧ duvdxRounded binary64 false (largeVelocity AdvectionOp.duvdx) blendedParameters
        fineUniformMesh = Except.error "Error in duvdx"
    ∧ ∀ op : AdvectionOp,
      (op.localsRounded binary64 (largeVelocity op) blendedParameters fineUniformMesh).tmp1
          = 25000
      ∧ (op.localsRounded binary64 (largeVelocity op) blendedParameters fineUniformMesh).tmp2
          = 25000 - 1 / 2 ^ 37
      ∧ (∃ msg, op.runRounded binary64 false (largeVelocity op) blendedParameters fineUniformMesh
          = Except.error msg)
      ∧ op.runRounded binary64 true (largeVelocity op) blendedParameters fineUniformMesh
          = Except.ok (25000 - 1 / 2 ^ 37)
      ∧ (op.locals (largeVelocity op) blendedParameters fineUniformMesh).tmp1
          = (op.locals (largeVelocity op) blendedParameters fineUniformMesh).tmp2 := by
  have hpos : (0 : ℚ) < binary64 0.01 := by decide!
  have hgt : ∀ op : AdvectionOp,
      |binary64 ((op.localsRounded binary64 (largeVelocity op) blendedParameters
          fineUniformMesh).tmp1
        - (op.localsRounded binary64 (largeVelocity op) blendedParameters
          fineUniformMesh).tmp2)| > binary64 1.0e-12 := by
    intro op
    cases op <;> decide!
  have h2 : ∀ op : AdvectionOp,
      (op.localsRounded binary64 (largeVelocity op) blendedParameters fineUniformMesh).tmp2
        = 25000 - 1 / 2 ^ 37 := by
    intro op
    cases op <;> decide!
  refine ⟨⟨fun _ _ => rfl, hpos, by decide!, by decide!, by decide!, by decide!⟩,
    if_pos ⟨rfl, hgt AdvectionOp.duvdx⟩, fun op => ⟨?_, h2 op, ?_, ?_, ?_⟩⟩
  · cases op <;> decide!
  · cases op
    · exact ⟨_, if_pos ⟨rfl, hgt AdvectionOp.duvdx⟩⟩
    · exact ⟨_, if_pos ⟨rfl, hgt AdvectionOp.duvdy⟩⟩
    · exact ⟨_, if_pos ⟨rfl, hgt AdvectionOp.duwdx⟩⟩
    · exact ⟨_, if_pos ⟨rfl, hgt AdvectionOp.duwdz⟩⟩
    · exact ⟨_, if_pos ⟨rfl, hgt AdvectionOp.dvwdy⟩⟩
    · exact ⟨_, if_pos ⟨rfl, hgt AdvectionOp.dvwdz⟩⟩
    · exact ⟨_, if_pos ⟨rfl, hgt AdvectionOp.du2dx⟩⟩
    · exact ⟨_, if_pos ⟨rfl, hgt AdvectionOp.dv2dy⟩⟩
    · exact ⟨_, if_pos ⟨rfl, hgt AdvectionOp.dw2dz⟩⟩
  · exact (runRounded_production op binary64 _ _ _).trans (congrArg Except.ok (h2 op))
  · exact tmp1_eq_tmp2_of_uniform op (largeVelocity op) blendedParameters fineUniformMesh
      (binary64 0.01) (binary64 0.01) (binary64 0.01) hpos hpos hpos
      (fun _ _ _ _ _ _ => ⟨rfl, rfl, rfl⟩)

/-- In double precision the blended value of `duvdx` for the constant flow `u = v = 10` with
`gamma = 0` on a positive stretched mesh (`dx = 0.01` at the centre, `0.3` at the east neighbour)
is the rounding residue `-25 * 2^-44`, about `-1.42e-12`, where the reference value is 0: the
production build returns the residue and the build with the check throws. -/
theorem constant_flow_residue_in_binary64 :
    (duvdxLocalsRounded binary64 (constantFlow 10 10 0) (mkParameters 0 1 0 0 0)
        stretchedFineMesh).tmp1 = 0
    ∧ (duvdxLocalsRounded binary64 (constantFlow 10 10 0) (mkParameters 0 1 0 0 0)
        stretchedFineMesh).tmp2 = -(25 / 2 ^ 44)
    ∧ duvdxRounded binary64 false (constantFlow 10 10 0) (mkParameters 0 1 0 0 0)
        stretchedFineMesh = Except.error "Error in duvdx"
    ∧ duvdxRounded binary64 true (constantFlow 10 10 0) (mkParameters 0 1 0 0 0)
        stretchedFineMesh = Except.ok (-(25 / 2 ^ 44)) := by
  have h2 : (duvdxLocalsRounded binary64 (constantFlow 10 10 0) (mkParameters 0 1 0 0 0)
      stretchedFineMesh).tmp2 = -(25 / 2 ^ 44) := by decide!
  exact ⟨by decide!, h2, if_pos ⟨rfl, by decide!⟩,
    (runRounded_production AdvectionOp.duvdx binary64 _ _ _).trans (congrArg Except.ok h2)⟩

/-! ## Exactness of the three-point formula -/

/-- C30: the non-uniform three-point formula is exact for quadratics: if `lm[mapd(0,0,0,0)] =
hm`, `lm[mapd(1,0,0,0)] = hp` with `hm, hp > 0` and the `u` values at the previous, centre and
next cell along x are `q(-hm)`, `q(0)`, `q(hp)` for `q(x) = a*x^2 + b*x + c`, then `d2udx2`
returns exactly `2*a`. -/
theorem d2udx2_exact_on_quadratics (lv lm : Cube K) (a b c hm hp : K) (hhm : 0 < hm)
    (hhp : 0 < hp) (hlm0 : lm (mapd 0 0 0 0) = hm) (hlm1 : lm (mapd 1 0 0 0) = hp)
    (hprev : lv (mapd (-1) 0 0 0) = a * (-hm) ^ 2 + b * (-hm) + c)
    (hcentre : lv (mapd 0 0 0 0) = a * 0 ^ 2 + b * 0 + c)
    (hnext : lv (mapd 1 0 0 0) = a * hp ^ 2 + b * hp + c) :
    d2udx2 lv lm = 2 * a := by
  have h1 : hm ≠ 0 := ne_of_gt hhm
  have h2 : hp ≠ 0 := ne_of_gt hhp
  have h3 : hp + hm ≠ 0 := by positivity
  have h4 : hm + hp ≠ 0 := by positivity
  simp only [d2udx2, hlm0, hlm1, hprev, hcentre, hnext]
  field_simp
  ring

/-- Witness of C30: `q(x) = 3*x^2 + 5*x + 7` on the spacings `hm = 1`, `hp = 2`, so that the
three `u` values are 5, 7 and 29, and `d2udx2` returns 6. -/
theorem d2udx2_exact_on_quadratics_witness :
    ((0 : ℚ) < 1 ∧ (0 : ℚ) < 2)
    ∧ meshOneExcept (mapd 1 0 0 0) 2 (mapd 0 0 0 0) = 1
    ∧ meshOneExcept (mapd 1 0 0 0) 2 (mapd 1 0 0 0) = 2
    ∧ cubeTwoValues 5 [mapd (-1) 0 0 0] 29 [mapd 1 0 0 0] (mapd (-1) 0 0 0) = 5
    ∧ d2udx2 (fun n => cubeTwoValues 5 [mapd (-1) 0 0 0] 29 [mapd 1 0 0 0] n
        + cubeOnesAt [mapd 0 0 0 0] n * 7) (meshOneExcept (mapd 1 0 0 0) 2) = 6 := by
  have h := d2udx2_exact_on_quadratics
    (fun n => cubeTwoValues 5 [mapd (-1) 0 0 0] 29 [mapd 1 0 0 0] n
      + cubeOnesAt [mapd 0 0 0 0] n * 7) (meshOneExcept (mapd 1 0 0 0) 2) 3 5 7 1 2
    (by norm_num) (by norm_num) (by norm_num [meshOneExcept, mapd])
    (by norm_num [meshOneExcept, mapd]) (by norm_num [cubeTwoValues, cubeOnesAt, mapd])
    (by norm_num [cubeTwoValues, cubeOnesAt, mapd]) (by norm_num [cubeTwoValues, cubeOnesAt, mapd])
  refine ⟨by norm_num, by norm_num [meshOneExcept, mapd], by norm_num [meshOneExcept, mapd],
    by norm_num [cubeTwoValues, mapd], ?_⟩
  rw [h]; norm_num

/-! ## Divisions and buffer reads -/

/-- C25: under strictly positive spacings and `Re > 0` every denominator of a division in a
first-derivative, second-derivative or blended advection operator or in an assembler is strictly
positive (`lm[centre]`, `x2*(x2+x0)`, `x0*x2`, `x0*(x0+x2)`, every `hLong`, `2*hShort`,
`4*hShort`, `4*dLong1`, `Re` and the literal constants), and every buffer index read is
`mapd(i,j,k,c)` with `i, j, k ∈ {-1,0,1}` and `c ∈ {0,1,2}`, hence within `0..80`. -/
theorem denominators_positive_and_reads_in_window (f : StencilFunction) (lm : Cube K)
    (p : Parameters K) (hpos : ∀ n : Int, 0 ≤ n → n ≤ 80 → 0 < lm n) (hRe : 0 < p.flow.Re) :
    (∀ d ∈ f.denominators lm p, 0 < d)
    ∧ (∀ r ∈ f.reads,
        (-1 ≤ r.1 ∧ r.1 ≤ 1) ∧ (-1 ≤ r.2.1 ∧ r.2.1 ≤ 1) ∧ (-1 ≤ r.2.2.1 ∧ r.2.2.1 ≤ 1)
        ∧ (0 ≤ r.2.2.2 ∧ r.2.2.2 ≤ 2)
        ∧ 0 ≤ mapd r.1 r.2.1 r.2.2.1 r.2.2.2 ∧ mapd r.1 r.2.1 r.2.2.1 r.2.2.2 ≤ 80) := by
  have P := fun i j k c hi hj hk hc => pos_at_mapd lm hpos i j k c hi hj hk hc
  have z : (-1 : Int) ≤ 0 ∧ (0 : Int) ≤ 1 := by norm_num
  have o : (-1 : Int) ≤ 1 ∧ (1 : Int) ≤ 1 := by norm_num
  have m : (-1 : Int) ≤ -1 ∧ (-1 : Int) ≤ 1 := by norm_num
  have c0 : (0 : Int) ≤ 0 ∧ (0 : Int) ≤ 2 := by norm_num
  have c1 : (0 : Int) ≤ 1 ∧ (1 : Int) ≤ 2 := by norm_num
  have c2 : (0 : Int) ≤ 2 ∧ (2 : Int) ≤ 2 := by norm_num
  have p1 := P 0 0 0 0 z z z c0
  have p2 := P 0 0 0 1 z z z c1
  have p3 := P 0 0 0 2 z z z c2
  have p4 := P 1 0 0 0 o z z c0
  have p5 := P (-1) 0 0 0 m z z c0
  have p6 := P 0 1 0 1 z o z c1
  have p7 := P 0 (-1) 0 1 z m z c1
  have p8 := P 0 0 1 2 z z o c2
  have p9 := P 0 0 (-1) 2 z z m c2
  have p10 := P 0 0 1 0 z z o c0
  constructor
  · cases f <;>
      simp only [StencilFunction.denominators, dudxDenominators, dvdyDenominators,
        dwdzDenominators, d2udx2Denominators, d2vdx2Denominators, d2wdx2Denominators,
        d2udy2Denominators, d2vdy2Denominators, d2wdy2Denominators, d2udz2Denominators,
        d2vdz2Denominators, d2wdz2Denominators, duvdxDenominators, duvdyDenominators,
        duwdxDenominators, duwdzDenominators, dvwdyDenominators, dvwdzDenominators,
        du2dxDenominators, dv2dyDenominators, dw2dzDenominators, computeF2DDenominators,
        computeG2DDenominators, computeF3DDenominators, computeG3DDenominators,
        computeH3DDenominators, List.forall_mem_cons, List.not_mem_nil, false_imp_iff,
        implies_true, and_true] <;>
      (try and_intros) <;>
      first
      | assumption
      | positivity
  · cases f <;> decide

/-- Witness of C25: `duvdx` on the spacing cube that is 1 everywhere except 3 at the next cell
along x, with `Re = 100`: all its denominators are positive and `4*hxShort = 2`. -/
theorem denominators_positive_and_reads_in_window_witness :
    (∀ n : Int, 0 ≤ n → n ≤ 80 → 0 < meshOneExcept (mapd 1 0 0 0) 3 n)
    ∧ 0 < (mkParameters (0 : ℚ) 100 0 0 0).flow.Re
    ∧ (∀ d ∈ StencilFunction.duvdx.denominators (meshOneExcept (mapd 1 0 0 0) 3)
        (mkParameters 0 100 0 0 0), 0 < d)
    ∧ (4.0 * (0.5 * meshOneExcept (mapd 1 0 0 0) 3 (mapd 0 0 0 0)) : ℚ)
        ∈ StencilFunction.duvdx.denominators (meshOneExcept (mapd 1 0 0 0) 3)
          (mkParameters 0 100 0 0 0)
    ∧ (4.0 * (0.5 * meshOneExcept (mapd 1 0 0 0) 3 (mapd 0 0 0 0)) : ℚ) = 2 := by
  have hpos : ∀ n : Int, 0 ≤ n → n ≤ 80 → 0 < meshOneExcept (mapd 1 0 0 0) 3 n := by
    intro n _ _
    simp only [meshOneExcept]
    split_ifs <;> norm_num
  have hRe : 0 < (mkParameters (0 : ℚ) 100 0 0 0).flow.Re := by norm_num [mkParameters]
  refine ⟨hpos, hRe, (denominators_positive_and_reads_in_window StencilFunction.duvdx
    (meshOneExcept (mapd 1 0 0 0) 3) (mkParameters 0 100 0 0 0) hpos hRe).1, ?_, ?_⟩
  · simp [StencilFunction.denominators, duvdxDenominators]
  · norm_num [meshOneExcept, mapd]

/-! ## Dependence of the 2D assemblers on the buffers -/

/-- C28: `computeF2D` and `computeG2D` depend only on the 18 slots that the 2D loaders write: on
two velocity cubes and two spacing cubes that agree at every `mapd(di,dj,0,c)` with `di, dj ∈
{-1,0,1}` and `c ∈ {0,1}` they give the same result, value or failure, for the same parameters
and `dt`. -/
theorem assemblers2D_depend_on_window (bld : Bool) (lv lv2 lm lm2 : Cube K) (p : Parameters K)
    (dt : K)
    (hlv : ∀ di dj c : Int, -1 ≤ di ∧ di ≤ 1 → -1 ≤ dj ∧ dj ≤ 1 → 0 ≤ c ∧ c ≤ 1 →
      lv (mapd di dj 0 c) = lv2 (mapd di dj 0 c))
    (hlm : ∀ di dj c : Int, -1 ≤ di ∧ di ≤ 1 → -1 ≤ dj ∧ dj ≤ 1 → 0 ≤ c ∧ c ≤ 1 →
      lm (mapd di dj 0 c) = lm2 (mapd di dj 0 c)) :
    computeF2D bld lv lm p dt = computeF2D bld lv2 lm2 p dt
    ∧ computeG2D bld lv lm p dt = computeG2D bld lv2 lm2 p dt := by
  have z : (-1 : Int) ≤ 0 ∧ (0 : Int) ≤ 1 := by norm_num
  have o : (-1 : Int) ≤ 1 ∧ (1 : Int) ≤ 1 := by norm_num
  have m : (-1 : Int) ≤ -1 ∧ (-1 : Int) ≤ 1 := by norm_num
  have c0 : (0 : Int) ≤ 0 ∧ (0 : Int) ≤ 1 := by norm_num
  have c1 : (0 : Int) ≤ 1 ∧ (1 : Int) ≤ 1 := by norm_num
  have eu2 : du2dxLocals lv p lm = du2dxLocals lv2 p lm2 := by
    simp only [du2dxLocals_shape, hlv 0 0 0 z z c0, hlv (-1) 0 0 m z c0, hlv 1 0 0 o z c0,
      hlm 0 0 0 z z c0, hlm 1 0 0 o z c0]
  have ev2 : dv2dyLocals lv p lm = dv2dyLocals lv2 p lm2 := by
    simp only [dv2dyLocals_shape, hlv 0 0 1 z z c1, hlv 0 (-1) 1 z m c1, hlv 0 1 1 z o c1,
      hlm 0 0 1 z z c1, hlm 0 1 1 z o c1]
  have euvx : duvdxLocals lv p lm = duvdxLocals lv2 p lm2 := by
    simp only [duvdxLocals_shape, hlv 0 0 0 z z c0, hlv 0 1 0 z o c0, hlv 0 0 1 z z c1,
      hlv 1 0 1 o z c1, hlv (-1) 0 0 m z c0, hlv (-1) 1 0 m o c0, hlv (-1) 0 1 m z c1,
      hlm 0 0 0 z z c0, hlm (-1) 0 0 m z c0, hlm 1 0 0 o z c0, hlm 0 0 1 z z c1,
      hlm 0 1 1 z o c1]
  have euvy : duvdyLocals lv p lm = duvdyLocals lv2 p lm2 := by
    simp only [duvdyLocals_shape, hlv 0 0 1 z z c1, hlv 1 0 1 o z c1, hlv 0 0 0 z z c0,
      hlv 0 1 0 z o c0, hlv 0 (-1) 1 z m c1, hlv 1 (-1) 1 o m c1, hlv 0 (-1) 0 z m c0,
      hlm 0 0 1 z z c1, hlm 0 (-1) 1 z m c1, hlm 0 1 1 z o c1, hlm 0 0 0 z z c0,
      hlm 1 0 0 o z c0]
  have ru2 : du2dx bld lv p lm = du2dx bld lv2 p lm2 := by simp only [du2dx, eu2]
  have rv2 : dv2dy bld lv p lm = dv2dy bld lv2 p lm2 := by simp only [dv2dy, ev2]
  have ruvx : duvdx bld lv p lm = duvdx bld lv2 p lm2 := by simp only [duvdx, euvx]
  have ruvy : duvdy bld lv p lm = duvdy bld lv2 p lm2 := by simp only [duvdy, euvy]
  have d1 : d2udx2 lv lm = d2udx2 lv2 lm2 := by
    simp only [d2udx2, hlv 0 0 0 z z c0, hlv (-1) 0 0 m z c0, hlv 1 0 0 o z c0,
      hlm 0 0 0 z z c0, hlm 1 0 0 o z c0]
  have d2 : d2udy2 lv lm = d2udy2 lv2 lm2 := by
    simp only [d2udy2, hlv 0 0 0 z z c0, hlv 0 (-1) 0 z m c0, hlv 0 1 0 z o c0,
      hlm 0 0 1 z z c1, hlm 0 1 1 z o c1]
  have d3 : d2vdx2 lv lm = d2vdx2 lv2 lm2 := by
    simp only [d2vdx2, hlv 0 0 1 z z c1, hlv (-1) 0 1 m z c1, hlv 1 0 1 o z c1,
      hlm 0 0 0 z z c0, hlm 1 0 0 o z c0]
  have d4 : d2vdy2 lv lm = d2vdy2 lv2 lm2 := by
    simp only [d2vdy2, hlv 0 0 1 z z c1, hlv 0 (-1) 1 z m c1, hlv 0 1 1 z o c1,
      hlm 0 0 1 z z c1, hlm 0 1 1 z o c1]
  constructor
  · simp only [computeF2D, ru2, ruvy, d1, d2, hlv 0 0 0 z z c0]
  · simp only [computeG2D, ruvx, rv2, d3, d4, hlv 0 0 1 z z c1]

/-- Witness of C28: two velocity cubes with `u = 1` at the next cell along x that differ at
`mapd(0,0,1,0)` and `mapd(0,0,0,2)`, and two spacing cubes with `dx = dy = 1` that differ in `dz`
(1 and 5): they agree on the 2D window and `computeF2D` returns `3/4` on both. -/
theorem assemblers2D_depend_on_window_witness :
    (∀ di dj c : Int, -1 ≤ di ∧ di ≤ 1 → -1 ≤ dj ∧ dj ≤ 1 → 0 ≤ c ∧ c ≤ 1 →
        cubeOnesAt [mapd 1 0 0 0] (mapd di dj 0 c)
          = cubeOnesAt [mapd 1 0 0 0, mapd 0 0 1 0, mapd 0 0 0 2] (mapd di dj 0 c))
    ∧ (∀ di dj c : Int, -1 ≤ di ∧ di ≤ 1 → -1 ≤ dj ∧ dj ≤ 1 → 0 ≤ c ∧ c ≤ 1 →
        meshPerAxis 1 1 1 (mapd di dj 0 c) = meshPerAxis 1 1 5 (mapd di dj 0 c))
    ∧ cubeOnesAt [mapd 1 0 0 0] (mapd 0 0 1 0)
        ≠ cubeOnesAt [mapd 1 0 0 0, mapd 0 0 1 0, mapd 0 0 0 2] (mapd 0 0 1 0)
    ∧ computeF2D false (cubeOnesAt [mapd 1 0 0 0]) (meshPerAxis 1 1 1) (mkParameters 0 1 0 0 0) 1
        = Except.ok (3 / 4)
    ∧ computeF2D false (cubeOnesAt [mapd 1 0 0 0, mapd 0 0 1 0, mapd 0 0 0 2])
        (meshPerAxis 1 1 5) (mkParameters 0 1 0 0 0) 1 = Except.ok (3 / 4) := by
  have hlv : ∀ di dj c : Int, -1 ≤ di ∧ di ≤ 1 → -1 ≤ dj ∧ dj ≤ 1 → 0 ≤ c ∧ c ≤ 1 →
      cubeOnesAt [mapd 1 0 0 0] (mapd di dj 0 c)
        = cubeOnesAt [mapd 1 0 0 0, mapd 0 0 1 0, mapd 0 0 0 2] (mapd di dj 0 c) := by
    intro di dj c _ _ _
    simp only [cubeOnesAt, mapd, List.mem_cons, List.mem_singleton, List.not_mem_nil, or_false]
    have h1 : ¬ (39 + 27 * 0 + 9 * dj + 3 * di + c = 39 + 27 * 1 + 9 * 0 + 3 * 0 + 0) := by omega
    have h2 : ¬ (39 + 27 * 0 + 9 * dj + 3 * di + c = 39 + 27 * 0 + 9 * 0 + 3 * 0 + 2) := by omega
    simp only [h1, h2, or_false]
  have hlm : ∀ di dj c : Int, -1 ≤ di ∧ di ≤ 1 → -1 ≤ dj ∧ dj ≤ 1 → 0 ≤ c ∧ c ≤ 1 →
      meshPerAxis 1 1 1 (mapd di dj 0 c) = meshPerAxis 1 1 5 (mapd di dj 0 c) := by
    intro di dj c _ _ hc
    have hc01 : c = 0 ∨ c = 1 := by omega
    rcases hc01 with rfl | rfl
    · have e : mapd di dj 0 0 % 3 = 0 := by simp only [mapd]; omega
      simp [meshPerAxis, e]
    · have e : mapd di dj 0 1 % 3 = 1 := by simp only [mapd]; omega
      simp [meshPerAxis, e]
  have h := (assemblers2D_depend_on_window false (cubeOnesAt [mapd 1 0 0 0])
    (cubeOnesAt [mapd 1 0 0 0, mapd 0 0 1 0, mapd 0 0 0 2]) (meshPerAxis 1 1 1)
    (meshPerAxis 1 1 5) (mkParameters 0 1 0 0 0) 1 hlv hlm).1
  have hv : computeF2D false (cubeOnesAt [mapd 1 0 0 0]) (meshPerAxis 1 1 1)
      (mkParameters 0 1 0 0 0) 1 = Except.ok (3 / 4) := by
    norm_num [computeF2D, du2dx, du2dxLocals, duvdy, duvdyLocals, d2udx2, d2udy2, mapd,
      cubeOnesAt, meshPerAxis, mkParameters, bind, Except.bind, pure, Except.pure]
  refine ⟨hlv, hlm, by norm_num [cubeOnesAt, mapd], hv, ?_⟩
  rw [← h, hv]

/-! ## The blending coefficient is not clamped -/

/-- C26, counterexample: on the unit mesh with `u(0,0) = u(0,1) = v(1,0) = 1`, where the
second-order estimate of `duvdx` is `1/2` and the first-order estimate is 0, `duvdx` returns
`-1/2` for `gamma = 2` but 0 for `gamma = 1`, and 1 for `gamma = -1` but `1/2` for `gamma = 0`;
neither `-1/2` nor 1 lies between the two estimates. -/
theorem gamma_clamp_counterexample :
    duvdx true (cubeOnesAt [mapd 0 0 0 0, mapd 0 1 0 0, mapd 1 0 0 1]) (mkParameters 2 1 0 0 0)
        (meshPerAxis 1 1 1)
      ≠ duvdx true (cubeOnesAt [mapd 0 0 0 0, mapd 0 1 0 0, mapd 1 0 0 1])
        (mkParameters 1 1 0 0 0) (meshPerAxis 1 1 1)
    ∧ duvdx true (cubeOnesAt [mapd 0 0 0 0, mapd 0 1 0 0, mapd 1 0 0 1])
          (mkParameters (-1) 1 0 0 0) (meshPerAxis 1 1 1)
      ≠ duvdx true (cubeOnesAt [mapd 0 0 0 0, mapd 0 1 0 0, mapd 1 0 0 1])
        (mkParameters 0 1 0 0 0) (meshPerAxis 1 1 1)
    ∧ duvdx true (cubeOnesAt [mapd 0 0 0 0, mapd 0 1 0 0, mapd 1 0 0 1]) (mkParameters 2 1 0 0 0)
        (meshPerAxis 1 1 1) = Except.ok (-1 / 2)
    ∧ duvdx true (cubeOnesAt [mapd 0 0 0 0, mapd 0 1 0 0, mapd 1 0 0 1])
        (mkParameters (-1) 1 0 0 0) (meshPerAxis 1 1 1) = Except.ok 1
    ∧ (duvdxLocals (cubeOnesAt [mapd 0 0 0 0, mapd 0 1 0 0, mapd 1 0 0 1])
        (mkParameters 2 1 0 0 0) (meshPerAxis 1 1 1)).secondOrder = 1 / 2
    ∧ (duvdxLocals (cubeOnesAt [mapd 0 0 0 0, mapd 0 1 0 0, mapd 1 0 0 1])
        (mkParameters 2 1 0 0 0) (meshPerAxis 1 1 1)).firstOrder = 0 := by
  refine ⟨?_, ?_, ?_, ?_, ?_, ?_⟩ <;>
    norm_num [duvdx, duvdxLocals, mapd, cubeOnesAt, meshPerAxis, mkParameters]

/-- C26, amended: the advection operators do not clamp `gamma`.  The two estimates do not depend
on `gamma`, and for every `gamma` the operator returns `(1 - gamma)*secondOrder +
gamma*firstOrder`: this is `firstOrder + (gamma - 1)*(firstOrder - secondOrder)`, the value at
`gamma = 1` plus an excess, and `secondOrder + gamma*(firstOrder - secondOrder)`, the value at
`gamma = 0` plus an excess; it lies between the two estimates when `0 <= gamma <= 1`. -/
theorem gamma_is_not_clamped (op : AdvectionOp) (lv : Cube K) (p : Parameters K) (lm : Cube K)
    (g : K) :
    ((op.locals lv (withGamma p g) lm).secondOrder = (op.locals lv p lm).secondOrder
      ∧ (op.locals lv (withGamma p g) lm).firstOrder = (op.locals lv p lm).firstOrder)
    ∧ op.run true lv (withGamma p g) lm
        = Except.ok ((1 - g) * (op.locals lv p lm).secondOrder + g * (op.locals lv p lm).firstOrder)
    ∧ op.run true lv (withGamma p 1) lm = Except.ok (op.locals lv p lm).firstOrder
    ∧ op.run true lv (withGamma p 0) lm = Except.ok (op.locals lv p lm).secondOrder
    ∧ (1 - g) * (op.locals lv p lm).secondOrder + g * (op.locals lv p lm).firstOrder
        = (op.locals lv p lm).firstOrder
          + (g - 1) * ((op.locals lv p lm).firstOrder - (op.locals lv p lm).secondOrder)
    ∧ (1 - g) * (op.locals lv p lm).secondOrder + g * (op.locals lv p lm).firstOrder
        = (op.locals lv p lm).secondOrder
          + g * ((op.locals lv p lm).firstOrder - (op.locals lv p lm).secondOrder)
    ∧ (0 ≤ g → g ≤ 1 →
        min (op.locals lv p lm).secondOrder (op.locals lv p lm).firstOrder
            ≤ (1 - g) * (op.locals lv p lm).secondOrder + g * (op.locals lv p lm).firstOrder
        ∧ (1 - g) * (op.locals lv p lm).secondOrder + g * (op.locals lv p lm).firstOrder
            ≤ max (op.locals lv p lm).secondOrder (op.locals lv p lm).firstOrder) := by
  have hs : ∀ g2 : K,
      (op.locals lv (withGamma p g2) lm).secondOrder = (op.locals lv p lm).secondOrder
      ∧ (op.locals lv (withGamma p g2) lm).firstOrder = (op.locals lv p lm).firstOrder := by
    intro g2
    cases op <;> exact ⟨rfl, rfl⟩
  have hrun : ∀ g2 : K, op.run true lv (withGamma p g2) lm
      = Except.ok ((1 - g2) * (op.locals lv p lm).secondOrder
          + g2 * (op.locals lv p lm).firstOrder) := by
    intro g2
    rw [run_production, tmp2_eq, (hs g2).1, (hs g2).2]
    rfl
  refine ⟨hs g, hrun g, ?_, ?_, by ring, by ring, ?_⟩
  · rw [hrun 1]; congr 1; ring
  · rw [hrun 0]; congr 1; ring
  · intro h0 h1
    exact (blend_between g _ _ h0 h1).1

/-! ## Face fluxes of neighbouring cells -/

/-- After `loadLocalVelocity2D` the slot `mapd(di,dj,0,c)` holds component `c` of the velocity at
`(i+di, j+dj)`. -/
theorem loadLocalVelocity2D_at {V : Type} (getVector : Int → Int → Int → V) (buf : Cube V)
    (i j di dj c : Int) (hi : -1 ≤ di ∧ di ≤ 1) (hj : -1 ≤ dj ∧ dj ≤ 1) (hc : 0 ≤ c ∧ c ≤ 1) :
    loadLocalVelocity2D getVector buf i j (mapd di dj 0 c) = getVector (i + di) (j + dj) c := by
  have hv : ((loadLocalVelocity2DWrites getVector i j).map Prod.fst).Nodup := by
    rw [velocity2D_slots]; decide
  apply foldl_store_of_mem _ _ _ _ hv
  simp only [loadLocalVelocity2DWrites, List.mem_flatMap]
  refine ⟨dj, by simp; omega, di, by simp; omega, ?_⟩
  have h01 : c = 0 ∨ c = 1 := by omega
  rcases h01 with rfl | rfl <;> simp [mapd]

/-- After `loadLocalMeshsize2D` the slots `mapd(di,dj,0,0)` and `mapd(di,dj,0,1)` hold `getDx`
and `getDy` of the cell `(i+di, j+dj)`. -/
theorem loadLocalMeshsize2D_at {V : Type} (getDx getDy : Int → Int → V) (buf : Cube V)
    (i j di dj : Int) (hi : -1 ≤ di ∧ di ≤ 1) (hj : -1 ≤ dj ∧ dj ≤ 1) :
    loadLocalMeshsize2D getDx getDy buf i j (mapd di dj 0 0) = getDx (i + di) (j + dj)
    ∧ loadLocalMeshsize2D getDx getDy buf i j (mapd di dj 0 1) = getDy (i + di) (j + dj) := by
  have hm : ((loadLocalMeshsize2DWrites getDx getDy i j).map Prod.fst).Nodup := by
    rw [meshsize2D_slots]; decide
  constructor <;>
  · apply foldl_store_of_mem _ _ _ _ hm
    simp only [loadLocalMeshsize2DWrites, List.mem_flatMap]
    refine ⟨dj, by simp; omega, di, by simp; omega, ?_⟩
    simp [mapd]

/-- C31: the face fluxes of the centred scheme are consistent between neighbouring cells: for
every 2D velocity field, every mesh whose `getDy` depends only on `j`, every cell `(i,j)` and
whatever the buffers held before, with the cubes loaded by `loadLocalVelocity2D` and
`loadLocalMeshsize2D`, the interpolated east-face product of `duvdx` at the cell `(i,j)` equals
its interpolated west-face product at the cell `(i+1,j)`; the two products are the ones whose
difference `secondOrder` of `duvdx` divides by `2*hxShort`, and on a strictly positive mesh the
long spacings that the two products divide by are strictly positive. -/
theorem face_flux_consistency (getVector : Int → Int → Int → K) (getDx getDy : Int → Int → K)
    (bufV bufM bufV2 bufM2 : Cube K) (i j : Int)
    (hdy : ∀ a b n : Int, getDy a n = getDy b n) :
    duvdxEastFace (loadLocalVelocity2D getVector bufV i j)
        (loadLocalMeshsize2D getDx getDy bufM i j)
      = duvdxWestFace (loadLocalVelocity2D getVector bufV2 (i + 1) j)
        (loadLocalMeshsize2D getDx getDy bufM2 (i + 1) j)
    ∧ (∀ (lv lm : Cube K) (p : Parameters K),
        (duvdxLocals lv p lm).secondOrder
          = (duvdxEastFace lv lm - duvdxWestFace lv lm) / (2.0 * (0.5 * lm (mapd 0 0 0 0))))
    ∧ ((∀ a b : Int, 0 < getDx a b) → (∀ a b : Int, 0 < getDy a b) →
        0 < 0.5 * (loadLocalMeshsize2D getDx getDy bufM i j (mapd 0 0 0 1)
            + loadLocalMeshsize2D getDx getDy bufM i j (mapd 0 1 0 1))
        ∧ 0 < 0.5 * (loadLocalMeshsize2D getDx getDy bufM i j (mapd 0 0 0 0)
            + loadLocalMeshsize2D getDx getDy bufM i j (mapd 1 0 0 0))
        ∧ 0 < 0.5 * (loadLocalMeshsize2D getDx getDy bufM2 (i + 1) j (mapd 0 0 0 1)
            + loadLocalMeshsize2D getDx getDy bufM2 (i + 1) j (mapd 0 1 0 1))
        ∧ 0 < 0.5 * (loadLocalMeshsize2D getDx getDy bufM2 (i + 1) j (mapd 0 0 0 0)
            + loadLocalMeshsize2D getDx getDy bufM2 (i + 1) j (mapd (-1) 0 0 0))) := by
  have z : (-1 : Int) ≤ 0 ∧ (0 : Int) ≤ 1 := by norm_num
  have o : (-1 : Int) ≤ 1 ∧ (1 : Int) ≤ 1 := by norm_num
  have m : (-1 : Int) ≤ -1 ∧ (-1 : Int) ≤ 1 := by norm_num
  have c0 : (0 : Int) ≤ 0 ∧ (0 : Int) ≤ 1 := by norm_num
  have c1 : (0 : Int) ≤ 1 ∧ (1 : Int) ≤ 1 := by norm_num
  refine ⟨?_, fun lv lm p => rfl, ?_⟩
  swap
  · intro hx hy
    simp only [
      (loadLocalMeshsize2D_at getDx getDy bufM i j 0 0 z z).1,
      (loadLocalMeshsize2D_at getDx getDy bufM i j 1 0 o z).1,
      (loadLocalMeshsize2D_at getDx getDy bufM i j 0 0 z z).2,
      (loadLocalMeshsize2D_at getDx getDy bufM i j 0 1 z o).2,
      (loadLocalMeshsize2D_at getDx getDy bufM2 (i + 1) j 0 0 z z).1,
      (loadLocalMeshsize2D_at getDx getDy bufM2 (i + 1) j (-1) 0 m z).1,
      (loadLocalMeshsize2D_at getDx getDy bufM2 (i + 1) j 0 0 z z).2,
      (loadLocalMeshsize2D_at getDx getDy bufM2 (i + 1) j 0 1 z o).2]
    have h1 := hy (i + 0) (j + 0)
    have h2 := hy (i + 0) (j + 1)
    have h3 := hx (i + 0) (j + 0)
    have h4 := hx (i + 1) (j + 0)
    have h5 := hy (i + 1 + 0) (j + 0)
    have h6 := hy (i + 1 + 0) (j + 1)
    have h7 := hx (i + 1 + 0) (j + 0)
    have h8 := hx (i + 1 + -1) (j + 0)
    refine ⟨?_, ?_, ?_, ?_⟩ <;> positivity
  simp only [duvdxEastFace, duvdxWestFace,
    loadLocalVelocity2D_at getVector bufV i j 0 0 0 z z c0,
    loadLocalVelocity2D_at getVector bufV i j 0 1 0 z o c0,
    loadLocalVelocity2D_at getVector bufV i j 0 0 1 z z c1,
    loadLocalVelocity2D_at getVector bufV i j 1 0 1 o z c1,
    loadLocalVelocity2D_at getVector bufV2 (i + 1) j 0 0 1 z z c1,
    loadLocalVelocity2D_at getVector bufV2 (i + 1) j (-1) 0 0 m z c0,
    loadLocalVelocity2D_at getVector bufV2 (i + 1) j (-1) 1 0 m o c0,
    loadLocalVelocity2D_at getVector bufV2 (i + 1) j (-1) 0 1 m z c1,
    (loadLocalMeshsize2D_at getDx getDy bufM i j 0 0 z z).1,
    (loadLocalMeshsize2D_at getDx getDy bufM i j 1 0 o z).1,
    (loadLocalMeshsize2D_at getDx getDy bufM i j 0 0 z z).2,
    (loadLocalMeshsize2D_at getDx getDy bufM i j 0 1 z o).2,
    (loadLocalMeshsize2D_at getDx getDy bufM2 (i + 1) j 0 0 z z).1,
    (loadLocalMeshsize2D_at getDx getDy bufM2 (i + 1) j (-1) 0 m z).1,
    (loadLocalMeshsize2D_at getDx getDy bufM2 (i + 1) j 0 0 z z).2,
    (loadLocalMeshsize2D_at getDx getDy bufM2 (i + 1) j 0 1 z o).2,
    add_zero, add_neg_cancel_right]
  rw [hdy (i + 1) i j, hdy (i + 1) i (j + 1)]
  ring

/-- The consistency of the face fluxes at the cells `(2,3)` and `(3,3)` of a stretched
tensor-product mesh with a sheared velocity field: the common value of the two products is
`111066/29`. -/
theorem face_flux_consistency_witness :
    (∀ a b n : Int, tensorDy a n = tensorDy b n)
    ∧ duvdxEastFace (loadLocalVelocity2D shearField (fun _ => 0) 2 3)
        (loadLocalMeshsize2D tensorDx tensorDy (fun _ => 0) 2 3)
      = duvdxWestFace (loadLocalVelocity2D shearField (fun _ => 7) (2 + 1) 3)
        (loadLocalMeshsize2D tensorDx tensorDy (fun _ => 9) (2 + 1) 3)
    ∧ duvdxEastFace (loadLocalVelocity2D shearField (fun _ => 0) 2 3)
        (loadLocalMeshsize2D tensorDx tensorDy (fun _ => 0) 2 3) = 111066 / 29 :=
  ⟨fun _ _ _ => rfl,
   (face_flux_consistency shearField tensorDx tensorDy (fun _ => 0) (fun _ => 0) (fun _ => 7)
      (fun _ => 9) 2 3 (fun _ _ _ => rfl)).1,
   by
    norm_num [duvdxEastFace, loadLocalVelocity2D, loadLocalVelocity2DWrites, loadLocalMeshsize2D,
      loadLocalMeshsize2DWrites, store, Function.update, mapd, shearField, tensorDx, tensorDy]⟩

end Stencils
